import Mathlib

/-!
GLTF-Studio, Core3D playback controller, camera controller and material manager.

Shallow embedding of `Core3D/Managers/AnimationManager/AnimationController.{h,cpp}`, of
`Core3D/Managers/CameraManager/{CameraTypes.h,CameraController.h,CameraController.cpp}` and
of `Core3D/Managers/MaterialManager/{MaterialTypes.h,MaterialManager.h,MaterialManager.cpp}`.

* `float` values are embedded as `Flt`: an exact rational (every finite float is one) or
  NaN.  Arithmetic is exact; rounding and infinities are outside the embedding.
* `size_t` values are natural numbers; `SIZE_MAX = 2 ^ 64 - 1`.
* The borrowed `filament::gltfio::Animator*` is `Option Animator` (`none` is the null
  pointer).  The animator object carries the animations of the asset and the list of
  calls it has received, oldest first.
* In the camera controller and the material manager `float` values are the elements of an
  ordered field `K` (exact arithmetic); the `<cmath>` functions are arguments, and
  statements about distances and angles are made for `K = ℝ` with `Real.sqrt`,
  `Real.arccos`, `Real.sin` and `Real.cos`.
* The `unordered_map` members are functions from names to optional entries.
* The camera transition (`update`) is embedded a second time in binary32, `update32`:
  values are rationals and every arithmetic operation is rounded to the nearest binary32
  value, ties to even (`round32`); `sqrtf32` is the correctly rounded square root.
-/

namespace core3d

/-! ## Floating-point values -/

/-- A `float`: an exact rational value or NaN. -/
inductive Flt where
  | val (q : ℚ)
  | nan
  deriving DecidableEq, Repr

namespace Flt

/-- The literal `0.0f`. -/
def zero : Flt := val 0

/-- Float addition `a + b`; NaN is absorbing. -/
def add : Flt → Flt → Flt
  | val a, val b => val (a + b)
  | _, _ => nan

/-- Float division `a / b` as used behind a `b > 0` guard; NaN is absorbing and a zero
divisor gives no rational value. -/
def div : Flt → Flt → Flt
  | val a, val b => if b = 0 then nan else val (a / b)
  | _, _ => nan

/-- The comparison `a >= b`; false as soon as one side is NaN. -/
def ge : Flt → Flt → Bool
  | val a, val b => decide (b ≤ a)
  | _, _ => false

/-- The comparison `a > b`; false as soon as one side is NaN. -/
def gt : Flt → Flt → Bool
  | val a, val b => decide (b < a)
  | _, _ => false

/-- Rounding toward zero, the quotient used by C `fmod`. -/
def trunc (q : ℚ) : ℤ := if 0 ≤ q then ⌊q⌋ else ⌈q⌉

/-- C `fmodf(x, y)`: `x - n * y` with `n` the quotient `x / y` rounded toward zero; NaN when
`y` is zero or an argument is NaN. -/
def fmodf : Flt → Flt → Flt
  | val x, val y => if y = 0 then nan else val (x - (trunc (x / y) : ℚ) * y)
  | _, _ => nan

end Flt

/-! ## The animator backend -/

/-- The largest `size_t`, returned by `findAnimationByName` for "not found". -/
def SIZE_MAX : Nat := 2 ^ 64 - 1

/-- One animation of the asset as the animator reports it: the `const char*` name (possibly
null) and the duration in seconds. -/
structure Animation where
  name : Option String
  duration : Flt
  deriving DecidableEq, Repr

/-- A side-effecting call received by the animator. -/
inductive AnimatorCall where
  | applyAnimation (index : Nat) (time : Flt)
  | updateBoneMatrices
  deriving DecidableEq, Repr

/-- The external `filament::gltfio::Animator` object. -/
structure Animator where
  animations : List Animation
  calls : List AnimatorCall := []
  deriving DecidableEq, Repr

namespace Animator

/-- `Animator::getAnimationCount()`, a `size_t`. -/
def getAnimationCount (a : Animator) : Nat := a.animations.length % 2 ^ 64

/-- `Animator::getAnimationName(index)`: the C string, `none` for a null pointer. -/
def getAnimationName (a : Animator) (index : Nat) : Option String :=
  (a.animations.get? index).bind Animation.name

/-- `Animator::getAnimationDuration(index)`. -/
def getAnimationDuration (a : Animator) (index : Nat) : Flt :=
  ((a.animations.get? index).map Animation.duration).getD Flt.zero

/-- `Animator::applyAnimation(index, time)`: recorded in the call list. -/
def applyAnimation (a : Animator) (index : Nat) (time : Flt) : Animator :=
  { a with calls := a.calls ++ [AnimatorCall.applyAnimation index time] }

/-- `Animator::updateBoneMatrices()`: recorded in the call list. -/
def updateBoneMatrices (a : Animator) : Animator :=
  { a with calls := a.calls ++ [AnimatorCall.updateBoneMatrices] }

end Animator

/-! ## AnimationController -/

/-- The fields of `class AnimationController`, with the in-class default initialisers. -/
structure AnimationController where
  animator_ : Option Animator
  isPlaying_ : Bool := false
  isPaused_ : Bool := false
  shouldLoop_ : Bool := false
  currentIndex_ : Nat := 0
  elapsedTime_ : Flt := Flt.zero
  duration_ : Flt := Flt.zero
  deriving DecidableEq, Repr

namespace AnimationController

/-- The constructor `AnimationController(animator)`. -/
def new (animator : Option Animator) : AnimationController := { animator_ := animator }

/-! ### State queries -/

def isPlaying (c : AnimationController) : Bool := c.isPlaying_
def isPaused (c : AnimationController) : Bool := c.isPaused_
def isLooping (c : AnimationController) : Bool := c.shouldLoop_
def getCurrentIndex (c : AnimationController) : Nat := c.currentIndex_
def getElapsedTime (c : AnimationController) : Flt := c.elapsedTime_
def getDuration (c : AnimationController) : Flt := c.duration_

/-- `getProgress()`: `(duration_ > 0.0f) ? (elapsedTime_ / duration_) : 0.0f`. -/
def getProgress (c : AnimationController) : Flt :=
  if c.duration_.gt Flt.zero then c.elapsedTime_.div c.duration_ else Flt.zero

/-! ### Animation info -/

/-- `getAnimationCount()`. -/
def getAnimationCount (c : AnimationController) : Nat :=
  match c.animator_ with
  | none => 0
  | some a => a.getAnimationCount

/-- `getAnimationName(index)`. -/
def getAnimationName (c : AnimationController) (index : Nat) : String :=
  match c.animator_ with
  | none => ""
  | some a =>
    if index ≥ a.getAnimationCount then ""
    else
      match a.getAnimationName index with
      | some name => name
      | none => ""

/-- The loop of `getAnimationNames()`: `remaining` is `count - i`. -/
def getAnimationNamesLoop (c : AnimationController) : Nat → Nat → List String → List String
  | 0, _, names => names
  | remaining + 1, i, names =>
    getAnimationNamesLoop c remaining (i + 1) (names ++ [c.getAnimationName i])

/-- `getAnimationNames()`. -/
def getAnimationNames (c : AnimationController) : List String :=
  getAnimationNamesLoop c c.getAnimationCount 0 []

/-- `getAnimationDuration(index)`. -/
def getAnimationDuration (c : AnimationController) (index : Nat) : Flt :=
  match c.animator_ with
  | none => Flt.zero
  | some a =>
    if index ≥ a.getAnimationCount then Flt.zero
    else a.getAnimationDuration index

/-- The loop of `findAnimationByName`: `remaining` is `count - i`, so `remaining = 0` is
the exit `i == count`. -/
def findAnimationByNameLoop (c : AnimationController) (name : String) : Nat → Nat → Nat
  | 0, _ => SIZE_MAX
  | remaining + 1, i =>
    if c.getAnimationName i = name then i
    else findAnimationByNameLoop c name remaining (i + 1)

/-- `findAnimationByName(name)`. -/
def findAnimationByName (c : AnimationController) (name : String) : Nat :=
  findAnimationByNameLoop c name c.getAnimationCount 0

/-! ### Playback control -/

/-- `play(size_t index, bool loop)`. -/
def play (c : AnimationController) (index : Nat) (loop : Bool) : AnimationController :=
  match c.animator_ with
  | none => c
  | some a =>
    if index ≥ a.getAnimationCount then c
    else
      { c with
        currentIndex_ := index
        duration_ := a.getAnimationDuration index
        elapsedTime_ := Flt.zero
        isPlaying_ := true
        isPaused_ := false
        shouldLoop_ := loop }

/-- `play(const std::string& name, bool loop)`: the returned flag and the new state. -/
def playByName (c : AnimationController) (name : String) (loop : Bool) :
    Bool × AnimationController :=
  let index := c.findAnimationByName name
  if index = SIZE_MAX then (false, c)
  else (true, c.play index loop)

/-- `stop()`. -/
def stop (c : AnimationController) : AnimationController :=
  { c with
    isPlaying_ := false
    isPaused_ := false
    elapsedTime_ := Flt.zero
    shouldLoop_ := false }

/-- `pause()`. -/
def pause (c : AnimationController) : AnimationController :=
  if c.isPlaying_ then { c with isPaused_ := true } else c

/-- `resume()`. -/
def resume (c : AnimationController) : AnimationController :=
  if c.isPaused_ then { c with isPaused_ := false } else c

/-- `applyAnimationAtTime(index, time)`. -/
def applyAnimationAtTime (c : AnimationController) (index : Nat) (time : Flt) :
    AnimationController :=
  match c.animator_ with
  | none => c
  | some a => { c with animator_ := some ((a.applyAnimation index time).updateBoneMatrices) }

/-- `update(float deltaTime)`. -/
def update (c : AnimationController) (deltaTime : Flt) : AnimationController :=
  if !c.isPlaying_ || c.isPaused_ || c.animator_.isNone then c
  else
    let c1 := { c with elapsedTime_ := c.elapsedTime_.add deltaTime }
    if c1.elapsedTime_.ge c1.duration_ then
      if c1.shouldLoop_ then
        let c2 := { c1 with elapsedTime_ := Flt.fmodf c1.elapsedTime_ c1.duration_ }
        c2.applyAnimationAtTime c2.currentIndex_ c2.elapsedTime_
      else
        stop { c1 with elapsedTime_ := c1.duration_ }
    else
      c1.applyAnimationAtTime c1.currentIndex_ c1.elapsedTime_

/-- A run of `update` calls, one per frame, in order. -/
def updates (c : AnimationController) : List Flt → AnimationController
  | [] => c
  | dt :: rest => updates (c.update dt) rest

end AnimationController

/-- The list `[d₁, …, dₙ]` of rational frame times as `float` arguments. -/
def frames (ds : List ℚ) : List Flt := ds.map Flt.val

/-- Test backend: "Idle" (1 s) and "Run" (2 s). -/
def idleRun : Animator :=
  { animations := [⟨some "Idle", Flt.val 1⟩, ⟨some "Run", Flt.val 2⟩] }

/-- Sample state: "Idle" paused half-way through, on the test backend. -/
def pausedIdle : AnimationController :=
  { animator_ := some idleRun, isPlaying_ := true, isPaused_ := true, currentIndex_ := 0,
    elapsedTime_ := Flt.val (1 / 2), duration_ := Flt.val 1 }

/-- Sample state: "Run" playing once, half a second in, on the test backend. -/
def playingRun : AnimationController :=
  { animator_ := some idleRun, isPlaying_ := true, currentIndex_ := 1,
    elapsedTime_ := Flt.val (1 / 2), duration_ := Flt.val 2 }

/-- Test backend with a single zero-length animation "Still". -/
def stillPose : Animator :=
  { animations := [⟨some "Still", Flt.val 0⟩] }

/-! ## Reachable states -/

/-- A call of the public playback interface. -/
inductive Op where
  | play (index : Nat) (loop : Bool)
  | playByName (name : String) (loop : Bool)
  | stop
  | pause
  | resume
  | update (deltaTime : Flt)
  deriving DecidableEq, Repr

/-- The state after one call. -/
def AnimationController.step (c : AnimationController) : Op → AnimationController
  | .play index loop => c.play index loop
  | .playByName name loop => (c.playByName name loop).2
  | .stop => c.stop
  | .pause => c.pause
  | .resume => c.resume
  | .update deltaTime => c.update deltaTime

/-- The state after a sequence of calls, in order. -/
def AnimationController.run (c : AnimationController) : List Op → AnimationController
  | [] => c
  | op :: rest => AnimationController.run (c.step op) rest

/-- The calls the attached animator has received so far (none without an animator). -/
def AnimationController.backendCalls (c : AnimationController) : List AnimatorCall :=
  match c.animator_ with
  | none => []
  | some a => a.calls

/-- Every animation the animator reports has a positive, non-NaN duration. -/
def Animator.PositiveDurations (a : Animator) : Prop :=
  ∀ i, i < a.getAnimationCount → ∃ D : ℚ, a.getAnimationDuration i = Flt.val D ∧ 0 < D

/-- While playing, the elapsed time is a value in `[0, duration)`; the attached animator
keeps reporting positive durations. -/
def AnimationController.ElapsedInRange (c : AnimationController) : Prop :=
  (∀ a, c.animator_ = some a → a.PositiveDurations) ∧
  (c.isPlaying_ = true →
    ∃ e D : ℚ, c.elapsedTime_ = Flt.val e ∧ c.duration_ = Flt.val D ∧ 0 ≤ e ∧ e < D)

/-! ## Camera types (`Core3D/Managers/CameraManager/CameraTypes.h`)

The camera code is embedded over an arbitrary ordered field `K` of exact `float` values.
The `<cmath>` functions it calls (`sqrtf`, `atan2f`, `acosf`, `sinf`, `cosf`, `atanf`) are
external and are passed in as arguments; theorems about distances take `K = ℝ` and
`sqrtf = Real.sqrt`. -/

/-- `struct Vector3`. -/
structure Vector3 (K : Type) where
  x : K
  y : K
  z : K

namespace Vector3

variable {K : Type} [LinearOrderedField K]

/-- `Vector3()`: the zero vector. -/
def zero : Vector3 K := ⟨0, 0, 0⟩

/-- `operator+`. -/
def add (a b : Vector3 K) : Vector3 K := ⟨a.x + b.x, a.y + b.y, a.z + b.z⟩

/-- `operator-`. -/
def sub (a b : Vector3 K) : Vector3 K := ⟨a.x - b.x, a.y - b.y, a.z - b.z⟩

/-- `operator*(float scalar)`. -/
def mul (a : Vector3 K) (scalar : K) : Vector3 K := ⟨a.x * scalar, a.y * scalar, a.z * scalar⟩

/-- `length()`: `sqrtf(x * x + y * y + z * z)`. -/
def length (a : Vector3 K) (sqrtf : K → K) : K := sqrtf (a.x * a.x + a.y * a.y + a.z * a.z)

/-- `normalized()`. -/
def normalized (a : Vector3 K) (sqrtf : K → K) : Vector3 K :=
  let len := a.length sqrtf
  if len > 0 then ⟨a.x / len, a.y / len, a.z / len⟩ else ⟨0, 0, 0⟩

end Vector3

/-- `struct Quaternion`. -/
structure Quaternion (K : Type) where
  x : K
  y : K
  z : K
  w : K

/-- `Quaternion()`: the identity `(0, 0, 0, 1)`. -/
def Quaternion.identity {K : Type} [LinearOrderedField K] : Quaternion K := ⟨0, 0, 0, 1⟩

/-- `struct CameraPreset`. -/
structure CameraPreset (K : Type) where
  position : Vector3 K
  lookAt : Vector3 K

/-- `struct CameraState`. -/
structure CameraState (K : Type) where
  position : Vector3 K
  lookAt : Vector3 K
  upVector : Vector3 K
  orbitRotation : Quaternion K
  orbitDistance : K
  isMoving : Bool

/-- `CameraState()`: up vector `(0, 1, 0)`, orbit distance `10`, not moving. -/
def CameraState.init {K : Type} [LinearOrderedField K] : CameraState K :=
  { position := Vector3.zero
    lookAt := Vector3.zero
    upVector := ⟨0, 1, 0⟩
    orbitRotation := Quaternion.identity
    orbitDistance := 10
    isMoving := false }

/-- `struct CameraConfig`. -/
structure CameraConfig (K : Type) where
  focalLengthMM : K
  sensorHeightMM : K
  aspectRatio : K
  nearPlane : K
  farPlane : K

/-- `CameraConfig()`. -/
def CameraConfig.init {K : Type} [LinearOrderedField K] : CameraConfig K :=
  { focalLengthMM := 80
    sensorHeightMM := 24
    aspectRatio := 16 / 9
    nearPlane := 1 / 10
    farPlane := 1000 }

/-- `CameraConfig::calculateVerticalFOV()`. -/
def CameraConfig.calculateVerticalFOV {K : Type} [LinearOrderedField K] (cfg : CameraConfig K)
    (atanf : K → K) : K :=
  2 * atanf (cfg.sensorHeightMM / (2 * cfg.focalLengthMM))

/-- `struct OrbitConfig`. -/
structure OrbitConfig (K : Type) where
  minDistance : K
  maxDistance : K
  target : Vector3 K

/-- `OrbitConfig()`: distances in `[2, 50]` around the origin. -/
def OrbitConfig.init {K : Type} [LinearOrderedField K] : OrbitConfig K :=
  { minDistance := 2
    maxDistance := 50
    target := Vector3.zero }

/-- `std::clamp(v, lo, hi)`. -/
def stdClamp {K : Type} [LinearOrderedField K] (v lo hi : K) : K :=
  if v < lo then lo else if hi < v then hi else v

/-- `std::min(a, b)`. -/
def stdMin {K : Type} [LinearOrderedField K] (a b : K) : K :=
  if b < a then b else a

/-! ## CameraController (`CameraController.{h,cpp}`) -/

/-- The fields of `class CameraController`; `presets_` is the `unordered_map` seen through
`find`. -/
structure CameraController (K : Type) where
  config_ : CameraConfig K
  orbitConfig_ : OrbitConfig K
  currentState_ : CameraState K
  targetState_ : CameraState K
  presets_ : String → Option (CameraPreset K)
  orbitEnabled_ : Bool
  transitionSpeed_ : K

namespace CameraController

variable {K : Type} [LinearOrderedField K]

/-- The constructor `CameraController()` with the in-class default initialisers. -/
def new : CameraController K :=
  { config_ := CameraConfig.init
    orbitConfig_ := OrbitConfig.init
    currentState_ := { (CameraState.init : CameraState K) with upVector := ⟨0, 1, 0⟩ }
    targetState_ := { (CameraState.init : CameraState K) with upVector := ⟨0, 1, 0⟩ }
    presets_ := fun _ => none
    orbitEnabled_ := false
    transitionSpeed_ := 5 }

/-- `getState()`. -/
def getState (c : CameraController K) : CameraState K := c.currentState_

/-- `isMoving()`. -/
def isMoving (c : CameraController K) : Bool := c.currentState_.isMoving

/-- `isOrbitEnabled()`. -/
def isOrbitEnabled (c : CameraController K) : Bool := c.orbitEnabled_

/-- `getConfig()`. -/
def getConfig (c : CameraController K) : CameraConfig K := c.config_

/-- `setConfig(config)`. -/
def setConfig (c : CameraController K) (config : CameraConfig K) : CameraController K :=
  { c with config_ := config }

/-- `setOrbitConfig(config)`. -/
def setOrbitConfig (c : CameraController K) (config : OrbitConfig K) : CameraController K :=
  { c with orbitConfig_ := config }

/-- `registerPreset(name, preset)`: `presets_[name] = preset`. -/
def registerPreset (c : CameraController K) (name : String) (preset : CameraPreset K) :
    CameraController K :=
  { c with presets_ := fun n => if n = name then some preset else c.presets_ n }

/-- `getPreset(name)`; `none` is the null pointer. -/
def getPreset (c : CameraController K) (name : String) : Option (CameraPreset K) :=
  c.presets_ name

/-- `moveToPreset(name, smooth)`: the returned flag and the new state. -/
def moveToPreset (c : CameraController K) (name : String) (smooth : Bool) :
    Bool × CameraController K :=
  match c.presets_ name with
  | none => (false, c)
  | some preset =>
    if smooth then
      (true,
        { c with
          targetState_ :=
            { c.targetState_ with position := preset.position, lookAt := preset.lookAt }
          currentState_ := { c.currentState_ with isMoving := true } })
    else
      (true,
        { c with
          currentState_ :=
            { c.currentState_ with
              position := preset.position, lookAt := preset.lookAt, isMoving := false }
          targetState_ :=
            { c.targetState_ with position := preset.position, lookAt := preset.lookAt } })

/-- `setCamera(position, lookAt)`. -/
def setCamera (c : CameraController K) (sqrtf : K → K) (position lookAt : Vector3 K) :
    CameraController K :=
  let dir := position.sub lookAt
  { c with
    currentState_ :=
      { c.currentState_ with
        position := position, lookAt := lookAt, isMoving := false
        orbitDistance := dir.length sqrtf }
    targetState_ := { c.targetState_ with position := position, lookAt := lookAt } }

/-- `initializeOrbitFromCamera()`. -/
def initializeOrbitFromCamera (c : CameraController K) (sqrtf : K → K) : CameraController K :=
  let dir := c.currentState_.position.sub c.orbitConfig_.target
  { c with
    currentState_ := { c.currentState_ with orbitDistance := dir.length sqrtf }
    targetState_ := { c.targetState_ with orbitDistance := dir.length sqrtf } }

/-- `setOrbitEnabled(enabled)`. -/
def setOrbitEnabled (c : CameraController K) (sqrtf : K → K) (enabled : Bool) :
    CameraController K :=
  if enabled then initializeOrbitFromCamera { c with orbitEnabled_ := enabled } sqrtf
  else { c with orbitEnabled_ := enabled }

/-- `applyOrbitRotation(deltaX, deltaY)`. -/
def applyOrbitRotation (c : CameraController K) (sqrtf : K → K) (atan2f : K → K → K)
    (acosf sinf cosf : K → K) (deltaX deltaY : K) : CameraController K :=
  if !c.orbitEnabled_ then c
  else
    let dir := c.currentState_.position.sub c.orbitConfig_.target
    let distance := dir.length sqrtf
    let theta := atan2f dir.x dir.z + deltaX
    let phi := stdClamp (acosf (dir.y / distance) + deltaY) (1 / 10) (304 / 100)
    let newPos : Vector3 K :=
      ⟨distance * sinf phi * sinf theta, distance * cosf phi, distance * sinf phi * cosf theta⟩
    let position := c.orbitConfig_.target.add newPos
    { c with
      currentState_ :=
        { c.currentState_ with position := position, lookAt := c.orbitConfig_.target }
      targetState_ :=
        { c.targetState_ with position := position, lookAt := c.orbitConfig_.target } }

/-- `applyOrbitZoom(delta)`. -/
def applyOrbitZoom (c : CameraController K) (sqrtf : K → K) (delta : K) : CameraController K :=
  if !c.orbitEnabled_ then c
  else
    let dir := c.currentState_.position.sub c.orbitConfig_.target
    let currentDistance := dir.length sqrtf
    let newDistance :=
      stdClamp (currentDistance + delta) c.orbitConfig_.minDistance c.orbitConfig_.maxDistance
    if currentDistance > 0 then
      let normalizedDir := dir.mul (1 / currentDistance)
      let position := c.orbitConfig_.target.add (normalizedDir.mul newDistance)
      { c with
        currentState_ :=
          { c.currentState_ with position := position, orbitDistance := newDistance }
        targetState_ := { c.targetState_ with position := position } }
    else c

/-- `lerpVector(a, b, t)`: `a + (b - a) * t`. -/
def lerpVector (a b : Vector3 K) (t : K) : Vector3 K := a.add ((b.sub a).mul t)

/-- `update(deltaTime)`. -/
def update (c : CameraController K) (sqrtf : K → K) (deltaTime : K) : CameraController K :=
  if !c.currentState_.isMoving then c
  else
    let positionDiff := c.targetState_.position.sub c.currentState_.position
    let positionDistance := positionDiff.length sqrtf
    let lookAtDiff := c.targetState_.lookAt.sub c.currentState_.lookAt
    let lookAtDistance := lookAtDiff.length sqrtf
    if positionDistance < 1 / 100 ∧ lookAtDistance < 1 / 100 then
      { c with
        currentState_ :=
          { c.currentState_ with
            position := c.targetState_.position
            lookAt := c.targetState_.lookAt
            isMoving := false } }
    else
      let t := stdMin (deltaTime * c.transitionSpeed_) 1
      { c with
        currentState_ :=
          { c.currentState_ with
            position := lerpVector c.currentState_.position c.targetState_.position t
            lookAt := lerpVector c.currentState_.lookAt c.targetState_.lookAt t } }

/-- The state after `n` calls of `update(deltaTime)` with a fixed frame time. -/
def updates (c : CameraController K) (sqrtf : K → K) (deltaTime : K) : Nat → CameraController K
  | 0 => c
  | n + 1 => updates (c.update sqrtf deltaTime) sqrtf deltaTime n

end CameraController

/-- The stored orbit distance of the current state lies within the configured bounds. -/
def CameraController.OrbitDistanceInBounds {K : Type} [LinearOrderedField K]
    (c : CameraController K) : Prop :=
  c.orbitConfig_.minDistance ≤ c.currentState_.orbitDistance ∧
  c.currentState_.orbitDistance ≤ c.orbitConfig_.maxDistance

/-- Sample preset "Top": position `(0, 10, 0)` looking at the origin. -/
def topPreset {K : Type} [LinearOrderedField K] : CameraPreset K :=
  ⟨⟨0, 10, 0⟩, ⟨0, 0, 0⟩⟩

/-- Sample state: a fresh controller with "Top" registered. -/
def withTop {K : Type} [LinearOrderedField K] : CameraController K :=
  CameraController.new.registerPreset "Top" topPreset

/-- Sample state: a smooth move to "Top" just requested from the constructed pose. -/
def movingToTop {K : Type} [LinearOrderedField K] : CameraController K :=
  (withTop.moveToPreset "Top" true).2

/-- Sample state: orbit enabled around the origin with the camera at `(0, 0, 4)`. -/
def orbitingAtFour {K : Type} [LinearOrderedField K] : CameraController K :=
  { (CameraController.new : CameraController K) with
    currentState_ := { (CameraState.init : CameraState K) with position := ⟨0, 0, 4⟩ }
    orbitEnabled_ := true }

/-! ## Reachable camera states -/

/-- A call of the public camera interface. -/
inductive CameraOp (K : Type) where
  | setConfig (config : CameraConfig K)
  | setOrbitConfig (config : OrbitConfig K)
  | registerPreset (name : String) (preset : CameraPreset K)
  | moveToPreset (name : String) (smooth : Bool)
  | setCamera (position lookAt : Vector3 K)
  | setOrbitEnabled (enabled : Bool)
  | applyOrbitRotation (deltaX deltaY : K)
  | applyOrbitZoom (delta : K)
  | initializeOrbitFromCamera
  | update (deltaTime : K)

/-- The camera state after one call, for given `<cmath>` functions. -/
def CameraController.step {K : Type} [LinearOrderedField K] (c : CameraController K)
    (sqrtf : K → K) (atan2f : K → K → K) (acosf sinf cosf : K → K) :
    CameraOp K → CameraController K
  | .setConfig config => c.setConfig config
  | .setOrbitConfig config => c.setOrbitConfig config
  | .registerPreset name preset => c.registerPreset name preset
  | .moveToPreset name smooth => (c.moveToPreset name smooth).2
  | .setCamera position lookAt => c.setCamera sqrtf position lookAt
  | .setOrbitEnabled enabled => c.setOrbitEnabled sqrtf enabled
  | .applyOrbitRotation deltaX deltaY =>
    c.applyOrbitRotation sqrtf atan2f acosf sinf cosf deltaX deltaY
  | .applyOrbitZoom delta => c.applyOrbitZoom sqrtf delta
  | .initializeOrbitFromCamera => c.initializeOrbitFromCamera sqrtf
  | .update deltaTime => c.update sqrtf deltaTime

/-- The camera state after a sequence of calls, in order. -/
def CameraController.run {K : Type} [LinearOrderedField K] (c : CameraController K)
    (sqrtf : K → K) (atan2f : K → K → K) (acosf sinf cosf : K → K) :
    List (CameraOp K) → CameraController K
  | [] => c
  | op :: rest =>
    CameraController.run (c.step sqrtf atan2f acosf sinf cosf op) sqrtf atan2f acosf sinf cosf
      rest

/-- The state after a sequence of `applyOrbitRotation(deltaX, deltaY)` gestures. -/
def CameraController.rotations {K : Type} [LinearOrderedField K] (c : CameraController K)
    (sqrtf : K → K) (atan2f : K → K → K) (acosf sinf cosf : K → K) :
    List (K × K) → CameraController K
  | [] => c
  | g :: rest =>
    CameraController.rotations
      (c.applyOrbitRotation sqrtf atan2f acosf sinf cosf g.1 g.2) sqrtf atan2f acosf sinf cosf
      rest

/-- The distance of the current position from the orbit target, as `applyOrbitRotation` and
`applyOrbitZoom` compute it. -/
def CameraController.orbitDistanceNow {K : Type} [LinearOrderedField K]
    (c : CameraController K) (sqrtf : K → K) : K :=
  (c.currentState_.position.sub c.orbitConfig_.target).length sqrtf

/-- The elevation angle of the current position about the orbit target, as
`applyOrbitRotation` computes it: `acosf(dir.y / distance)`. -/
def CameraController.elevation {K : Type} [LinearOrderedField K] (c : CameraController K)
    (sqrtf acosf : K → K) : K :=
  acosf ((c.currentState_.position.sub c.orbitConfig_.target).y /
    (c.currentState_.position.sub c.orbitConfig_.target).length sqrtf)

/-- Sample state: orbit enabled with the camera at `(0, 0, 4)` looking at `(0, 0, 1)`, and a
smooth move to "Top" just requested. -/
def orbitingMidMove {K : Type} [LinearOrderedField K] : CameraController K :=
  { (withTop : CameraController K) with
    currentState_ :=
      { (CameraState.init : CameraState K) with
        position := ⟨0, 0, 4⟩, lookAt := ⟨0, 0, 1⟩, orbitDistance := 4, isMoving := true }
    targetState_ :=
      { (CameraState.init : CameraState K) with
        position := ⟨0, 10, 0⟩, lookAt := ⟨0, 0, 0⟩, orbitDistance := 4 }
    orbitEnabled_ := true }

/-! ## Materials (`Core3D/Managers/MaterialManager/{MaterialTypes.h,MaterialManager.cpp}`) -/

/-- `struct MaterialColor`. -/
structure MaterialColor (K : Type) where
  r : K
  g : K
  b : K
  a : K

/-- `MaterialColor()`: opaque white. -/
def MaterialColor.init {K : Type} [LinearOrderedField K] : MaterialColor K := ⟨1, 1, 1, 1⟩

/-- `struct PBRProperties`. -/
structure PBRProperties (K : Type) where
  metallic : K
  roughness : K
  reflectance : K
  clearCoat : K
  clearCoatRoughness : K
  anisotropy : K

/-- `PBRProperties()`. -/
def PBRProperties.init {K : Type} [LinearOrderedField K] : PBRProperties K :=
  { metallic := 0
    roughness := 1 / 2
    reflectance := 1 / 2
    clearCoat := 0
    clearCoatRoughness := 0
    anisotropy := 0 }

/-- `enum class TextureSlot`. -/
inductive TextureSlot where
  | BaseColor
  | Normal
  | Metallic
  | Roughness
  | AmbientOcclusion
  | Emissive
  deriving DecidableEq, Repr

/-- `struct MaterialConfig`. -/
structure MaterialConfig (K : Type) where
  name : String
  baseColor : MaterialColor K
  pbr : PBRProperties K
  baseColorTexture : String
  normalTexture : String
  metallicRoughnessTexture : String
  aoTexture : String
  emissiveTexture : String
  doubleSided : Bool
  unlit : Bool

/-- `MaterialConfig()`. -/
def MaterialConfig.init {K : Type} [LinearOrderedField K] : MaterialConfig K :=
  { name := "DefaultMaterial"
    baseColor := MaterialColor.init
    pbr := PBRProperties.init
    baseColorTexture := ""
    normalTexture := ""
    metallicRoughnessTexture := ""
    aoTexture := ""
    emissiveTexture := ""
    doubleSided := false
    unlit := false }

/-- `enum class MaterialPreset`. -/
inductive MaterialPreset where
  | GlossyPaint
  | MattePaint
  | MetallicPaint
  | Chrome
  | AluminumAlloy
  | Leather
  | Fabric
  | Plastic
  | Glass
  | TintedGlass
  | Rubber
  | Carbon
  deriving DecidableEq, Repr

/-- `std::max(a, b)`. -/
def stdMax {K : Type} [LinearOrderedField K] (a b : K) : K :=
  if a < b then b else a

/-- The fields of `class MaterialManager`; `materials_` is the `unordered_map` seen through
`find`. -/
structure MaterialManager (K : Type) where
  materials_ : String → Option (MaterialConfig K)

namespace MaterialManager

variable {K : Type} [LinearOrderedField K]

/-- The constructor `MaterialManager()`: no part is configured. -/
def new : MaterialManager K := { materials_ := fun _ => none }

/-- `clamp01(value)`: `std::max(0.0f, std::min(1.0f, value))`. -/
def clamp01 (value : K) : K := stdMax 0 (stdMin 1 value)

/-- The entry `materials_[partName]`: default-constructed when the part is absent. -/
def entry (m : MaterialManager K) (partName : String) : MaterialConfig K :=
  match m.materials_ partName with
  | some config => config
  | none => MaterialConfig.init

/-- Writing `materials_[partName] = config`. -/
def store (m : MaterialManager K) (partName : String) (config : MaterialConfig K) :
    MaterialManager K :=
  { materials_ := fun n => if n = partName then some config else m.materials_ n }

/-- `setMaterial(partName, config)`. -/
def setMaterial (m : MaterialManager K) (partName : String) (config : MaterialConfig K) :
    MaterialManager K :=
  m.store partName config

/-- `getMaterial(partName)`; `none` is the null pointer. -/
def getMaterial (m : MaterialManager K) (partName : String) : Option (MaterialConfig K) :=
  m.materials_ partName

/-- `hasMaterial(partName)`. -/
def hasMaterial (m : MaterialManager K) (partName : String) : Bool :=
  (m.materials_ partName).isSome

/-- `setBaseColor(partName, r, g, b, a)`. -/
def setBaseColor (m : MaterialManager K) (partName : String) (r g b a : K) :
    MaterialManager K :=
  m.store partName
    { m.entry partName with baseColor := ⟨clamp01 r, clamp01 g, clamp01 b, clamp01 a⟩ }

/-- `setPBRProperties(partName, pbr)`. -/
def setPBRProperties (m : MaterialManager K) (partName : String) (pbr : PBRProperties K) :
    MaterialManager K :=
  m.store partName { m.entry partName with pbr := pbr }

/-- `setMetallic(partName, metallic)`. -/
def setMetallic (m : MaterialManager K) (partName : String) (metallic : K) :
    MaterialManager K :=
  m.store partName
    { m.entry partName with pbr := { (m.entry partName).pbr with metallic := clamp01 metallic } }

/-- `setRoughness(partName, roughness)`. -/
def setRoughness (m : MaterialManager K) (partName : String) (roughness : K) :
    MaterialManager K :=
  m.store partName
    { m.entry partName with
      pbr := { (m.entry partName).pbr with roughness := clamp01 roughness } }

/-- `setClearCoat(partName, clearCoat, roughness)`. -/
def setClearCoat (m : MaterialManager K) (partName : String) (clearCoat roughness : K) :
    MaterialManager K :=
  m.store partName
    { m.entry partName with
      pbr :=
        { (m.entry partName).pbr with
          clearCoat := clamp01 clearCoat
          clearCoatRoughness := clamp01 roughness } }

/-- `setTexture(partName, slot, texturePath)`. -/
def setTexture (m : MaterialManager K) (partName : String) (slot : TextureSlot)
    (texturePath : String) : MaterialManager K :=
  match slot with
  | .BaseColor => m.store partName { m.entry partName with baseColorTexture := texturePath }
  | .Normal => m.store partName { m.entry partName with normalTexture := texturePath }
  | .Metallic =>
    m.store partName { m.entry partName with metallicRoughnessTexture := texturePath }
  | .Roughness =>
    m.store partName { m.entry partName with metallicRoughnessTexture := texturePath }
  | .AmbientOcclusion => m.store partName { m.entry partName with aoTexture := texturePath }
  | .Emissive => m.store partName { m.entry partName with emissiveTexture := texturePath }

/-- `getPresetName(preset)`. -/
def getPresetName : MaterialPreset → String
  | .GlossyPaint => "GlossyPaint"
  | .MattePaint => "MattePaint"
  | .MetallicPaint => "MetallicPaint"
  | .Chrome => "Chrome"
  | .AluminumAlloy => "AluminumAlloy"
  | .Leather => "Leather"
  | .Fabric => "Fabric"
  | .Plastic => "Plastic"
  | .Glass => "Glass"
  | .TintedGlass => "TintedGlass"
  | .Rubber => "Rubber"
  | .Carbon => "CarbonFiber"

/-- `getPresetConfig(preset)`. -/
def getPresetConfig : MaterialPreset → MaterialConfig K
  | .GlossyPaint =>
    { (MaterialConfig.init : MaterialConfig K) with
      name := "GlossyPaint"
      pbr :=
        { (PBRProperties.init : PBRProperties K) with
          metallic := 8 / 10, roughness := 2 / 10, clearCoat := 1
          clearCoatRoughness := 1 / 10 } }
  | .MattePaint =>
    { (MaterialConfig.init : MaterialConfig K) with
      name := "MattePaint"
      pbr :=
        { (PBRProperties.init : PBRProperties K) with
          metallic := 0, roughness := 8 / 10, clearCoat := 0 } }
  | .MetallicPaint =>
    { (MaterialConfig.init : MaterialConfig K) with
      name := "MetallicPaint"
      pbr :=
        { (PBRProperties.init : PBRProperties K) with
          metallic := 9 / 10, roughness := 3 / 10, clearCoat := 8 / 10
          clearCoatRoughness := 15 / 100 } }
  | .Chrome =>
    { (MaterialConfig.init : MaterialConfig K) with
      name := "Chrome"
      pbr :=
        { (PBRProperties.init : PBRProperties K) with
          metallic := 1, roughness := 5 / 100, reflectance := 1 } }
  | .AluminumAlloy =>
    { (MaterialConfig.init : MaterialConfig K) with
      name := "AluminumAlloy"
      pbr :=
        { (PBRProperties.init : PBRProperties K) with
          metallic := 1, roughness := 4 / 10, reflectance := 9 / 10 } }
  | .Leather =>
    { (MaterialConfig.init : MaterialConfig K) with
      name := "Leather"
      pbr :=
        { (PBRProperties.init : PBRProperties K) with
          metallic := 0, roughness := 6 / 10, reflectance := 4 / 10 } }
  | .Fabric =>
    { (MaterialConfig.init : MaterialConfig K) with
      name := "Fabric"
      pbr :=
        { (PBRProperties.init : PBRProperties K) with
          metallic := 0, roughness := 9 / 10, reflectance := 3 / 10 } }
  | .Plastic =>
    { (MaterialConfig.init : MaterialConfig K) with
      name := "Plastic"
      pbr :=
        { (PBRProperties.init : PBRProperties K) with
          metallic := 0, roughness := 5 / 10, reflectance := 5 / 10 } }
  | .Glass =>
    { (MaterialConfig.init : MaterialConfig K) with
      name := "Glass"
      pbr :=
        { (PBRProperties.init : PBRProperties K) with
          metallic := 0, roughness := 0, reflectance := 5 / 10 }
      baseColor := ⟨1, 1, 1, 3 / 10⟩ }
  | .TintedGlass =>
    { (MaterialConfig.init : MaterialConfig K) with
      name := "TintedGlass"
      pbr :=
        { (PBRProperties.init : PBRProperties K) with
          metallic := 0, roughness := 0, reflectance := 5 / 10 }
      baseColor := ⟨2 / 10, 2 / 10, 2 / 10, 5 / 10⟩ }
  | .Rubber =>
    { (MaterialConfig.init : MaterialConfig K) with
      name := "Rubber"
      pbr :=
        { (PBRProperties.init : PBRProperties K) with
          metallic := 0, roughness := 85 / 100, reflectance := 35 / 100 }
      baseColor := ⟨1 / 10, 1 / 10, 1 / 10, 1⟩ }
  | .Carbon =>
    { (MaterialConfig.init : MaterialConfig K) with
      name := "CarbonFiber"
      pbr :=
        { (PBRProperties.init : PBRProperties K) with
          metallic := 2 / 10, roughness := 4 / 10, anisotropy := 8 / 10 }
      baseColor := ⟨5 / 100, 5 / 100, 5 / 100, 1⟩ }

/-- `applyPreset(partName, preset)`. -/
def applyPreset (m : MaterialManager K) (partName : String) (preset : MaterialPreset) :
    MaterialManager K :=
  m.setMaterial partName
    { (getPresetConfig preset : MaterialConfig K) with
      name := partName ++ "_" ++ getPresetName preset }

/-- `clear()`. -/
def clear (_m : MaterialManager K) : MaterialManager K := { materials_ := fun _ => none }

end MaterialManager

/-- Each PBR scalar lies in `[0, 1]`. -/
def PBRProperties.InRange {K : Type} [LinearOrderedField K] (p : PBRProperties K) : Prop :=
  (0 ≤ p.metallic ∧ p.metallic ≤ 1) ∧ (0 ≤ p.roughness ∧ p.roughness ≤ 1) ∧
  (0 ≤ p.reflectance ∧ p.reflectance ≤ 1) ∧ (0 ≤ p.clearCoat ∧ p.clearCoat ≤ 1) ∧
  (0 ≤ p.clearCoatRoughness ∧ p.clearCoatRoughness ≤ 1) ∧
  (0 ≤ p.anisotropy ∧ p.anisotropy ≤ 1)

/-- Every stored part has its PBR scalars in `[0, 1]`. -/
def MaterialManager.AllInRange {K : Type} [LinearOrderedField K] (m : MaterialManager K) :
    Prop :=
  ∀ partName config, m.materials_ partName = some config → config.pbr.InRange

/-- A call of the public material interface that changes the store. -/
inductive MaterialOp (K : Type) where
  | setMaterial (partName : String) (config : MaterialConfig K)
  | setPBRProperties (partName : String) (pbr : PBRProperties K)
  | setMetallic (partName : String) (metallic : K)
  | setRoughness (partName : String) (roughness : K)
  | setClearCoat (partName : String) (clearCoat roughness : K)
  | setBaseColor (partName : String) (r g b a : K)
  | setTexture (partName : String) (slot : TextureSlot) (texturePath : String)
  | applyPreset (partName : String) (preset : MaterialPreset)
  | clear

/-- The material store after one call. -/
def MaterialManager.step {K : Type} [LinearOrderedField K] (m : MaterialManager K) :
    MaterialOp K → MaterialManager K
  | .setMaterial partName config => m.setMaterial partName config
  | .setPBRProperties partName pbr => m.setPBRProperties partName pbr
  | .setMetallic partName metallic => m.setMetallic partName metallic
  | .setRoughness partName roughness => m.setRoughness partName roughness
  | .setClearCoat partName clearCoat roughness => m.setClearCoat partName clearCoat roughness
  | .setBaseColor partName r g b a => m.setBaseColor partName r g b a
  | .setTexture partName slot texturePath => m.setTexture partName slot texturePath
  | .applyPreset partName preset => m.applyPreset partName preset
  | .clear => m.clear

/-- The material store after a sequence of calls, in order. -/
def MaterialManager.run {K : Type} [LinearOrderedField K] (m : MaterialManager K) :
    List (MaterialOp K) → MaterialManager K
  | [] => m
  | op :: rest => MaterialManager.run (m.step op) rest

/-- The calls that store caller-supplied PBR values unclamped carry values in range. -/
def MaterialOp.SuppliesInRange {K : Type} [LinearOrderedField K] : MaterialOp K → Prop
  | .setMaterial _ config => config.pbr.InRange
  | .setPBRProperties _ pbr => pbr.InRange
  | _ => True

/-- Sample PBR values with `metallic = 2`, outside `[0, 1]`. -/
def overdrivenPBR {K : Type} [LinearOrderedField K] : PBRProperties K :=
  { (PBRProperties.init : PBRProperties K) with metallic := 2 }

/-! ## binary32 arithmetic

The camera transition is embedded a second time with the rounding of the program's `float`
type: binary32 values are the rationals `m * 2 ^ (e - 23)` with `|m| < 2 ^ 24` and
`e >= -126`, and every arithmetic operation is followed by rounding to the nearest such
value, ties to even.  Overflow to infinity is outside this embedding. -/

/-- Rounding to the nearest integer, ties to the even one. -/
def roundHalfEven (q : ℚ) : ℤ :=
  if q - ⌊q⌋ < 1 / 2 then ⌊q⌋
  else if 1 / 2 < q - ⌊q⌋ then ⌊q⌋ + 1
  else if ⌊q⌋ % 2 = 0 then ⌊q⌋ else ⌊q⌋ + 1

/-- The spacing of binary32 values around `q`: `2 ^ (e - 23)` with `e = ⌊log2 |q|⌋`, and
`e = -126` in the subnormal range. -/
def ulp32 (q : ℚ) : ℚ := (2 : ℚ) ^ (max (Int.log 2 |q|) (-126) - 23)

/-- Rounding of a real value to binary32, to nearest with ties to even. -/
def round32 (q : ℚ) : ℚ := (roundHalfEven (q / ulp32 q) : ℚ) * ulp32 q

/-- Correctly rounded `sqrtf`: with `r` the integer square root of `⌊q * 4 ^ 512⌋`, the
square root lies in `[r, r + 1) / 2 ^ 512`, a range too narrow to hold a binary32 value or a
midpoint of two in its interior, so rounding `r` (exact root) or `r + 1/2` (otherwise)
gives the binary32 value nearest to the square root. -/
def sqrtf32 (q : ℚ) : ℚ :=
  if (Nat.sqrt ⌊q * 4 ^ 512⌋.toNat : ℚ) ^ 2 = q * 4 ^ 512 then
    round32 ((Nat.sqrt ⌊q * 4 ^ 512⌋.toNat : ℚ) / 2 ^ 512)
  else round32 (((Nat.sqrt ⌊q * 4 ^ 512⌋.toNat : ℚ) + 1 / 2) / 2 ^ 512)

end core3d

namespace core3d

open AnimationController

/-! ## Basic facts -/

theorem Animator.getAnimationCount_lt (a : Animator) : a.getAnimationCount < 2 ^ 64 :=
  Nat.mod_lt _ (by norm_num)

theorem AnimationController.getAnimationCount_le_SIZE_MAX (c : AnimationController) :
    c.getAnimationCount ≤ SIZE_MAX := by
  unfold AnimationController.getAnimationCount SIZE_MAX
  cases c.animator_ with
  | none => simp
  | some a =>
    have := a.getAnimationCount_lt
    simp only
    omega

/-- The scan returns `SIZE_MAX` when no index in `[i, i + remaining)` carries the name. -/
theorem findAnimationByNameLoop_none (c : AnimationController) (name : String) :
    ∀ (remaining i : Nat),
      (∀ j, i ≤ j → j < i + remaining → c.getAnimationName j ≠ name) →
      c.findAnimationByNameLoop name remaining i = SIZE_MAX := by
  intro remaining
  induction remaining with
  | zero => intro i _; rfl
  | succ r ih =>
    intro i h
    have h0 : c.getAnimationName i ≠ name := h i (le_refl i) (by omega)
    simp only [findAnimationByNameLoop, if_neg h0]
    exact ih (i + 1) (fun j hj1 hj2 => h j (by omega) (by omega))

/-- The scan returns the first index in `[i, i + remaining)` that carries the name. -/
theorem findAnimationByNameLoop_first (c : AnimationController) (name : String) :
    ∀ (remaining i k : Nat), i ≤ k → k < i + remaining →
      c.getAnimationName k = name →
      (∀ j, i ≤ j → j < k → c.getAnimationName j ≠ name) →
      c.findAnimationByNameLoop name remaining i = k := by
  intro remaining
  induction remaining with
  | zero => intro i k h1 h2; omega
  | succ r ih =>
    intro i k h1 h2 hk hmin
    by_cases hik : i = k
    · subst hik
      simp [findAnimationByNameLoop, hk]
    · have h0 : c.getAnimationName i ≠ name := hmin i (le_refl i) (by omega)
      simp only [findAnimationByNameLoop, if_neg h0]
      exact ih (i + 1) k (by omega) (by omega) hk (fun j hj1 hj2 => hmin j (by omega) hj2)

/-- Through the controller, a valid index reports the backend name, a null name reading as
the empty string. -/
theorem AnimationController.getAnimationName_of_lt (c : AnimationController) (a : Animator)
    (h : c.animator_ = some a) (i : Nat) (hi : i < a.getAnimationCount) :
    c.getAnimationName i = (a.getAnimationName i).getD "" := by
  unfold AnimationController.getAnimationName
  rw [h]
  simp only [ge_iff_le, if_neg (not_le.mpr hi)]
  cases a.getAnimationName i <;> rfl

/-! ## play(index, loop) -/

/-- C4: `play(index, loop)` with no animator attached, or with `index >= getAnimationCount()`,
returns the controller unchanged: every playback field (and the animator with its call
list) is exactly as before, from any prior state and for either value of `loop`. -/
theorem play_invalid_unchanged (c : AnimationController) (index : Nat) (loop : Bool)
    (h : c.animator_ = none ∨ ∃ a, c.animator_ = some a ∧ a.getAnimationCount ≤ index) :
    c.play index loop = c ∧
    (c.play index loop).isPlaying = c.isPlaying ∧
    (c.play index loop).isPaused = c.isPaused ∧
    (c.play index loop).isLooping = c.isLooping ∧
    (c.play index loop).getCurrentIndex = c.getCurrentIndex ∧
    (c.play index loop).getElapsedTime = c.getElapsedTime ∧
    (c.play index loop).getDuration = c.getDuration := by
  have key : c.play index loop = c := by
    unfold play
    rcases h with h | ⟨a, ha, hle⟩
    · rw [h]
    · rw [ha]
      simp only [ge_iff_le, if_pos hle]
  rw [key]
  simp

/-- C5: `play(index, loop)` with an animator attached and `index < getAnimationCount()`
gives, from any prior state, `currentIndex == index`, `duration` equal to the backend
duration of `index`, `elapsedTime == 0`, `isPlaying`, not `isPaused`, and
`isLooping == loop`; the animator is untouched. -/
theorem play_valid (c : AnimationController) (a : Animator) (index : Nat) (loop : Bool)
    (ha : c.animator_ = some a) (hi : index < a.getAnimationCount) :
    (c.play index loop).getCurrentIndex = index ∧
    (c.play index loop).getDuration = a.getAnimationDuration index ∧
    (c.play index loop).getElapsedTime = Flt.val 0 ∧
    (c.play index loop).isPlaying = true ∧
    (c.play index loop).isPaused = false ∧
    (c.play index loop).isLooping = loop ∧
    (c.play index loop).animator_ = some a := by
  unfold play
  rw [ha]
  simp only [ge_iff_le, if_neg (not_le.mpr hi)]
  simp [getCurrentIndex, getDuration, getElapsedTime, isPlaying, isPaused, isLooping, Flt.zero,
    ha]

/-- Witness of C5: replaying index 1 with looping from the paused sample state. -/
theorem play_valid_witness :
    pausedIdle.animator_ = some idleRun ∧ 1 < idleRun.getAnimationCount ∧
    (pausedIdle.play 1 true).getDuration = idleRun.getAnimationDuration 1 ∧
    (pausedIdle.play 1 true).isPaused = false :=
  ⟨rfl, by decide,
    (play_valid pausedIdle idleRun 1 true rfl (by decide)).2.1,
    (play_valid pausedIdle idleRun 1 true rfl (by decide)).2.2.2.2.1⟩

/-- Witness of C4: index 2 on the two-animation backend, from the paused sample state. -/
theorem play_invalid_unchanged_witness :
    idleRun.getAnimationCount ≤ 2 ∧ pausedIdle.play 2 true = pausedIdle :=
  ⟨by decide, (play_invalid_unchanged pausedIdle 2 true (Or.inr ⟨idleRun, rfl, by decide⟩)).1⟩

/-! ## play(name, loop) -/

/-- C6: `play(name, loop)` returns true exactly when an animator is attached and some index
`i < count` has backend name equal to `name` (a null backend name reads as the empty string,
as in `getAnimationName`); when it returns false the whole state is unchanged; and when
`i0` is the smallest such index it returns true with the state of `play(i0, loop)`. -/
theorem playByName_spec (c : AnimationController) (name : String) (loop : Bool) :
    ((c.playByName name loop).1 = true ↔
      ∃ a, c.animator_ = some a ∧
        ∃ i, i < a.getAnimationCount ∧ (a.getAnimationName i).getD "" = name) ∧
    ((c.playByName name loop).1 = false → (c.playByName name loop).2 = c) ∧
    (∀ a i0, c.animator_ = some a → i0 < a.getAnimationCount →
      (a.getAnimationName i0).getD "" = name →
      (∀ j, j < i0 → (a.getAnimationName j).getD "" ≠ name) →
      (c.playByName name loop).1 = true ∧ (c.playByName name loop).2 = c.play i0 loop) := by
  have hfirst : ∀ a i0, c.animator_ = some a → i0 < a.getAnimationCount →
      (a.getAnimationName i0).getD "" = name →
      (∀ j, j < i0 → (a.getAnimationName j).getD "" ≠ name) →
      c.findAnimationByName name = i0 ∧ i0 ≠ SIZE_MAX := by
    intro a i0 ha hi0 hname hmin
    have hcount : c.getAnimationCount = a.getAnimationCount := by
      simp [AnimationController.getAnimationCount, ha]
    constructor
    · unfold findAnimationByName
      apply findAnimationByNameLoop_first c name _ 0 i0 (Nat.zero_le _) (by omega)
      · rw [c.getAnimationName_of_lt a ha i0 hi0]; exact hname
      · intro j _ hj
        rw [c.getAnimationName_of_lt a ha j (by omega)]
        exact hmin j hj
    · have := a.getAnimationCount_lt
      unfold SIZE_MAX
      omega
  refine ⟨⟨?_, ?_⟩, ?_, ?_⟩
  · intro h
    by_contra hno
    have hnone : c.findAnimationByName name = SIZE_MAX := by
      unfold findAnimationByName
      apply findAnimationByNameLoop_none
      intro j _ hj hnm
      cases ha : c.animator_ with
      | none => simp [AnimationController.getAnimationCount, ha] at hj
      | some a =>
        have hj2 : j < a.getAnimationCount := by
          simpa [AnimationController.getAnimationCount, ha] using hj
        rw [c.getAnimationName_of_lt a ha j hj2] at hnm
        exact hno ⟨a, ha, j, hj2, hnm⟩
    simp [playByName, hnone] at h
  · rintro ⟨a, ha, i, hi, hname⟩
    have hex : ∃ k, k < a.getAnimationCount ∧ (a.getAnimationName k).getD "" = name :=
      ⟨i, hi, hname⟩
    classical
    obtain ⟨hfind, hne⟩ := hfirst a (Nat.find hex) ha (Nat.find_spec hex).1
      (Nat.find_spec hex).2
      (fun j hj hj2 => Nat.find_min hex hj
        ⟨lt_trans hj (Nat.find_spec hex).1, hj2⟩)
    simp [playByName, hfind, hne]
  · intro h
    unfold playByName at h ⊢
    by_cases hs : c.findAnimationByName name = SIZE_MAX
    · simp [hs]
    · simp [hs] at h
  · intro a i0 ha hi0 hname hmin
    obtain ⟨hfind, hne⟩ := hfirst a i0 ha hi0 hname hmin
    simp [playByName, hfind, hne]

/-! ## stop, pause, resume -/

/-- C8: `stop()` from any state sets `isPlaying`, `isPaused` and `shouldLoop` to false and
`elapsedTime` to 0, and leaves `currentIndex`, `duration` and the animator exactly as they
were. -/
theorem stop_spec (c : AnimationController) :
    c.stop.isPlaying = false ∧ c.stop.isPaused = false ∧ c.stop.isLooping = false ∧
    c.stop.getElapsedTime = Flt.val 0 ∧
    c.stop.getCurrentIndex = c.getCurrentIndex ∧ c.stop.getDuration = c.getDuration ∧
    c.stop.animator_ = c.animator_ := by
  simp [stop, isPlaying, isPaused, isLooping, getElapsedTime, getCurrentIndex, getDuration,
    Flt.zero]

/-- An invariant kept by every admissible call holds after every admissible run. -/
theorem AnimationController.run_invariant (P : AnimationController → Prop) (Q : Op → Prop)
    (hstep : ∀ c op, Q op → P c → P (c.step op)) :
    ∀ (ops : List Op) (c : AnimationController), (∀ op ∈ ops, Q op) → P c → P (c.run ops) := by
  intro ops
  induction ops with
  | nil => intro c _ h; exact h
  | cons op rest ih =>
    intro c hQ h
    exact ih (c.step op) (fun o ho => hQ o (List.mem_cons_of_mem _ ho))
      (hstep c op (hQ op (List.mem_cons_self _ _)) h)

/-- The paused flag is only ever set together with the playing flag. -/
theorem AnimationController.step_paused_playing (c : AnimationController) (op : Op)
    (h : c.isPaused_ = true → c.isPlaying_ = true) :
    (c.step op).isPaused_ = true → (c.step op).isPlaying_ = true := by
  cases op with
  | play index loop =>
    simp only [step, play]
    split
    · exact h
    · split
      · exact h
      · simp
  | playByName name loop =>
    simp only [step, playByName]
    split
    · exact h
    · simp only [play]
      split
      · exact h
      · split
        · exact h
        · simp
  | stop => simp [step, stop]
  | pause =>
    simp only [step, pause]
    split
    · intro _; assumption
    · exact h
  | resume =>
    simp only [step, resume]
    split
    · simp
    · exact h
  | update dt =>
    simp only [step, update]
    split
    · exact h
    · split
      · split
        · simp only [applyAnimationAtTime]
          split <;> exact h
        · simp [stop]
      · simp only [applyAnimationAtTime]
        split <;> exact h

/-- C9: `pause()` changes the state only when `isPlaying` is true, and then only by setting
`isPaused` to true; `resume()` changes the state only when `isPaused` is true, and then only
by setting `isPaused` to false; so `pause()` then `resume()` on a playing, not paused state
gives back the original state, and both are no-ops on a stopped state (both flags false,
which is every reachable state with `isPlaying` false). -/
theorem pause_resume_spec (c : AnimationController) :
    (c.isPlaying = false → c.pause = c) ∧
    (c.isPlaying = true → c.pause = { c with isPaused_ := true }) ∧
    (c.isPaused = false → c.resume = c) ∧
    (c.isPaused = true → c.resume = { c with isPaused_ := false }) ∧
    (c.isPlaying = true → c.isPaused = false → c.pause.resume = c) ∧
    (c.isPlaying = false → c.isPaused = false → c.pause = c ∧ c.resume = c) ∧
    (∀ animator ops, c = (new animator).run ops → c.isPlaying = false →
      c.pause = c ∧ c.resume = c) := by
  have hp : c.isPlaying = false → c.pause = c := by
    intro h
    simp only [isPlaying] at h
    simp [pause, h]
  have hr : c.isPaused = false → c.resume = c := by
    intro h
    simp only [isPaused] at h
    simp [resume, h]
  refine ⟨hp, ?_, hr, ?_, ?_, fun h1 h2 => ⟨hp h1, hr h2⟩, ?_⟩
  · intro h
    simp only [isPlaying] at h
    simp [pause, h]
  · intro h
    simp only [isPaused] at h
    simp [resume, h]
  · intro h1 h2
    simp only [isPlaying] at h1
    simp only [isPaused] at h2
    simp only [pause, h1, if_true, resume]
    cases c
    simp_all
  · intro animator ops hc h
    have hinv : c.isPaused_ = true → c.isPlaying_ = true := by
      rw [hc]
      exact AnimationController.run_invariant
        (fun s => s.isPaused_ = true → s.isPlaying_ = true) (fun _ => True)
        (fun s op _ hs => s.step_paused_playing op hs) ops (new animator)
        (fun _ _ => trivial) (by simp [new])
    refine ⟨hp h, hr ?_⟩
    simp only [isPlaying] at h
    simp only [isPaused]
    cases hpa : c.isPaused_ with
    | false => rfl
    | true => rw [hinv hpa] at h; exact absurd h (by simp)

/-- Witness of C9: pausing and resuming the playing sample state, and the state reached
by a completed non-looping play. -/
theorem pause_resume_spec_witness :
    playingRun.isPlaying = true ∧ playingRun.isPaused = false ∧
    playingRun.pause = { playingRun with isPaused_ := true } ∧
    playingRun.pause.resume = playingRun ∧
    (new (some idleRun)).stop.pause = (new (some idleRun)).stop :=
  ⟨rfl, rfl, (pause_resume_spec playingRun).2.1 rfl,
    (pause_resume_spec playingRun).2.2.2.2.1 rfl rfl,
    ((pause_resume_spec ((new (some idleRun)).stop)).2.2.2.2.2.2 (some idleRun) [Op.stop]
      rfl rfl).1⟩

/-! ## update(deltaTime) -/

/-- C10: `update(deltaTime)` returns the controller unchanged (every playback field, and the
animator with its call list, so no backend call is made) whenever the controller is not
playing, or is paused, or has no animator attached, for every `deltaTime`. -/
theorem update_inactive_unchanged (c : AnimationController) (deltaTime : Flt)
    (h : c.isPlaying = false ∨ c.isPaused = true ∨ c.animator_ = none) :
    c.update deltaTime = c ∧ (c.update deltaTime).getElapsedTime = c.getElapsedTime ∧
    (c.update deltaTime).backendCalls = c.backendCalls := by
  have key : c.update deltaTime = c := by
    unfold update
    rcases h with h | h | h
    · simp only [isPlaying] at h
      simp [h]
    · simp only [isPaused] at h
      simp [h]
    · simp [h]
  rw [key]
  simp

/-- Witness of C10: a five-second tick on the paused sample state. -/
theorem update_inactive_unchanged_witness :
    pausedIdle.isPaused = true ∧ pausedIdle.update (Flt.val 5) = pausedIdle :=
  ⟨rfl, (update_inactive_unchanged pausedIdle (Flt.val 5) (Or.inr (Or.inl rfl))).1⟩

/-- Witness of C6: "Run" is found at index 1 of the test backend. -/
theorem playByName_spec_witness :
    (new (some idleRun)).animator_ = some idleRun ∧ 1 < idleRun.getAnimationCount ∧
    (idleRun.getAnimationName 1).getD "" = "Run" ∧
    ((new (some idleRun)).playByName "Run" true).1 = true ∧
    ((new (some idleRun)).playByName "Run" true).2 = (new (some idleRun)).play 1 true :=
  ⟨rfl, by decide, by decide,
    ((playByName_spec (new (some idleRun)) "Run" true).2.2 idleRun 1 rfl (by decide)
      (by decide) (by decide)).1,
    ((playByName_spec (new (some idleRun)) "Run" true).2.2 idleRun 1 rfl (by decide)
      (by decide) (by decide)).2⟩

/-- An active tick that stays below the duration: time advances and the pose is applied. -/
theorem AnimationController.update_active_below (c : AnimationController) (a : Animator)
    (e D d : ℚ) (hpl : c.isPlaying_ = true) (hpa : c.isPaused_ = false)
    (ha : c.animator_ = some a) (he : c.elapsedTime_ = Flt.val e) (hD : c.duration_ = Flt.val D)
    (hlt : e + d < D) :
    c.update (Flt.val d) =
      { c with
        elapsedTime_ := Flt.val (e + d)
        animator_ := some ((a.applyAnimation c.currentIndex_ (Flt.val (e + d))).updateBoneMatrices) } := by
  simp [update, hpl, hpa, ha, he, hD, Flt.add, Flt.ge, not_le.mpr hlt, applyAnimationAtTime]

/-- An active looping tick that reaches the duration: time is wrapped by `fmodf` and the
pose is applied. -/
theorem AnimationController.update_active_wrap (c : AnimationController) (a : Animator)
    (e D d : ℚ) (hpl : c.isPlaying_ = true) (hpa : c.isPaused_ = false)
    (ha : c.animator_ = some a) (he : c.elapsedTime_ = Flt.val e) (hD : c.duration_ = Flt.val D)
    (hloop : c.shouldLoop_ = true) (hge : D ≤ e + d) :
    c.update (Flt.val d) =
      { c with
        elapsedTime_ := Flt.fmodf (Flt.val (e + d)) (Flt.val D)
        animator_ := some ((a.applyAnimation c.currentIndex_
          (Flt.fmodf (Flt.val (e + d)) (Flt.val D))).updateBoneMatrices) } := by
  simp [update, hpl, hpa, ha, he, hD, Flt.add, Flt.ge, hge, hloop, applyAnimationAtTime]

/-- An active non-looping tick that reaches the duration: the controller ends in the state
left by `stop()`, elapsed time back at zero, and the animator is not called. -/
theorem AnimationController.update_active_finish (c : AnimationController) (a : Animator)
    (e D d : ℚ) (hpl : c.isPlaying_ = true) (hpa : c.isPaused_ = false)
    (ha : c.animator_ = some a) (he : c.elapsedTime_ = Flt.val e) (hD : c.duration_ = Flt.val D)
    (hloop : c.shouldLoop_ = false) (hge : D ≤ e + d) :
    c.update (Flt.val d) =
      { c with
        isPlaying_ := false
        isPaused_ := false
        elapsedTime_ := Flt.val 0
        shouldLoop_ := false } := by
  simp [update, hpl, hpa, ha, he, hD, Flt.add, Flt.ge, hge, hloop, stop, Flt.zero]

/-- Ticks on a controller that is not playing change nothing. -/
theorem AnimationController.updates_stopped (dts : List Flt) :
    ∀ c : AnimationController, c.isPlaying_ = false → c.updates dts = c := by
  induction dts with
  | nil => intro c _; rfl
  | cons dt rest ih =>
    intro c h
    have hu : c.update dt = c := by simp [update, h]
    simp only [updates, hu]
    exact ih c h

/-- Non-looping playback over frames whose total reaches the duration always ends stopped
with the elapsed time at zero. -/
theorem AnimationController.updates_nonloop_finished (D : ℚ) :
    ∀ (ds : List ℚ) (c : AnimationController) (e : ℚ),
      c.isPlaying_ = true → c.isPaused_ = false → c.animator_.isSome = true →
      c.shouldLoop_ = false → c.elapsedTime_ = Flt.val e → c.duration_ = Flt.val D →
      e < D → (∀ d ∈ ds, 0 ≤ d) → D ≤ e + ds.sum →
      (c.updates (frames ds)).isPlaying_ = false ∧
      (c.updates (frames ds)).elapsedTime_ = Flt.val 0 := by
  intro ds
  induction ds with
  | nil =>
    intro c e _ _ _ _ _ _ hlt _ hsum
    simp at hsum
    linarith
  | cons d rest ih =>
    intro c e hpl hpa ha hloop he hD hlt hnn hsum
    obtain ⟨a, ha⟩ := Option.isSome_iff_exists.mp ha
    simp only [frames, List.map_cons, updates]
    by_cases hfin : D ≤ e + d
    · rw [c.update_active_finish a e D d hpl hpa ha he hD hloop hfin]
      rw [AnimationController.updates_stopped _ _ rfl]
      exact ⟨rfl, rfl⟩
    · rw [c.update_active_below a e D d hpl hpa ha he hD (not_le.mp hfin)]
      refine ih _ (e + d) hpl hpa (by simp) hloop rfl hD (not_le.mp hfin)
        (fun x hx => hnn x (List.mem_cons_of_mem _ hx)) ?_
      simp only [List.sum_cons] at hsum
      linarith

/-- C1 (the code at the failing input): on the test backend, `play(0, false)` followed by
`update(1.0)`, the full duration of "Idle", leaves `isPlaying() == false` but
`getElapsedTime() == 0`, not the duration `1.0`: `stop()` resets the clamped time. -/
theorem nonloop_completion_elapsed_zero :
    ((new (some idleRun)).play 0 false).getDuration = Flt.val 1 ∧
    (((new (some idleRun)).play 0 false).update (Flt.val 1)).isPlaying = false ∧
    (((new (some idleRun)).play 0 false).update (Flt.val 1)).getElapsedTime = Flt.val 0 ∧
    (((new (some idleRun)).play 0 false).update (Flt.val 1)).getElapsedTime ≠
      ((new (some idleRun)).play 0 false).getDuration := by
  simp [new, play, update, idleRun, Animator.getAnimationCount, Animator.getAnimationDuration,
    Flt.add, Flt.ge, Flt.zero, stop, isPlaying, getElapsedTime, getDuration]

/-- C7 (counterexample): on the tick that completes a non-looping animation the controller
is playing, not paused and has an animator, yet the animator receives no call. -/
theorem update_completion_no_backend_call :
    ((new (some idleRun)).play 1 false).isPlaying = true ∧
    ((new (some idleRun)).play 1 false).isPaused = false ∧
    ((new (some idleRun)).play 1 false).animator_ = some idleRun ∧
    (((new (some idleRun)).play 1 false).update (Flt.val 2)).backendCalls =
      ((new (some idleRun)).play 1 false).backendCalls ∧
    (((new (some idleRun)).play 1 false).update (Flt.val 2)).backendCalls ≠
      ((new (some idleRun)).play 1 false).backendCalls ++
        [AnimatorCall.applyAnimation ((new (some idleRun)).play 1 false).getCurrentIndex
          (((new (some idleRun)).play 1 false).update (Flt.val 2)).getElapsedTime,
         AnimatorCall.updateBoneMatrices] := by
  simp [new, play, update, idleRun, Animator.getAnimationCount, Animator.getAnimationDuration,
    Flt.add, Flt.ge, Flt.zero, stop, isPlaying, isPaused, backendCalls]

/-- C7 (amended): an `update(deltaTime)` made while the controller is playing, not paused and
has an animator, other than the tick on which a non-looping animation completes
(`shouldLoop` false and `elapsed + deltaTime >= duration`), appends exactly
`[applyAnimation(currentIndex, elapsed'), updateBoneMatrices]` to the animator's call list,
`elapsed'` being the elapsed time after the update; on the completing tick, and in every
other state, the call list is unchanged. -/
theorem update_backend_calls (c : AnimationController) (deltaTime : Flt) :
    (c.isPlaying = true → c.isPaused = false → c.animator_.isSome = true →
      ¬ (c.isLooping = false ∧ (c.getElapsedTime.add deltaTime).ge c.getDuration = true) →
      (c.update deltaTime).backendCalls =
        c.backendCalls ++
          [AnimatorCall.applyAnimation c.getCurrentIndex (c.update deltaTime).getElapsedTime,
           AnimatorCall.updateBoneMatrices]) ∧
    (c.isPlaying = true → c.isPaused = false → c.isLooping = false →
      (c.getElapsedTime.add deltaTime).ge c.getDuration = true →
      (c.update deltaTime).backendCalls = c.backendCalls) ∧
    (c.isPlaying = false ∨ c.isPaused = true ∨ c.animator_ = none →
      (c.update deltaTime).backendCalls = c.backendCalls) := by
  refine ⟨?_, ?_, ?_⟩
  · intro hpl hpa ha hno
    obtain ⟨a, ha⟩ := Option.isSome_iff_exists.mp ha
    simp only [isPlaying, isPaused, isLooping, getElapsedTime, getDuration] at hpl hpa hno
    by_cases hge : (c.elapsedTime_.add deltaTime).ge c.duration_ = true
    · have hloop : c.shouldLoop_ = true := by
        cases hl : c.shouldLoop_ with
        | true => rfl
        | false => exact absurd ⟨hl, hge⟩ hno
      simp [update, hpl, hpa, ha, hge, hloop, applyAnimationAtTime, backendCalls,
        Animator.applyAnimation, Animator.updateBoneMatrices, getCurrentIndex, getElapsedTime]
    · simp [update, hpl, hpa, ha, hge, applyAnimationAtTime, backendCalls,
        Animator.applyAnimation, Animator.updateBoneMatrices, getCurrentIndex, getElapsedTime]
  · intro hpl hpa hloop hge
    simp only [isPlaying, isPaused, isLooping, getElapsedTime, getDuration] at hpl hpa hloop hge
    cases ha : c.animator_ with
    | none => simp [update, ha]
    | some a => simp [update, hpl, hpa, ha, hge, hloop, stop, backendCalls]
  · intro h
    have key : c.update deltaTime = c := by
      unfold update
      rcases h with h | h | h
      · simp only [isPlaying] at h
        simp [h]
      · simp only [isPaused] at h
        simp [h]
      · simp [h]
    rw [key]

/-- Witness of C7 (amended): a one-second tick on the playing sample state. -/
theorem update_backend_calls_witness :
    playingRun.isPlaying = true ∧ playingRun.isPaused = false ∧
    playingRun.animator_.isSome = true ∧
    ¬ (playingRun.isLooping = false ∧
        (playingRun.getElapsedTime.add (Flt.val 1)).ge playingRun.getDuration = true) ∧
    (playingRun.update (Flt.val 1)).backendCalls =
      playingRun.backendCalls ++
        [AnimatorCall.applyAnimation playingRun.getCurrentIndex
          (playingRun.update (Flt.val 1)).getElapsedTime,
         AnimatorCall.updateBoneMatrices] :=
  ⟨rfl, rfl, rfl,
    by simp [playingRun, getElapsedTime, getDuration, Flt.add, Flt.ge]; norm_num,
    (update_backend_calls playingRun (Flt.val 1)).1 rfl rfl rfl
      (by simp [playingRun, getElapsedTime, getDuration, Flt.add, Flt.ge]; norm_num)⟩

/-! ## Looping -/

/-- The remainder `x - ⌊x / D⌋ * D` lies in `[0, D)`. -/
theorem floorMod_mem (x D : ℚ) (hD : 0 < D) :
    0 ≤ x - (⌊x / D⌋ : ℚ) * D ∧ x - (⌊x / D⌋ : ℚ) * D < D := by
  have h1 : (⌊x / D⌋ : ℚ) ≤ x / D := Int.floor_le _
  have h2 : x / D < (⌊x / D⌋ : ℚ) + 1 := Int.lt_floor_add_one _
  have h3 : (⌊x / D⌋ : ℚ) * D ≤ x := by
    have := mul_le_mul_of_nonneg_right h1 hD.le
    rwa [div_mul_cancel₀ x hD.ne'] at this
  have h4 : x < ((⌊x / D⌋ : ℚ) + 1) * D := by
    have := mul_lt_mul_of_pos_right h2 hD
    rwa [div_mul_cancel₀ x hD.ne'] at this
  constructor <;> linarith

/-- Removing whole periods does not change the remainder. -/
theorem floorMod_sub_period (x D : ℚ) (k : ℤ) (hD : 0 < D) :
    (x - (k : ℚ) * D) - (⌊(x - (k : ℚ) * D) / D⌋ : ℚ) * D = x - (⌊x / D⌋ : ℚ) * D := by
  have h : (x - (k : ℚ) * D) / D = x / D - (k : ℚ) := by
    field_simp
    ring
  rw [h, Int.floor_sub_int]
  push_cast
  ring

/-- A value already in `[0, D)` is its own remainder. -/
theorem floorMod_of_mem (x D : ℚ) (h0 : 0 ≤ x) (hlt : x < D) :
    x - (⌊x / D⌋ : ℚ) * D = x := by
  have hD : 0 < D := lt_of_le_of_lt h0 hlt
  have hf : ⌊x / D⌋ = 0 := by
    rw [Int.floor_eq_iff]
    constructor
    · simpa using div_nonneg h0 hD.le
    · simpa using (div_lt_one hD).mpr hlt
  simp [hf]

/-- On a non-negative argument and a positive period, `fmodf` is the floor remainder. -/
theorem Flt.fmodf_of_nonneg (x D : ℚ) (hx : 0 ≤ x) (hD : 0 < D) :
    Flt.fmodf (Flt.val x) (Flt.val D) = Flt.val (x - (⌊x / D⌋ : ℚ) * D) := by
  simp [Flt.fmodf, hD.ne', Flt.trunc, div_nonneg hx hD.le]

/-- One active looping tick: the elapsed time becomes the remainder of `e + d`. -/
theorem AnimationController.update_loop_step (c : AnimationController) (e D d : ℚ)
    (hpl : c.isPlaying_ = true) (hpa : c.isPaused_ = false) (ha : c.animator_.isSome = true)
    (hloop : c.shouldLoop_ = true) (he : c.elapsedTime_ = Flt.val e)
    (hD : c.duration_ = Flt.val D) (h0 : 0 ≤ e) (hd : 0 ≤ d) (hpos : 0 < D) :
    (c.update (Flt.val d)).isPlaying_ = true ∧ (c.update (Flt.val d)).isPaused_ = false ∧
    (c.update (Flt.val d)).animator_.isSome = true ∧
    (c.update (Flt.val d)).shouldLoop_ = true ∧
    (c.update (Flt.val d)).duration_ = Flt.val D ∧
    (c.update (Flt.val d)).elapsedTime_ = Flt.val ((e + d) - (⌊(e + d) / D⌋ : ℚ) * D) := by
  obtain ⟨a, ha⟩ := Option.isSome_iff_exists.mp ha
  by_cases hge : D ≤ e + d
  · rw [c.update_active_wrap a e D d hpl hpa ha he hD hloop hge,
      Flt.fmodf_of_nonneg (e + d) D (by linarith) hpos]
    exact ⟨hpl, hpa, rfl, hloop, hD, rfl⟩
  · rw [c.update_active_below a e D d hpl hpa ha he hD (not_le.mp hge),
      floorMod_of_mem (e + d) D (by linarith) (not_le.mp hge)]
    exact ⟨hpl, hpa, rfl, hloop, hD, rfl⟩

/-- Looping playback over non-negative frames: the elapsed time is the remainder of the
time already elapsed plus the total of the frames. -/
theorem AnimationController.updates_loop (D : ℚ) (hpos : 0 < D) :
    ∀ (ds : List ℚ) (c : AnimationController) (e : ℚ),
      c.isPlaying_ = true → c.isPaused_ = false → c.animator_.isSome = true →
      c.shouldLoop_ = true → c.elapsedTime_ = Flt.val e → c.duration_ = Flt.val D →
      0 ≤ e → e < D → (∀ d ∈ ds, 0 ≤ d) →
      (c.updates (frames ds)).isPlaying_ = true ∧
      (c.updates (frames ds)).elapsedTime_ =
        Flt.val ((e + ds.sum) - (⌊(e + ds.sum) / D⌋ : ℚ) * D) := by
  intro ds
  induction ds with
  | nil =>
    intro c e hpl _ _ _ he _ h0 hlt _
    simp only [frames, List.map_nil, updates, List.sum_nil, add_zero]
    rw [floorMod_of_mem e D h0 hlt]
    exact ⟨hpl, he⟩
  | cons d rest ih =>
    intro c e hpl hpa ha hloop he hD h0 _ hnn
    have hd : 0 ≤ d := hnn d (List.mem_cons_self _ _)
    obtain ⟨hpl1, hpa1, ha1, hloop1, hD1, he1⟩ :=
      c.update_loop_step e D d hpl hpa ha hloop he hD h0 hd hpos
    obtain ⟨hm0, hmlt⟩ := floorMod_mem (e + d) D hpos
    obtain ⟨hplf, hef⟩ := ih (c.update (Flt.val d)) _ hpl1 hpa1 ha1 hloop1 he1 hD1 hm0 hmlt
      (fun x hx => hnn x (List.mem_cons_of_mem _ hx))
    simp only [frames, List.map_cons, updates] at hplf hef ⊢
    refine ⟨hplf, ?_⟩
    rw [hef, List.sum_cons]
    have hshift := floorMod_sub_period (e + d + rest.sum) D ⌊(e + d) / D⌋ hpos
    have harg : e + d - (⌊(e + d) / D⌋ : ℚ) * D + rest.sum
        = e + d + rest.sum - (⌊(e + d) / D⌋ : ℚ) * D := by ring
    rw [harg, hshift, add_assoc]

/-- C2: for a backend animation `i` of duration `D > 0` and non-negative frame times
`d₁ … dₙ` with sum `T`, `play(i, true)` followed by `update(d₁) … update(dₙ)` leaves the
elapsed time at `T mod D`, that is `T - ⌊T / D⌋ * D`, and the controller playing; hence any
other non-negative split of the same total gives the same elapsed time. -/
theorem loop_split_independent (c : AnimationController) (a : Animator) (i : Nat) (D : ℚ)
    (ds : List ℚ) (ha : c.animator_ = some a) (hi : i < a.getAnimationCount)
    (hdur : a.getAnimationDuration i = Flt.val D) (hD : 0 < D) (hds : ∀ d ∈ ds, 0 ≤ d) :
    ((c.play i true).updates (frames ds)).getElapsedTime =
      Flt.val (ds.sum - (⌊ds.sum / D⌋ : ℚ) * D) ∧
    ((c.play i true).updates (frames ds)).isPlaying = true ∧
    (∀ ds' : List ℚ, (∀ d ∈ ds', 0 ≤ d) → ds'.sum = ds.sum →
      ((c.play i true).updates (frames ds')).getElapsedTime =
        ((c.play i true).updates (frames ds)).getElapsedTime) := by
  have hplay : (c.play i true).isPlaying_ = true ∧ (c.play i true).isPaused_ = false ∧
      (c.play i true).animator_.isSome = true ∧ (c.play i true).shouldLoop_ = true ∧
      (c.play i true).elapsedTime_ = Flt.val 0 ∧ (c.play i true).duration_ = Flt.val D := by
    unfold play
    rw [ha]
    simp only [ge_iff_le, if_neg (not_le.mpr hi)]
    simp [hdur, Flt.zero, ha]
  obtain ⟨h1, h2, h3, h4, h5, h6⟩ := hplay
  have main : ∀ l : List ℚ, (∀ d ∈ l, 0 ≤ d) →
      ((c.play i true).updates (frames l)).isPlaying_ = true ∧
      ((c.play i true).updates (frames l)).elapsedTime_ =
        Flt.val (l.sum - (⌊l.sum / D⌋ : ℚ) * D) := by
    intro l hl
    have := AnimationController.updates_loop D hD l (c.play i true) 0 h1 h2 h3 h4 h5 h6
      (le_refl 0) hD hl
    simpa using this
  refine ⟨(main ds hds).2, (main ds hds).1, ?_⟩
  intro ds' hds' hsum
  simp only [getElapsedTime]
  rw [(main ds' hds').2, (main ds hds).2, hsum]

/-- Witness of C2: "Run" (2 s) looped over the frames 3 s and 2 s ends at
`5 - ⌊5 / 2⌋ * 2`, as does the single frame of 5 s. -/
theorem loop_split_independent_witness :
    (new (some idleRun)).animator_ = some idleRun ∧ 1 < idleRun.getAnimationCount ∧
    idleRun.getAnimationDuration 1 = Flt.val 2 ∧ (0 : ℚ) < 2 ∧ (0 : ℚ) ≤ 3 ∧ (0 : ℚ) ≤ 2 ∧
    (((new (some idleRun)).play 1 true).updates (frames [3, 2])).getElapsedTime =
      Flt.val (([3, 2] : List ℚ).sum - (⌊([3, 2] : List ℚ).sum / 2⌋ : ℚ) * 2) ∧
    (((new (some idleRun)).play 1 true).updates (frames [3, 2])).isPlaying = true ∧
    (((new (some idleRun)).play 1 true).updates (frames [5])).getElapsedTime =
      (((new (some idleRun)).play 1 true).updates (frames [3, 2])).getElapsedTime :=
  have h := loop_split_independent (new (some idleRun)) idleRun 1 2 [3, 2] rfl (by decide)
    (by simp [idleRun, Animator.getAnimationDuration]) (by norm_num)
    (by intro d hd; simp at hd; rcases hd with rfl | rfl <;> norm_num)
  ⟨rfl, by decide, by simp [idleRun, Animator.getAnimationDuration], by norm_num, by norm_num,
    by norm_num, h.1, h.2.1,
    h.2.2 [5] (by intro d hd; simp at hd; rw [hd]; norm_num) (by norm_num)⟩

/-! ## The elapsed-time invariant -/

theorem AnimationController.play_elapsedInRange (c : AnimationController) (index : Nat)
    (loop : Bool) (h : c.ElapsedInRange) : (c.play index loop).ElapsedInRange := by
  unfold play
  cases ha : c.animator_ with
  | none => simpa [ha] using h
  | some a =>
    simp only
    by_cases hi : index ≥ a.getAnimationCount
    · simpa [hi] using h
    · simp only [if_neg hi]
      obtain ⟨D, hD, hpos⟩ := h.1 a ha index (not_le.mp hi)
      refine ⟨fun a' ha' => h.1 a' (by simpa [ha] using ha'), fun _ => ?_⟩
      exact ⟨0, D, rfl, hD, le_refl 0, hpos⟩

theorem AnimationController.update_elapsedInRange (c : AnimationController) (q : ℚ)
    (hq : 0 ≤ q) (h : c.ElapsedInRange) : (c.update (Flt.val q)).ElapsedInRange := by
  by_cases hact : c.isPlaying_ = true ∧ c.isPaused_ = false ∧ c.animator_.isSome = true
  · obtain ⟨hpl, hpa, ha⟩ := hact
    obtain ⟨a, ha⟩ := Option.isSome_iff_exists.mp ha
    obtain ⟨e, D, he, hD, h0, hlt⟩ := h.2 hpl
    have hanim : ∀ (calls : List AnimatorCall) (a' : Animator),
        some ({ a with calls := calls } : Animator) = some a' → a'.PositiveDurations := by
      intro calls a' ha'
      have hpd := h.1 a ha
      cases ha'
      exact hpd
    by_cases hge : D ≤ e + q
    · cases hloop : c.shouldLoop_ with
      | true =>
        rw [c.update_active_wrap a e D q hpl hpa ha he hD hloop hge,
          Flt.fmodf_of_nonneg (e + q) D (by linarith) (by linarith)]
        obtain ⟨hm0, hmlt⟩ := floorMod_mem (e + q) D (by linarith)
        exact ⟨fun a' ha' => hanim _ a' ha', fun _ => ⟨_, D, rfl, hD, hm0, hmlt⟩⟩
      | false =>
        rw [c.update_active_finish a e D q hpl hpa ha he hD hloop hge]
        exact ⟨h.1, fun hp => absurd hp (by simp)⟩
    · rw [c.update_active_below a e D q hpl hpa ha he hD (not_le.mp hge)]
      exact ⟨fun a' ha' => hanim _ a' ha',
        fun _ => ⟨e + q, D, rfl, hD, by linarith, not_le.mp hge⟩⟩
  · have key : c.update (Flt.val q) = c := by
      unfold update
      cases hpl : c.isPlaying_ <;> cases hpa : c.isPaused_ <;> cases ha : c.animator_ <;>
        simp_all
    rw [key]
    exact h

theorem AnimationController.step_elapsedInRange (c : AnimationController) (op : Op)
    (hop : ∀ dt, op = Op.update dt → ∃ q : ℚ, dt = Flt.val q ∧ 0 ≤ q)
    (h : c.ElapsedInRange) : (c.step op).ElapsedInRange := by
  cases op with
  | play index loop => exact c.play_elapsedInRange index loop h
  | playByName name loop =>
    simp only [step, playByName]
    split
    · exact h
    · exact c.play_elapsedInRange _ loop h
  | stop => exact ⟨h.1, fun hp => absurd hp (by simp [step, stop])⟩
  | pause =>
    simp only [step, pause]
    split
    · exact h
    · exact h
  | resume =>
    simp only [step, resume]
    split
    · exact h
    · exact h
  | update dt =>
    obtain ⟨q, rfl, hq⟩ := hop dt rfl
    exact c.update_elapsedInRange q hq h

/-- C3: in every state reached from construction by `play` (by index or by name), `stop`,
`pause`, `resume` and `update(deltaTime)` calls with `deltaTime >= 0`, on a backend whose
durations are all positive: if the controller is playing and not looping then
`elapsed <= duration`, and if it is playing and looping then `0 <= elapsed < duration`. -/
theorem elapsed_time_invariant (animator : Option Animator) (ops : List Op)
    (hdur : ∀ a, animator = some a → ∀ i, i < a.getAnimationCount →
      ∃ D : ℚ, a.getAnimationDuration i = Flt.val D ∧ 0 < D)
    (hdt : ∀ dt, Op.update dt ∈ ops → ∃ q : ℚ, dt = Flt.val q ∧ 0 ≤ q) :
    (((new animator).run ops).isPlaying = true → ((new animator).run ops).isLooping = false →
      ((new animator).run ops).getDuration.ge ((new animator).run ops).getElapsedTime = true) ∧
    (((new animator).run ops).isPlaying = true → ((new animator).run ops).isLooping = true →
      ((new animator).run ops).getElapsedTime.ge (Flt.val 0) = true ∧
      ((new animator).run ops).getDuration.gt ((new animator).run ops).getElapsedTime = true) := by
  have hinv : ((new animator).run ops).ElapsedInRange := by
    apply AnimationController.run_invariant AnimationController.ElapsedInRange
      (fun op => ∀ dt, op = Op.update dt → ∃ q : ℚ, dt = Flt.val q ∧ 0 ≤ q)
      (fun s op hop hs => s.step_elapsedInRange op hop hs) ops (new animator)
    · intro op hmem dt hop
      exact hdt dt (hop ▸ hmem)
    · exact ⟨fun a ha => hdur a (by simpa [new] using ha), fun hp => absurd hp (by simp [new])⟩
  constructor
  · intro hpl _
    obtain ⟨e, D, he, hD, _, hlt⟩ := hinv.2 hpl
    simp only [getDuration, getElapsedTime, he, hD, Flt.ge]
    exact decide_eq_true hlt.le
  · intro hpl _
    obtain ⟨e, D, he, hD, h0, hlt⟩ := hinv.2 hpl
    simp only [getDuration, getElapsedTime, he, hD, Flt.ge, Flt.gt]
    exact ⟨decide_eq_true h0, decide_eq_true hlt⟩

/-- Witness of C3: "Run" (2 s) looped and advanced by 5 s on the test backend. -/
theorem elapsed_time_invariant_witness :
    ((new (some idleRun)).run [Op.play 1 true, Op.update (Flt.val 5)]).isPlaying = true ∧
    ((new (some idleRun)).run [Op.play 1 true, Op.update (Flt.val 5)]).isLooping = true ∧
    ((new (some idleRun)).run [Op.play 1 true, Op.update (Flt.val 5)]).getElapsedTime.ge
      (Flt.val 0) = true ∧
    ((new (some idleRun)).run [Op.play 1 true, Op.update (Flt.val 5)]).getDuration.gt
      ((new (some idleRun)).run [Op.play 1 true, Op.update (Flt.val 5)]).getElapsedTime = true :=
  have hpl : ((new (some idleRun)).run [Op.play 1 true, Op.update (Flt.val 5)]).isPlaying
      = true := by
    simp [run, step, new, play, update, idleRun, Animator.getAnimationCount,
      Animator.getAnimationDuration, Flt.add, Flt.ge, Flt.zero, applyAnimationAtTime, isPlaying]
    norm_num
  have hlo : ((new (some idleRun)).run [Op.play 1 true, Op.update (Flt.val 5)]).isLooping
      = true := by
    simp [run, step, new, play, update, idleRun, Animator.getAnimationCount,
      Animator.getAnimationDuration, Flt.add, Flt.ge, Flt.zero, applyAnimationAtTime, isLooping]
    norm_num
  have h := (elapsed_time_invariant (some idleRun) [Op.play 1 true, Op.update (Flt.val 5)]
    (by
      intro a ha i hi
      cases ha
      have hi2 : i < 2 := hi
      interval_cases i
      · exact ⟨1, by simp [idleRun, Animator.getAnimationDuration], by norm_num⟩
      · exact ⟨2, by simp [idleRun, Animator.getAnimationDuration], by norm_num⟩)
    (by
      intro dt hmem
      simp at hmem
      exact ⟨5, hmem, by norm_num⟩)).2 hpl hlo
  ⟨hpl, hlo, h.1, h.2⟩

/-! ## Scenarios and progress -/

/-- C11: on the backend reporting "Idle" (1.0 s) and "Run" (2.0 s), `play("Run", true)`
returns true with `getDuration() == 2.0` and `getCurrentIndex() == 1`; a following
`update(5.0)` gives `getElapsedTime() == 1.0` and `isPlaying() == true`. -/
theorem idle_run_scenario :
    ((new (some idleRun)).playByName "Run" true).1 = true ∧
    ((new (some idleRun)).playByName "Run" true).2.getDuration = Flt.val 2 ∧
    ((new (some idleRun)).playByName "Run" true).2.getCurrentIndex = 1 ∧
    (((new (some idleRun)).playByName "Run" true).2.update (Flt.val 5)).getElapsedTime
      = Flt.val 1 ∧
    (((new (some idleRun)).playByName "Run" true).2.update (Flt.val 5)).isPlaying = true := by
  have hfind : (new (some idleRun)).findAnimationByName "Run" = 1 := by decide
  have hplay : (new (some idleRun)).playByName "Run" true =
      (true, (new (some idleRun)).play 1 true) := by
    simp [playByName, hfind, SIZE_MAX]
  rw [hplay]
  simp [new, play, update, idleRun, Animator.getAnimationCount, Animator.getAnimationDuration,
    Flt.add, Flt.ge, Flt.zero, Flt.fmodf, Flt.trunc, applyAnimationAtTime, getDuration,
    getCurrentIndex, getElapsedTime, isPlaying]
  norm_num

/-- With a positive duration, or without looping, `play(i, loop)` then `update(0)` leaves the
elapsed time and the progress at zero. -/
theorem AnimationController.play_update_zero (c : AnimationController) (a : Animator)
    (i : Nat) (loop : Bool) (D : ℚ) (ha : c.animator_ = some a) (hi : i < a.getAnimationCount)
    (hdur : a.getAnimationDuration i = Flt.val D) (hD : 0 ≤ D) (hok : 0 < D ∨ loop = false) :
    ((c.play i loop).update (Flt.val 0)).getElapsedTime = Flt.val 0 ∧
    ((c.play i loop).update (Flt.val 0)).getProgress = Flt.val 0 := by
  have hplay : c.play i loop =
      { c with currentIndex_ := i, duration_ := Flt.val D, elapsedTime_ := Flt.val 0,
               isPlaying_ := true, isPaused_ := false, shouldLoop_ := loop } := by
    unfold play
    rw [ha]
    simp only [ge_iff_le, if_neg (not_le.mpr hi), hdur, Flt.zero]
  rw [hplay]
  have hbelow : 0 < D →
      (({ c with currentIndex_ := i, duration_ := Flt.val D, elapsedTime_ := Flt.val 0,
                 isPlaying_ := true, isPaused_ := false, shouldLoop_ := loop }
          : AnimationController).update (Flt.val 0)).getElapsedTime = Flt.val 0 ∧
      (({ c with currentIndex_ := i, duration_ := Flt.val D, elapsedTime_ := Flt.val 0,
                 isPlaying_ := true, isPaused_ := false, shouldLoop_ := loop }
          : AnimationController).update (Flt.val 0)).getProgress = Flt.val 0 := by
    intro hpos
    simp [update, ha, Flt.add, Flt.ge, not_le.mpr hpos, applyAnimationAtTime, getElapsedTime,
      getProgress, Flt.gt, Flt.zero, hpos, Flt.div, hpos.ne']
  rcases hok with hpos | hloop
  · exact hbelow hpos
  · rcases hD.lt_or_eq with hpos | hzero
    · exact hbelow hpos
    · subst hzero
      subst hloop
      simp [update, ha, Flt.add, Flt.ge, stop, getElapsedTime, getProgress, Flt.gt, Flt.zero]

/-- C12 (the code at the failing input): on a backend whose animation 0 has duration 0,
`play(0, true)` then `update(0)` leaves `getElapsedTime()` at NaN, not 0: the looping branch
evaluates `fmodf(0, 0)`; `getProgress()` is 0 through its `duration > 0` guard. -/
theorem zero_duration_loop_elapsed_nan :
    0 < stillPose.getAnimationCount ∧
    ((new (some stillPose)).play 0 true).getDuration = Flt.val 0 ∧
    (((new (some stillPose)).play 0 true).update (Flt.val 0)).getElapsedTime = Flt.nan ∧
    (((new (some stillPose)).play 0 true).update (Flt.val 0)).getElapsedTime ≠ Flt.val 0 ∧
    (((new (some stillPose)).play 0 true).update (Flt.val 0)).getProgress = Flt.val 0 := by
  simp [new, play, update, stillPose, Animator.getAnimationCount,
    Animator.getAnimationDuration, Flt.add, Flt.ge, Flt.zero, Flt.fmodf, applyAnimationAtTime,
    getDuration, getElapsedTime, getProgress, Flt.gt]

/-- C13: `getProgress()` is `elapsedTime / duration` when `duration > 0` and `0` when
`duration` is `0` (or whenever `duration > 0` is false), so the division is only taken
behind the guard and the result is never the NaN of a zero divisor; the function is total. -/
theorem getProgress_spec (c : AnimationController) :
    (∀ e D : ℚ, c.getElapsedTime = Flt.val e → c.getDuration = Flt.val D → 0 < D →
      c.getProgress = Flt.val (e / D)) ∧
    (c.getDuration = Flt.val 0 → c.getProgress = Flt.val 0) ∧
    (c.getDuration.gt (Flt.val 0) = false → c.getProgress = Flt.val 0) ∧
    (∀ e D : ℚ, c.getElapsedTime = Flt.val e → c.getDuration = Flt.val D →
      c.getProgress ≠ Flt.nan) := by
  simp only [getElapsedTime, getDuration]
  refine ⟨?_, ?_, ?_, ?_⟩
  · intro e D he hD hpos
    simp [getProgress, he, hD, Flt.gt, Flt.zero, hpos, Flt.div, hpos.ne']
  · intro hD
    simp [getProgress, hD, Flt.gt, Flt.zero]
  · intro hgt
    simp [getProgress, Flt.zero, hgt]
  · intro e D he hD
    by_cases hpos : 0 < D
    · simp [getProgress, he, hD, Flt.gt, Flt.zero, hpos, Flt.div, hpos.ne']
    · simp [getProgress, he, hD, Flt.gt, Flt.zero, hpos]

/-- Witness of C13: the paused sample state is half-way through "Idle". -/
theorem getProgress_spec_witness :
    pausedIdle.getElapsedTime = Flt.val (1 / 2) ∧ pausedIdle.getDuration = Flt.val 1 ∧
    (0 : ℚ) < 1 ∧ pausedIdle.getProgress = Flt.val (1 / 2 / 1) ∧
    (new none).getProgress = Flt.val 0 :=
  ⟨rfl, rfl, by norm_num, (getProgress_spec pausedIdle).1 (1 / 2) 1 rfl rfl (by norm_num),
    (getProgress_spec (new none)).2.1 rfl⟩

/-! ## Camera presets -/

/-- C14: `moveToPreset(name, smooth)` with a name that is not in the preset registry returns
false and returns the controller unchanged (current state, target state, transitioning
flag, registry and all configuration), for either value of `smooth`. -/
theorem moveToPreset_unknown {K : Type} [LinearOrderedField K] (c : CameraController K)
    (name : String) (smooth : Bool) (h : c.getPreset name = none) :
    (c.moveToPreset name smooth).1 = false ∧ (c.moveToPreset name smooth).2 = c := by
  simp only [CameraController.getPreset] at h
  simp [CameraController.moveToPreset, h]

/-- Witness of C14: no preset is registered on a fresh controller. -/
theorem moveToPreset_unknown_witness :
    (CameraController.new : CameraController ℚ).getPreset "Front" = none ∧
    ((CameraController.new : CameraController ℚ).moveToPreset "Front" true).1 = false ∧
    ((CameraController.new : CameraController ℚ).moveToPreset "Front" true).2
      = CameraController.new :=
  ⟨rfl, (moveToPreset_unknown CameraController.new "Front" true rfl).1,
    (moveToPreset_unknown CameraController.new "Front" true rfl).2⟩

/-- C15: after `registerPreset(name, P)`, whether or not `name` was registered before,
the registry maps `name` to `P` and every other name as before; `moveToPreset(name, false)`
then returns true and, with no `update` call, current and target position equal
`P.position`, current and target look-at equal `P.lookAt`, and `isMoving()` is false. In
particular registering "Top" = ((0,10,0),(0,0,0)) gives `getState().position == (0,10,0)`. -/
theorem registerPreset_moveToPreset_jump {K : Type} [LinearOrderedField K]
    (c : CameraController K) (name : String) (P : CameraPreset K) :
    (c.registerPreset name P).getPreset name = some P ∧
    (∀ other, other ≠ name → (c.registerPreset name P).getPreset other = c.getPreset other) ∧
    ((c.registerPreset name P).moveToPreset name false).1 = true ∧
    ((c.registerPreset name P).moveToPreset name false).2.getState.position = P.position ∧
    ((c.registerPreset name P).moveToPreset name false).2.targetState_.position
      = P.position ∧
    ((c.registerPreset name P).moveToPreset name false).2.getState.lookAt = P.lookAt ∧
    ((c.registerPreset name P).moveToPreset name false).2.targetState_.lookAt = P.lookAt ∧
    ((c.registerPreset name P).moveToPreset name false).2.isMoving = false ∧
    (((CameraController.new : CameraController K).registerPreset "Top"
        ⟨⟨0, 10, 0⟩, ⟨0, 0, 0⟩⟩).moveToPreset "Top" false).2.getState.position
      = ⟨0, 10, 0⟩ := by
  refine ⟨?_, fun other hne => ?_, ?_, ?_, ?_, ?_, ?_, ?_, ?_⟩ <;>
    simp [CameraController.registerPreset, CameraController.getPreset,
      CameraController.moveToPreset, CameraController.getState, CameraController.isMoving]
  exact fun h => absurd h hne

/-- Witness of C15: registering "Front" next to "Top" leaves "Top" as it was. -/
theorem registerPreset_moveToPreset_jump_witness :
    "Top" ≠ "Front" ∧
    (((CameraController.new : CameraController ℚ).registerPreset "Top"
        ⟨⟨0, 10, 0⟩, ⟨0, 0, 0⟩⟩).registerPreset "Front" ⟨⟨0, 0, 10⟩, ⟨0, 0, 0⟩⟩).getPreset "Top"
      = ((CameraController.new : CameraController ℚ).registerPreset "Top"
        ⟨⟨0, 10, 0⟩, ⟨0, 0, 0⟩⟩).getPreset "Top" :=
  ⟨by decide,
    (registerPreset_moveToPreset_jump
      ((CameraController.new : CameraController ℚ).registerPreset "Top" ⟨⟨0, 10, 0⟩, ⟨0, 0, 0⟩⟩)
      "Front" ⟨⟨0, 0, 10⟩, ⟨0, 0, 0⟩⟩).2.1 "Top" (by decide)⟩

/-- C16: `moveToPreset(name, true)` for a registered preset `P` returns true, sets the
target position and look-at to `P`, sets `isMoving()` to true, and leaves the current
position, current look-at, up vector and orbit distance exactly unchanged. -/
theorem moveToPreset_smooth {K : Type} [LinearOrderedField K] (c : CameraController K)
    (name : String) (P : CameraPreset K) (h : c.getPreset name = some P) :
    (c.moveToPreset name true).1 = true ∧
    (c.moveToPreset name true).2.targetState_.position = P.position ∧
    (c.moveToPreset name true).2.targetState_.lookAt = P.lookAt ∧
    (c.moveToPreset name true).2.isMoving = true ∧
    (c.moveToPreset name true).2.getState.position = c.getState.position ∧
    (c.moveToPreset name true).2.getState.lookAt = c.getState.lookAt ∧
    (c.moveToPreset name true).2.getState.upVector = c.getState.upVector ∧
    (c.moveToPreset name true).2.getState.orbitDistance = c.getState.orbitDistance := by
  simp only [CameraController.getPreset] at h
  simp [CameraController.moveToPreset, h, CameraController.getState,
    CameraController.isMoving]

/-- Witness of C16: a smooth move to "Top" from the constructed pose. -/
theorem moveToPreset_smooth_witness :
    ((CameraController.new : CameraController ℚ).registerPreset "Top"
        ⟨⟨0, 10, 0⟩, ⟨0, 0, 0⟩⟩).getPreset "Top" = some ⟨⟨0, 10, 0⟩, ⟨0, 0, 0⟩⟩ ∧
    (((CameraController.new : CameraController ℚ).registerPreset "Top"
        ⟨⟨0, 10, 0⟩, ⟨0, 0, 0⟩⟩).moveToPreset "Top" true).2.isMoving = true ∧
    (((CameraController.new : CameraController ℚ).registerPreset "Top"
        ⟨⟨0, 10, 0⟩, ⟨0, 0, 0⟩⟩).moveToPreset "Top" true).2.getState.position
      = ((CameraController.new : CameraController ℚ).registerPreset "Top"
        ⟨⟨0, 10, 0⟩, ⟨0, 0, 0⟩⟩).getState.position :=
  ⟨by simp [CameraController.registerPreset, CameraController.getPreset],
    (moveToPreset_smooth _ "Top" ⟨⟨0, 10, 0⟩, ⟨0, 0, 0⟩⟩
      (by simp [CameraController.registerPreset, CameraController.getPreset])).2.2.2.1,
    (moveToPreset_smooth _ "Top" ⟨⟨0, 10, 0⟩, ⟨0, 0, 0⟩⟩
      (by simp [CameraController.registerPreset, CameraController.getPreset])).2.2.2.2.1⟩

/-! ## Camera transitions -/

theorem Vector3.mul_mul {K : Type} [LinearOrderedField K] (v : Vector3 K) (a b : K) :
    (v.mul a).mul b = v.mul (a * b) := by
  simp [Vector3.mul, mul_assoc]

theorem Vector3.mul_one {K : Type} [LinearOrderedField K] (v : Vector3 K) : v.mul 1 = v := by
  cases v
  simp [Vector3.mul]

/-- The remaining offset after `lerpVector` is the old offset scaled by `1 - t`. -/
theorem CameraController.sub_lerpVector {K : Type} [LinearOrderedField K] (a b : Vector3 K)
    (t : K) : b.sub (CameraController.lerpVector a b t) = (b.sub a).mul (1 - t) := by
  simp only [CameraController.lerpVector, Vector3.sub, Vector3.add, Vector3.mul,
    Vector3.mk.injEq]
  refine ⟨?_, ?_, ?_⟩ <;> ring

/-- Euclidean length scales with the absolute value of the factor. -/
theorem Vector3.length_mul (v : Vector3 ℝ) (k : ℝ) :
    (v.mul k).length Real.sqrt = |k| * v.length Real.sqrt := by
  simp only [Vector3.length, Vector3.mul]
  have h : v.x * k * (v.x * k) + v.y * k * (v.y * k) + v.z * k * (v.z * k)
      = k ^ 2 * (v.x * v.x + v.y * v.y + v.z * v.z) := by ring
  rw [h, Real.sqrt_mul (sq_nonneg k), Real.sqrt_sq_eq_abs]

theorem Vector3.length_nonneg (v : Vector3 ℝ) : 0 ≤ v.length Real.sqrt :=
  Real.sqrt_nonneg _

/-- The interpolation factor `min(deltaTime * 5, 1)` lies in `[0, 1]` for `deltaTime >= 0`,
and is positive for `deltaTime > 0`. -/
theorem stdMin_factor (dt : ℝ) :
    stdMin (dt * 5) 1 ≤ 1 ∧ (0 ≤ dt → 0 ≤ stdMin (dt * 5) 1) ∧
    (0 < dt → 0 < stdMin (dt * 5) 1) := by
  unfold stdMin
  split
  · exact ⟨le_refl 1, fun _ => zero_le_one, fun _ => zero_lt_one⟩
  · rename_i h
    exact ⟨not_lt.mp h, fun hd => by positivity, fun hd => by positivity⟩

/-- C18: `update(dt)` is a no-op when `isMoving` is false; when `isMoving` is true and both
`|target.position - current.position| < 0.01` and `|target.lookAt - current.lookAt| < 0.01`
it sets the current position and look-at to the target's and clears `isMoving`; otherwise,
with `t = min(5 * dt, 1)`, the current position becomes `cur + (target - cur) * t` and
likewise the look-at, the target is unchanged, and for `dt >= 0` the new distance to the
target is `(1 - t)` times the old one, hence never larger. -/
theorem camera_update_step (c : CameraController ℝ) (dt : ℝ) (hs : c.transitionSpeed_ = 5) :
    (c.isMoving = false → c.update Real.sqrt dt = c) ∧
    (c.isMoving = true →
      (c.targetState_.position.sub c.currentState_.position).length Real.sqrt < 1 / 100 →
      (c.targetState_.lookAt.sub c.currentState_.lookAt).length Real.sqrt < 1 / 100 →
      c.update Real.sqrt dt =
        { c with
          currentState_ :=
            { c.currentState_ with
              position := c.targetState_.position
              lookAt := c.targetState_.lookAt
              isMoving := false } }) ∧
    (c.isMoving = true →
      ¬ ((c.targetState_.position.sub c.currentState_.position).length Real.sqrt < 1 / 100 ∧
         (c.targetState_.lookAt.sub c.currentState_.lookAt).length Real.sqrt < 1 / 100) →
      (c.update Real.sqrt dt).currentState_.position =
        c.currentState_.position.add
          ((c.targetState_.position.sub c.currentState_.position).mul (stdMin (5 * dt) 1)) ∧
      (c.update Real.sqrt dt).currentState_.lookAt =
        c.currentState_.lookAt.add
          ((c.targetState_.lookAt.sub c.currentState_.lookAt).mul (stdMin (5 * dt) 1)) ∧
      (c.update Real.sqrt dt).targetState_ = c.targetState_ ∧
      (0 ≤ dt →
        ((c.update Real.sqrt dt).targetState_.position.sub
            (c.update Real.sqrt dt).currentState_.position).length Real.sqrt =
          (1 - stdMin (5 * dt) 1) *
            (c.targetState_.position.sub c.currentState_.position).length Real.sqrt ∧
        ((c.update Real.sqrt dt).targetState_.position.sub
            (c.update Real.sqrt dt).currentState_.position).length Real.sqrt ≤
          (c.targetState_.position.sub c.currentState_.position).length Real.sqrt ∧
        ((c.update Real.sqrt dt).targetState_.lookAt.sub
            (c.update Real.sqrt dt).currentState_.lookAt).length Real.sqrt =
          (1 - stdMin (5 * dt) 1) *
            (c.targetState_.lookAt.sub c.currentState_.lookAt).length Real.sqrt ∧
        ((c.update Real.sqrt dt).targetState_.lookAt.sub
            (c.update Real.sqrt dt).currentState_.lookAt).length Real.sqrt ≤
          (c.targetState_.lookAt.sub c.currentState_.lookAt).length Real.sqrt)) := by
  refine ⟨?_, ?_, ?_⟩
  · intro h
    simp only [CameraController.isMoving] at h
    simp [CameraController.update, h]
  · intro h hp hl
    simp only [CameraController.isMoving] at h
    unfold CameraController.update
    simp only [h, Bool.not_true, Bool.false_eq_true, if_false, if_pos (And.intro hp hl)]
  · intro h hfar
    simp only [CameraController.isMoving] at h
    have hu : c.update Real.sqrt dt =
        { c with
          currentState_ :=
            { c.currentState_ with
              position := CameraController.lerpVector c.currentState_.position
                c.targetState_.position (stdMin (5 * dt) 1)
              lookAt := CameraController.lerpVector c.currentState_.lookAt
                c.targetState_.lookAt (stdMin (5 * dt) 1) } } := by
      unfold CameraController.update
      simp only [h, Bool.not_true, Bool.false_eq_true, if_false, if_neg hfar, hs,
        mul_comm dt 5]
    rw [hu]
    refine ⟨rfl, rfl, rfl, ?_⟩
    intro hdt
    obtain ⟨h1, h0, _⟩ := stdMin_factor dt
    rw [mul_comm dt 5] at h1 h0
    have habs : |1 - stdMin (5 * dt) 1| = 1 - stdMin (5 * dt) 1 :=
      abs_of_nonneg (by linarith)
    simp only [CameraController.sub_lerpVector, Vector3.length_mul, habs]
    have hp0 := Vector3.length_nonneg (c.targetState_.position.sub c.currentState_.position)
    have hl0 := Vector3.length_nonneg (c.targetState_.lookAt.sub c.currentState_.lookAt)
    have ht0 := h0 hdt
    refine ⟨trivial, ?_, trivial, ?_⟩ <;> nlinarith

/-- The sample move to "Top" starts ten units away from its target. -/
theorem movingToTop_far :
    ¬ (((movingToTop : CameraController ℝ).targetState_.position.sub
          (movingToTop : CameraController ℝ).currentState_.position).length Real.sqrt
          < 1 / 100 ∧
       ((movingToTop : CameraController ℝ).targetState_.lookAt.sub
          (movingToTop : CameraController ℝ).currentState_.lookAt).length Real.sqrt
          < 1 / 100) := by
  intro h
  have h1 := h.1
  simp [movingToTop, withTop, topPreset, CameraController.moveToPreset,
    CameraController.registerPreset, CameraController.new, CameraState.init, Vector3.zero,
    Vector3.sub, Vector3.length] at h1
  norm_num at h1

/-- Witness of C18: the first tick of 0.1 s of the sample move to "Top". -/
theorem camera_update_step_witness :
    (movingToTop : CameraController ℝ).transitionSpeed_ = 5 ∧
    (movingToTop : CameraController ℝ).isMoving = true ∧
    ((movingToTop : CameraController ℝ).update Real.sqrt (1 / 10)).currentState_.position =
      (movingToTop : CameraController ℝ).currentState_.position.add
        (((movingToTop : CameraController ℝ).targetState_.position.sub
          (movingToTop : CameraController ℝ).currentState_.position).mul
            (stdMin (5 * (1 / 10)) 1)) ∧
    ((movingToTop : CameraController ℝ).update Real.sqrt (1 / 10)).targetState_ =
      (movingToTop : CameraController ℝ).targetState_ :=
  ⟨rfl, rfl, ((camera_update_step movingToTop (1 / 10) rfl).2.2 rfl movingToTop_far).1,
    ((camera_update_step movingToTop (1 / 10) rfl).2.2 rfl movingToTop_far).2.2.1⟩

/-- Ticks on a camera that is not moving change nothing. -/
theorem CameraController.updates_not_moving {K : Type} [LinearOrderedField K]
    (sqrtf : K → K) (dt : K) :
    ∀ (n : Nat) (c : CameraController K), c.currentState_.isMoving = false →
      c.updates sqrtf dt n = c := by
  intro n
  induction n with
  | zero => intro c _; rfl
  | succ n ih =>
    intro c h
    have hu : c.update sqrtf dt = c := by simp [CameraController.update, h]
    simp only [CameraController.updates, hu]
    exact ih c h

theorem CameraController.updates_add {K : Type} [LinearOrderedField K] (sqrtf : K → K)
    (dt : K) : ∀ (a b : Nat) (c : CameraController K),
      c.updates sqrtf dt (a + b) = (c.updates sqrtf dt a).updates sqrtf dt b := by
  intro a
  induction a with
  | zero => intro b c; simp [CameraController.updates]
  | succ a ih =>
    intro b c
    rw [Nat.succ_add]
    simp only [CameraController.updates]
    exact ih b _

/-- One tick of a transition either snaps onto the target or scales the remaining offsets
by `1 - min(dt * 5, 1)`, keeping target and speed. -/
theorem CameraController.update_moving (c : CameraController ℝ) (dt : ℝ)
    (hs : c.transitionSpeed_ = 5) (hm : c.currentState_.isMoving = true) :
    ((c.update Real.sqrt dt).currentState_.isMoving = false ∧
      (c.update Real.sqrt dt).currentState_.position = c.targetState_.position ∧
      (c.update Real.sqrt dt).currentState_.lookAt = c.targetState_.lookAt) ∨
    ((c.update Real.sqrt dt).currentState_.isMoving = true ∧
      (c.update Real.sqrt dt).targetState_ = c.targetState_ ∧
      (c.update Real.sqrt dt).transitionSpeed_ = 5 ∧
      (c.update Real.sqrt dt).targetState_.position.sub
          (c.update Real.sqrt dt).currentState_.position =
        (c.targetState_.position.sub c.currentState_.position).mul
          (1 - stdMin (dt * 5) 1) ∧
      (c.update Real.sqrt dt).targetState_.lookAt.sub
          (c.update Real.sqrt dt).currentState_.lookAt =
        (c.targetState_.lookAt.sub c.currentState_.lookAt).mul (1 - stdMin (dt * 5) 1)) := by
  by_cases hnear :
      (c.targetState_.position.sub c.currentState_.position).length Real.sqrt < 1 / 100 ∧
      (c.targetState_.lookAt.sub c.currentState_.lookAt).length Real.sqrt < 1 / 100
  · left
    unfold CameraController.update
    simp only [hm, Bool.not_true, Bool.false_eq_true, if_false, if_pos hnear]
    simp
  · right
    unfold CameraController.update
    simp only [hm, Bool.not_true, Bool.false_eq_true, if_false, if_neg hnear, hs,
      CameraController.sub_lerpVector]
    simp

/-- After `n` ticks a transition has either settled on its target or still has the initial
offsets scaled by `(1 - min(dt * 5, 1)) ^ n`. -/
theorem CameraController.updates_moving (dt : ℝ) :
    ∀ (n : Nat) (c : CameraController ℝ), c.transitionSpeed_ = 5 →
      c.currentState_.isMoving = true →
      ((c.updates Real.sqrt dt n).currentState_.isMoving = false ∧
        (c.updates Real.sqrt dt n).currentState_.position = c.targetState_.position ∧
        (c.updates Real.sqrt dt n).currentState_.lookAt = c.targetState_.lookAt) ∨
      ((c.updates Real.sqrt dt n).currentState_.isMoving = true ∧
        (c.updates Real.sqrt dt n).targetState_ = c.targetState_ ∧
        (c.updates Real.sqrt dt n).transitionSpeed_ = 5 ∧
        (c.updates Real.sqrt dt n).targetState_.position.sub
            (c.updates Real.sqrt dt n).currentState_.position =
          (c.targetState_.position.sub c.currentState_.position).mul
            ((1 - stdMin (dt * 5) 1) ^ n) ∧
        (c.updates Real.sqrt dt n).targetState_.lookAt.sub
            (c.updates Real.sqrt dt n).currentState_.lookAt =
          (c.targetState_.lookAt.sub c.currentState_.lookAt).mul
            ((1 - stdMin (dt * 5) 1) ^ n)) := by
  intro n
  induction n with
  | zero =>
    intro c hs hm
    right
    simp only [CameraController.updates, pow_zero, Vector3.mul_one]
    simp [hm, hs]
  | succ n ih =>
    intro c hs hm
    simp only [CameraController.updates]
    rcases c.update_moving dt hs hm with ⟨h1, h2, h3⟩ | ⟨h1, h2, h3, h4, h5⟩
    · left
      rw [CameraController.updates_not_moving Real.sqrt dt n _ h1]
      exact ⟨h1, h2, h3⟩
    · rcases ih (c.update Real.sqrt dt) h3 h1 with ⟨k1, k2, k3⟩ | ⟨k1, k2, k3, k4, k5⟩
      · left
        exact ⟨k1, by rw [k2, h2], by rw [k3, h2]⟩
      · right
        refine ⟨k1, by rw [k2, h2], k3, ?_, ?_⟩
        · rw [k4, h4, Vector3.mul_mul, pow_succ']
        · rw [k5, h5, Vector3.mul_mul, pow_succ']

/-- A tick taken within 0.01 of the target in both position and look-at snaps onto it. -/
theorem CameraController.update_near (c : CameraController ℝ) (dt : ℝ)
    (hm : c.currentState_.isMoving = true)
    (hp : (c.targetState_.position.sub c.currentState_.position).length Real.sqrt < 1 / 100)
    (hl : (c.targetState_.lookAt.sub c.currentState_.lookAt).length Real.sqrt < 1 / 100) :
    (c.update Real.sqrt dt).currentState_.isMoving = false ∧
    (c.update Real.sqrt dt).currentState_.position = c.targetState_.position ∧
    (c.update Real.sqrt dt).currentState_.lookAt = c.targetState_.lookAt := by
  unfold CameraController.update
  simp only [hm, Bool.not_true, Bool.false_eq_true, if_false, if_pos (And.intro hp hl)]
  simp

theorem Vector3.length_sub_self (v : Vector3 ℝ) : (v.sub v).length Real.sqrt = 0 := by
  simp [Vector3.sub, Vector3.length]

/-- A transition started with a positive frame time is settled on its target after
finitely many ticks. -/
theorem CameraController.updates_settle (c : CameraController ℝ) (dt : ℝ)
    (hs : c.transitionSpeed_ = 5) (hm : c.currentState_.isMoving = true) (hdt : 0 < dt) :
    ∃ n, (c.updates Real.sqrt dt n).currentState_.isMoving = false ∧
      (c.updates Real.sqrt dt n).currentState_.position = c.targetState_.position ∧
      (c.updates Real.sqrt dt n).currentState_.lookAt = c.targetState_.lookAt := by
  obtain ⟨hle1, _, hpos⟩ := stdMin_factor dt
  have hr0 : 0 ≤ 1 - stdMin (dt * 5) 1 := by linarith
  have hr1 : 1 - stdMin (dt * 5) 1 < 1 := by linarith [hpos hdt]
  have hDp := Vector3.length_nonneg (c.targetState_.position.sub c.currentState_.position)
  have hDl := Vector3.length_nonneg (c.targetState_.lookAt.sub c.currentState_.lookAt)
  have hM : 0 < (c.targetState_.position.sub c.currentState_.position).length Real.sqrt +
      (c.targetState_.lookAt.sub c.currentState_.lookAt).length Real.sqrt + 1 := by linarith
  obtain ⟨m, hmlt⟩ := exists_pow_lt_of_lt_one (div_pos (by norm_num : (0 : ℝ) < 1 / 100) hM) hr1
  have hrm0 : 0 ≤ (1 - stdMin (dt * 5) 1) ^ m := pow_nonneg hr0 m
  have hprod : (1 - stdMin (dt * 5) 1) ^ m *
      ((c.targetState_.position.sub c.currentState_.position).length Real.sqrt +
        (c.targetState_.lookAt.sub c.currentState_.lookAt).length Real.sqrt + 1) < 1 / 100 :=
    (lt_div_iff₀ hM).mp hmlt
  refine ⟨m + 1, ?_⟩
  rw [CameraController.updates_add Real.sqrt dt m 1 c]
  have hone : ∀ s : CameraController ℝ, s.updates Real.sqrt dt 1 = s.update Real.sqrt dt := by
    intro s
    simp [CameraController.updates]
  rcases CameraController.updates_moving dt m c hs hm with
    ⟨k1, k2, k3⟩ | ⟨k1, k2, _, k4, k5⟩
  · rw [CameraController.updates_not_moving Real.sqrt dt 1 _ k1]
    exact ⟨k1, k2, k3⟩
  · rw [hone]
    have hp : ((c.updates Real.sqrt dt m).targetState_.position.sub
        (c.updates Real.sqrt dt m).currentState_.position).length Real.sqrt < 1 / 100 := by
      rw [k4, Vector3.length_mul, abs_of_nonneg hrm0]
      nlinarith
    have hl : ((c.updates Real.sqrt dt m).targetState_.lookAt.sub
        (c.updates Real.sqrt dt m).currentState_.lookAt).length Real.sqrt < 1 / 100 := by
      rw [k5, Vector3.length_mul, abs_of_nonneg hrm0]
      nlinarith
    obtain ⟨u1, u2, u3⟩ := CameraController.update_near _ dt k1 hp hl
    exact ⟨u1, by rw [u2, k2], by rw [u3, k2]⟩

/-- Exact real arithmetic, every operation of `update` unrounded: for a registered preset
`P`, any starting pose and any fixed `deltaTime > 0`, after `moveToPreset(name, true)` there
is an `n` such that after `n` calls of `update(deltaTime)`, and after any larger number of
calls, `isMoving()` is false and the current position and look-at equal those of `P`, hence
lie within 0.01 units of them.  The program computes in binary32, where rounding can stop
the pose short of the preset; the binary32 transition is treated below. -/
theorem preset_transition_converges (c : CameraController ℝ) (name : String)
    (P : CameraPreset ℝ) (dt : ℝ) (hs : c.transitionSpeed_ = 5)
    (hP : c.getPreset name = some P) (hdt : 0 < dt) :
    ∃ n, ∀ k, n ≤ k →
      (((c.moveToPreset name true).2).updates Real.sqrt dt k).isMoving = false ∧
      (((c.moveToPreset name true).2).updates Real.sqrt dt k).getState.position
        = P.position ∧
      (((c.moveToPreset name true).2).updates Real.sqrt dt k).getState.lookAt = P.lookAt ∧
      (P.position.sub
        (((c.moveToPreset name true).2).updates Real.sqrt dt k).getState.position).length
          Real.sqrt < 1 / 100 ∧
      (P.lookAt.sub
        (((c.moveToPreset name true).2).updates Real.sqrt dt k).getState.lookAt).length
          Real.sqrt < 1 / 100 := by
  simp only [CameraController.getPreset] at hP
  have hmove : (c.moveToPreset name true).2 =
      { c with
        targetState_ := { c.targetState_ with position := P.position, lookAt := P.lookAt }
        currentState_ := { c.currentState_ with isMoving := true } } := by
    simp [CameraController.moveToPreset, hP]
  rw [hmove]
  obtain ⟨n, h1, h2, h3⟩ := CameraController.updates_settle
    { c with
      targetState_ := { c.targetState_ with position := P.position, lookAt := P.lookAt }
      currentState_ := { c.currentState_ with isMoving := true } } dt hs rfl hdt
  refine ⟨n, fun k hk => ?_⟩
  obtain ⟨j, rfl⟩ := Nat.exists_eq_add_of_le hk
  rw [CameraController.updates_add, CameraController.updates_not_moving Real.sqrt dt j _ h1]
  simp only [CameraController.isMoving, CameraController.getState]
  refine ⟨h1, h2, h3, ?_, ?_⟩
  · rw [h2]
    simp only [Vector3.length_sub_self]
    norm_num
  · rw [h3]
    simp only [Vector3.length_sub_self]
    norm_num

/-- Exact real arithmetic: the sample move to "Top" at ten frames per second ends. -/
theorem preset_transition_converges_witness :
    (withTop : CameraController ℝ).transitionSpeed_ = 5 ∧
    (withTop : CameraController ℝ).getPreset "Top" = some topPreset ∧ (0 : ℝ) < 1 / 10 ∧
    ∃ n, ∀ k, n ≤ k →
      ((((withTop : CameraController ℝ).moveToPreset "Top" true).2).updates Real.sqrt
        (1 / 10) k).isMoving = false ∧
      ((((withTop : CameraController ℝ).moveToPreset "Top" true).2).updates Real.sqrt
        (1 / 10) k).getState.position = topPreset.position :=
  ⟨rfl, by simp [withTop, CameraController.registerPreset, CameraController.getPreset],
    by norm_num,
    (preset_transition_converges withTop "Top" topPreset (1 / 10) rfl
      (by simp [withTop, CameraController.registerPreset, CameraController.getPreset])
      (by norm_num)).imp fun _ h k hk => ⟨(h k hk).1, (h k hk).2.1⟩⟩

/-! ## The preset transition in binary32 -/

/-- The binary32 square root of zero is zero. -/
theorem sqrtf32_zero : sqrtf32 0 = 0 := by
  simp [sqrtf32, round32, roundHalfEven]

/-- `std::clamp` with ordered bounds lands in `[lo, hi]`. -/
theorem stdClamp_mem {K : Type} [LinearOrderedField K] (v lo hi : K) (h : lo ≤ hi) :
    lo ≤ stdClamp v lo hi ∧ stdClamp v lo hi ≤ hi := by
  unfold stdClamp
  split
  · exact ⟨le_refl lo, h⟩
  · split
    · exact ⟨h, le_refl hi⟩
    · rename_i h1 h2
      exact ⟨not_lt.mp h1, not_lt.mp h2⟩

theorem stdClamp_of_le_lo {K : Type} [LinearOrderedField K] (v lo hi : K) (h : lo ≤ hi)
    (hv : v ≤ lo) : stdClamp v lo hi = lo := by
  unfold stdClamp
  split
  · rfl
  · rename_i h1
    have hvlo : v = lo := le_antisymm hv (not_lt.mp h1)
    rw [if_neg (by rw [hvlo]; exact not_lt.mpr h), hvlo]

theorem stdClamp_of_hi_le {K : Type} [LinearOrderedField K] (v lo hi : K) (h : lo ≤ hi)
    (hv : hi ≤ v) : stdClamp v lo hi = hi := by
  unfold stdClamp
  rw [if_neg (not_lt.mpr (le_trans h hv))]
  split
  · rfl
  · rename_i h2
    exact le_antisymm (not_lt.mp h2) hv

/-- The state written by a zoom that is not skipped. -/
theorem CameraController.applyOrbitZoom_active {K : Type} [LinearOrderedField K]
    (c : CameraController K) (sqrtf : K → K) (delta : K) (hen : c.orbitEnabled_ = true)
    (hd : 0 < (c.currentState_.position.sub c.orbitConfig_.target).length sqrtf) :
    c.applyOrbitZoom sqrtf delta =
      { c with
        currentState_ :=
          { c.currentState_ with
            position := c.orbitConfig_.target.add
              (((c.currentState_.position.sub c.orbitConfig_.target).mul
                (1 / (c.currentState_.position.sub c.orbitConfig_.target).length sqrtf)).mul
                (stdClamp ((c.currentState_.position.sub c.orbitConfig_.target).length sqrtf
                  + delta) c.orbitConfig_.minDistance c.orbitConfig_.maxDistance))
            orbitDistance :=
              stdClamp ((c.currentState_.position.sub c.orbitConfig_.target).length sqrtf
                + delta) c.orbitConfig_.minDistance c.orbitConfig_.maxDistance }
        targetState_ :=
          { c.targetState_ with
            position := c.orbitConfig_.target.add
              (((c.currentState_.position.sub c.orbitConfig_.target).mul
                (1 / (c.currentState_.position.sub c.orbitConfig_.target).length sqrtf)).mul
                (stdClamp ((c.currentState_.position.sub c.orbitConfig_.target).length sqrtf
                  + delta) c.orbitConfig_.minDistance c.orbitConfig_.maxDistance)) } } := by
  unfold CameraController.applyOrbitZoom
  simp only [hen, Bool.not_true, Bool.false_eq_true, if_false, gt_iff_lt, if_pos hd]

theorem Vector3.add_sub_cancel {K : Type} [LinearOrderedField K] (a b : Vector3 K) :
    (a.add b).sub a = b := by
  cases a
  cases b
  simp [Vector3.add, Vector3.sub]

/-- C20: with orbit enabled, `0 < minDistance <= maxDistance` and the current position at
distance `d > 0` from the orbit target, `applyOrbitZoom(delta)` puts the camera on the same
ray from the orbit target (the old offset scaled by a positive factor) at distance exactly
`clamp(d + delta, minDistance, maxDistance)`, stores that value as the current orbit
distance and sets the target position to the current position; the new distance is never
below `minDistance` or above `maxDistance`, is exactly `minDistance` for every
`delta <= minDistance - d` and exactly `maxDistance` for every `delta >= maxDistance - d`. -/
theorem orbit_zoom_clamps (c : CameraController ℝ) (delta : ℝ)
    (hen : c.isOrbitEnabled = true) (hmin : 0 < c.orbitConfig_.minDistance)
    (hle : c.orbitConfig_.minDistance ≤ c.orbitConfig_.maxDistance)
    (hd : 0 < (c.currentState_.position.sub c.orbitConfig_.target).length Real.sqrt) :
    (c.applyOrbitZoom Real.sqrt delta).orbitConfig_ = c.orbitConfig_ ∧
    (c.applyOrbitZoom Real.sqrt delta).currentState_.position.sub c.orbitConfig_.target =
      (c.currentState_.position.sub c.orbitConfig_.target).mul
        (stdClamp ((c.currentState_.position.sub c.orbitConfig_.target).length Real.sqrt + delta)
            c.orbitConfig_.minDistance c.orbitConfig_.maxDistance /
          (c.currentState_.position.sub c.orbitConfig_.target).length Real.sqrt) ∧
    0 < stdClamp ((c.currentState_.position.sub c.orbitConfig_.target).length Real.sqrt + delta)
            c.orbitConfig_.minDistance c.orbitConfig_.maxDistance /
          (c.currentState_.position.sub c.orbitConfig_.target).length Real.sqrt ∧
    ((c.applyOrbitZoom Real.sqrt delta).currentState_.position.sub
        c.orbitConfig_.target).length Real.sqrt =
      stdClamp ((c.currentState_.position.sub c.orbitConfig_.target).length Real.sqrt + delta)
        c.orbitConfig_.minDistance c.orbitConfig_.maxDistance ∧
    (c.applyOrbitZoom Real.sqrt delta).currentState_.orbitDistance =
      stdClamp ((c.currentState_.position.sub c.orbitConfig_.target).length Real.sqrt + delta)
        c.orbitConfig_.minDistance c.orbitConfig_.maxDistance ∧
    (c.applyOrbitZoom Real.sqrt delta).targetState_.position =
      (c.applyOrbitZoom Real.sqrt delta).currentState_.position ∧
    c.orbitConfig_.minDistance ≤
      ((c.applyOrbitZoom Real.sqrt delta).currentState_.position.sub
        c.orbitConfig_.target).length Real.sqrt ∧
    ((c.applyOrbitZoom Real.sqrt delta).currentState_.position.sub
        c.orbitConfig_.target).length Real.sqrt ≤ c.orbitConfig_.maxDistance ∧
    (delta ≤ c.orbitConfig_.minDistance -
        (c.currentState_.position.sub c.orbitConfig_.target).length Real.sqrt →
      ((c.applyOrbitZoom Real.sqrt delta).currentState_.position.sub
        c.orbitConfig_.target).length Real.sqrt = c.orbitConfig_.minDistance) ∧
    (c.orbitConfig_.maxDistance -
        (c.currentState_.position.sub c.orbitConfig_.target).length Real.sqrt ≤ delta →
      ((c.applyOrbitZoom Real.sqrt delta).currentState_.position.sub
        c.orbitConfig_.target).length Real.sqrt = c.orbitConfig_.maxDistance) := by
  simp only [CameraController.isOrbitEnabled] at hen
  rw [c.applyOrbitZoom_active Real.sqrt delta hen hd]
  simp only [Vector3.add_sub_cancel, Vector3.mul_mul]
  obtain ⟨hlo, hhi⟩ := stdClamp_mem
    ((c.currentState_.position.sub c.orbitConfig_.target).length Real.sqrt + delta)
    c.orbitConfig_.minDistance c.orbitConfig_.maxDistance hle
  have hnd : 0 < stdClamp
      ((c.currentState_.position.sub c.orbitConfig_.target).length Real.sqrt + delta)
      c.orbitConfig_.minDistance c.orbitConfig_.maxDistance := lt_of_lt_of_le hmin hlo
  have hlen : ((c.currentState_.position.sub c.orbitConfig_.target).mul
      (1 / (c.currentState_.position.sub c.orbitConfig_.target).length Real.sqrt *
        stdClamp ((c.currentState_.position.sub c.orbitConfig_.target).length Real.sqrt + delta)
          c.orbitConfig_.minDistance c.orbitConfig_.maxDistance)).length Real.sqrt =
      stdClamp ((c.currentState_.position.sub c.orbitConfig_.target).length Real.sqrt + delta)
        c.orbitConfig_.minDistance c.orbitConfig_.maxDistance := by
    rw [Vector3.length_mul, abs_of_nonneg (by positivity)]
    field_simp
  rw [hlen]
  refine ⟨trivial, ?_, div_pos hnd hd, rfl, trivial, trivial, hlo, hhi, ?_, ?_⟩
  · rw [one_div_mul_eq_div]
  · intro h
    exact stdClamp_of_le_lo _ _ _ hle (by linarith)
  · intro h
    exact stdClamp_of_hi_le _ _ _ hle (by linarith)

/-- The sample orbiting camera is four units from its orbit target. -/
theorem orbitingAtFour_distance :
    ((orbitingAtFour : CameraController ℝ).currentState_.position.sub
      (orbitingAtFour : CameraController ℝ).orbitConfig_.target).length Real.sqrt = 4 := by
  simp [orbitingAtFour, CameraController.new, OrbitConfig.init, Vector3.zero, Vector3.sub,
    Vector3.length]

/-- Witness of C20: zooming the sample orbiting camera by `-1e6` lands exactly on
`minDistance`. -/
theorem orbit_zoom_clamps_witness :
    (orbitingAtFour : CameraController ℝ).isOrbitEnabled = true ∧
    0 < (orbitingAtFour : CameraController ℝ).orbitConfig_.minDistance ∧
    (orbitingAtFour : CameraController ℝ).orbitConfig_.minDistance ≤
      (orbitingAtFour : CameraController ℝ).orbitConfig_.maxDistance ∧
    0 < ((orbitingAtFour : CameraController ℝ).currentState_.position.sub
      (orbitingAtFour : CameraController ℝ).orbitConfig_.target).length Real.sqrt ∧
    (((orbitingAtFour : CameraController ℝ).applyOrbitZoom Real.sqrt
        (-1000000)).currentState_.position.sub
      (orbitingAtFour : CameraController ℝ).orbitConfig_.target).length Real.sqrt =
        (orbitingAtFour : CameraController ℝ).orbitConfig_.minDistance :=
  have h1 : 0 < (orbitingAtFour : CameraController ℝ).orbitConfig_.minDistance := by
    simp [orbitingAtFour, CameraController.new, OrbitConfig.init]
  have h2 : (orbitingAtFour : CameraController ℝ).orbitConfig_.minDistance ≤
      (orbitingAtFour : CameraController ℝ).orbitConfig_.maxDistance := by
    simp [orbitingAtFour, CameraController.new, OrbitConfig.init]
    norm_num
  have h3 : 0 < ((orbitingAtFour : CameraController ℝ).currentState_.position.sub
      (orbitingAtFour : CameraController ℝ).orbitConfig_.target).length Real.sqrt := by
    rw [orbitingAtFour_distance]
    norm_num
  ⟨rfl, h1, h2, h3,
    (orbit_zoom_clamps orbitingAtFour (-1000000) rfl h1 h2 h3).2.2.2.2.2.2.2.2.1
      (by
        rw [orbitingAtFour_distance]
        simp [orbitingAtFour, CameraController.new, OrbitConfig.init]
        norm_num)⟩

/-! ## The orbit distance bounds -/

/-- C19 (counterexample): `setCamera((1,0,0), (0,0,0))` on a fresh controller stores the
orbit distance `1`, below the configured `minDistance = 2`; `setOrbitEnabled(true)` on a
fresh controller stores `0`; and `setOrbitConfig` with `minDistance = 20` leaves the stored
`10` below the new minimum. -/
theorem setCamera_orbit_distance_unclamped :
    ¬ ((CameraController.new : CameraController ℝ).setCamera Real.sqrt ⟨1, 0, 0⟩
        ⟨0, 0, 0⟩).OrbitDistanceInBounds ∧
    ((CameraController.new : CameraController ℝ).setCamera Real.sqrt ⟨1, 0, 0⟩
        ⟨0, 0, 0⟩).currentState_.orbitDistance = 1 ∧
    ((CameraController.new : CameraController ℝ).setCamera Real.sqrt ⟨1, 0, 0⟩
        ⟨0, 0, 0⟩).orbitConfig_.minDistance = 2 ∧
    ¬ ((CameraController.new : CameraController ℝ).setOrbitEnabled Real.sqrt
        true).OrbitDistanceInBounds ∧
    ¬ ((CameraController.new : CameraController ℝ).setOrbitConfig
        ⟨20, 50, ⟨0, 0, 0⟩⟩).OrbitDistanceInBounds := by
  refine ⟨?_, ?_, ?_, ?_, ?_⟩
  · simp [CameraController.OrbitDistanceInBounds, CameraController.setCamera,
      CameraController.new, OrbitConfig.init, CameraState.init, Vector3.sub, Vector3.length]
  · simp [CameraController.setCamera, Vector3.sub, Vector3.length]
  · simp [CameraController.setCamera, CameraController.new, OrbitConfig.init]
  · simp [CameraController.OrbitDistanceInBounds, CameraController.setOrbitEnabled,
      CameraController.initializeOrbitFromCamera, CameraController.new, OrbitConfig.init,
      CameraState.init, Vector3.zero, Vector3.sub, Vector3.length]
  · simp [CameraController.OrbitDistanceInBounds, CameraController.setOrbitConfig,
      CameraController.new, CameraState.init]
    norm_num

/-- C19 (amended): the stored orbit distance of the current state lies in
`[minDistance, maxDistance]` in the constructed state; every `applyOrbitZoom` that is not
skipped (orbit enabled, camera not at the orbit target) under `minDistance <= maxDistance`
leaves it there; and from a state where it holds it still holds after `setConfig`,
`registerPreset`, `moveToPreset`, `applyOrbitRotation`, `applyOrbitZoom`, `update` and
`setOrbitEnabled(false)`. `setCamera` and `setOrbitEnabled(true)` store the unclamped
Euclidean distance, and `setOrbitConfig` replaces the bounds without touching the stored
distance. -/
theorem orbit_distance_bounds (c : CameraController ℝ) :
    (CameraController.new : CameraController ℝ).OrbitDistanceInBounds ∧
    (∀ delta, c.isOrbitEnabled = true →
      c.orbitConfig_.minDistance ≤ c.orbitConfig_.maxDistance →
      0 < (c.currentState_.position.sub c.orbitConfig_.target).length Real.sqrt →
      (c.applyOrbitZoom Real.sqrt delta).OrbitDistanceInBounds) ∧
    (c.OrbitDistanceInBounds →
      (∀ config, (c.setConfig config).OrbitDistanceInBounds) ∧
      (∀ name preset, (c.registerPreset name preset).OrbitDistanceInBounds) ∧
      (∀ name smooth, (c.moveToPreset name smooth).2.OrbitDistanceInBounds) ∧
      (∀ atan2f acosf sinf cosf deltaX deltaY,
        (c.applyOrbitRotation Real.sqrt atan2f acosf sinf cosf deltaX
          deltaY).OrbitDistanceInBounds) ∧
      (∀ delta, (c.applyOrbitZoom Real.sqrt delta).OrbitDistanceInBounds) ∧
      (∀ deltaTime, (c.update Real.sqrt deltaTime).OrbitDistanceInBounds) ∧
      (c.setOrbitEnabled Real.sqrt false).OrbitDistanceInBounds) ∧
    (∀ position lookAt,
      (c.setCamera Real.sqrt position lookAt).currentState_.orbitDistance =
        (position.sub lookAt).length Real.sqrt) ∧
    (c.setOrbitEnabled Real.sqrt true).currentState_.orbitDistance =
      (c.currentState_.position.sub c.orbitConfig_.target).length Real.sqrt ∧
    (∀ config, (c.setOrbitConfig config).orbitConfig_ = config ∧
      (c.setOrbitConfig config).currentState_.orbitDistance
        = c.currentState_.orbitDistance) := by
  have hzoom : ∀ delta, c.orbitEnabled_ = true →
      c.orbitConfig_.minDistance ≤ c.orbitConfig_.maxDistance →
      0 < (c.currentState_.position.sub c.orbitConfig_.target).length Real.sqrt →
      (c.applyOrbitZoom Real.sqrt delta).OrbitDistanceInBounds := by
    intro delta hen hle hd
    rw [c.applyOrbitZoom_active Real.sqrt delta hen hd]
    exact stdClamp_mem _ _ _ hle
  refine ⟨?_, hzoom, ?_, fun _ _ => rfl, rfl, fun _ => ⟨rfl, rfl⟩⟩
  · simp [CameraController.OrbitDistanceInBounds, CameraController.new, OrbitConfig.init,
      CameraState.init]
    norm_num
  · intro h
    refine ⟨fun _ => h, fun _ _ => h, ?_, ?_, ?_, ?_, ?_⟩
    · intro name smooth
      unfold CameraController.moveToPreset
      split
      · exact h
      · split <;> exact h
    · intro atan2f acosf sinf cosf deltaX deltaY
      unfold CameraController.applyOrbitRotation
      split <;> exact h
    · intro delta
      by_cases hen : c.orbitEnabled_ = true
      · by_cases hd : 0 < (c.currentState_.position.sub c.orbitConfig_.target).length Real.sqrt
        · exact hzoom delta hen (le_trans h.1 h.2) hd
        · unfold CameraController.applyOrbitZoom
          simp only [hen, Bool.not_true, Bool.false_eq_true, if_false, gt_iff_lt, if_neg hd]
          exact h
      · unfold CameraController.applyOrbitZoom
        simp only [Bool.not_eq_true] at hen
        simp only [hen, Bool.not_false, if_true]
        exact h
    · intro deltaTime
      unfold CameraController.update
      split
      · exact h
      · simp only []
        split <;> exact h
    · exact h

/-- Witness of C19 (amended): zooming the sample orbiting camera by `100`. -/
theorem orbit_distance_bounds_witness :
    (orbitingAtFour : CameraController ℝ).isOrbitEnabled = true ∧
    ((orbitingAtFour : CameraController ℝ).applyOrbitZoom Real.sqrt
      100).OrbitDistanceInBounds :=
  ⟨rfl,
    (orbit_distance_bounds orbitingAtFour).2.1 100 rfl
      (by
        simp [orbitingAtFour, CameraController.new, OrbitConfig.init]
        norm_num)
      (by
        rw [orbitingAtFour_distance]
        norm_num)⟩

/-! ## Animation queries -/

/-- The loop of `getAnimationNames` appends the names of the indices `i, i + 1, …`. -/
theorem getAnimationNamesLoop_eq (c : AnimationController) :
    ∀ (remaining i : Nat) (names : List String),
      c.getAnimationNamesLoop remaining i names =
        names ++ (List.range remaining).map (fun k => c.getAnimationName (i + k)) := by
  intro remaining
  induction remaining with
  | zero => intro i names; simp [getAnimationNamesLoop]
  | succ r ih =>
    intro i names
    rw [getAnimationNamesLoop, ih, List.range_succ_eq_map]
    simp only [List.map_cons, List.map_map, List.append_assoc, List.singleton_append,
      Nat.add_zero]
    congr 2
    apply List.map_congr_left
    intro k _
    simp only [Function.comp_apply]
    congr 1
    omega

/-- C28: the animation queries never fail and use sentinels: `getAnimationName(i)` is the
empty string and `getAnimationDuration(i)` is 0 for every `i >= count`, and so for every `i`
without a backend; `getAnimationNames()` has length `count` with element `i` equal to
`getAnimationName(i)`; `findAnimationByName(name)` returns the smallest `i < count` with
`getAnimationName(i) == name`, and returns `SIZE_MAX` exactly when there is no such index. -/
theorem animation_queries_spec (c : AnimationController) :
    (∀ i, c.getAnimationCount ≤ i →
      c.getAnimationName i = "" ∧ c.getAnimationDuration i = Flt.val 0) ∧
    (c.animator_ = none → c.getAnimationCount = 0 ∧
      ∀ i, c.getAnimationName i = "" ∧ c.getAnimationDuration i = Flt.val 0) ∧
    c.getAnimationNames.length = c.getAnimationCount ∧
    (∀ i, i < c.getAnimationCount → c.getAnimationNames.get? i = some (c.getAnimationName i)) ∧
    (∀ name i0, i0 < c.getAnimationCount → c.getAnimationName i0 = name →
      (∀ j, j < i0 → c.getAnimationName j ≠ name) → c.findAnimationByName name = i0) ∧
    (∀ name, c.findAnimationByName name = SIZE_MAX ↔
      ¬ ∃ i, i < c.getAnimationCount ∧ c.getAnimationName i = name) := by
  have hout : ∀ i, c.getAnimationCount ≤ i →
      c.getAnimationName i = "" ∧ c.getAnimationDuration i = Flt.val 0 := by
    intro i hi
    unfold AnimationController.getAnimationName AnimationController.getAnimationDuration
    unfold AnimationController.getAnimationCount at hi
    cases ha : c.animator_ with
    | none => simp [Flt.zero]
    | some a =>
      rw [ha] at hi
      simp only at hi
      simp [hi, Flt.zero]
  have hnames : c.getAnimationNames =
      (List.range c.getAnimationCount).map (fun k => c.getAnimationName k) := by
    unfold getAnimationNames
    rw [getAnimationNamesLoop_eq]
    simp
  have hfirst : ∀ name i0, i0 < c.getAnimationCount → c.getAnimationName i0 = name →
      (∀ j, j < i0 → c.getAnimationName j ≠ name) → c.findAnimationByName name = i0 := by
    intro name i0 hi0 hname hmin
    unfold findAnimationByName
    exact findAnimationByNameLoop_first c name _ 0 i0 (Nat.zero_le _) (by omega) hname
      (fun j _ hj => hmin j hj)
  refine ⟨hout, ?_, ?_, ?_, hfirst, ?_⟩
  · intro ha
    have hc : c.getAnimationCount = 0 := by
      simp [AnimationController.getAnimationCount, ha]
    exact ⟨hc, fun i => hout i (by omega)⟩
  · rw [hnames]
    simp
  · intro i hi
    rw [hnames]
    simp [List.get?_eq_getElem?, hi]
  · intro name
    constructor
    · intro hmax hex
      classical
      have hfind := hfirst name (Nat.find hex) (Nat.find_spec hex).1 (Nat.find_spec hex).2
        (fun j hj hj2 => Nat.find_min hex hj ⟨lt_trans hj (Nat.find_spec hex).1, hj2⟩)
      have hlt := (Nat.find_spec hex).1
      have hle := c.getAnimationCount_le_SIZE_MAX
      omega
    · intro hno
      unfold findAnimationByName
      apply findAnimationByNameLoop_none
      intro j _ hj hname
      exact hno ⟨j, by omega, hname⟩

/-- Witness of C28: the test backend has two animations, "Run" at index 1. -/
theorem animation_queries_spec_witness :
    (new (some idleRun)).getAnimationCount ≤ 2 ∧
    (new (some idleRun)).getAnimationName 2 = "" ∧
    (new (some idleRun)).getAnimationDuration 2 = Flt.val 0 ∧
    1 < (new (some idleRun)).getAnimationCount ∧
    (new (some idleRun)).getAnimationName 1 = "Run" ∧
    (new (some idleRun)).findAnimationByName "Run" = 1 ∧
    (new (some idleRun)).getAnimationNames.get? 1 = some ((new (some idleRun)).getAnimationName 1) :=
  ⟨by decide,
    ((animation_queries_spec (new (some idleRun))).1 2 (by decide)).1,
    ((animation_queries_spec (new (some idleRun))).1 2 (by decide)).2,
    by decide, by decide,
    (animation_queries_spec (new (some idleRun))).2.2.2.2.1 "Run" 1 (by decide) (by decide)
      (by decide),
    (animation_queries_spec (new (some idleRun))).2.2.2.1 1 (by decide)⟩

/-! ## Playback flags -/

/-- A stopped controller has every playback flag clear and the elapsed time at zero. -/
theorem AnimationController.step_stopped_clean (c : AnimationController) (op : Op)
    (h : c.isPlaying_ = false →
      c.isPaused_ = false ∧ c.shouldLoop_ = false ∧ c.elapsedTime_ = Flt.val 0) :
    (c.step op).isPlaying_ = false →
      (c.step op).isPaused_ = false ∧ (c.step op).shouldLoop_ = false ∧
      (c.step op).elapsedTime_ = Flt.val 0 := by
  have hplay : ∀ index loop, (c.play index loop).isPlaying_ = false →
      (c.play index loop).isPaused_ = false ∧ (c.play index loop).shouldLoop_ = false ∧
      (c.play index loop).elapsedTime_ = Flt.val 0 := by
    intro index loop
    unfold play
    split
    · exact h
    · split
      · exact h
      · simp
  cases op with
  | play index loop => exact hplay index loop
  | playByName name loop =>
    simp only [step, playByName]
    split
    · exact h
    · exact hplay _ loop
  | stop => simp [step, stop, Flt.zero]
  | pause =>
    simp only [step, pause]
    split
    · rename_i hp
      intro hnp
      simp only at hnp
      rw [hp] at hnp
      exact absurd hnp (by simp)
    · exact h
  | resume =>
    simp only [step, resume]
    split
    · intro hnp
      obtain ⟨_, h2, h3⟩ := h hnp
      exact ⟨rfl, h2, h3⟩
    · exact h
  | update dt =>
    simp only [step, update]
    split
    · exact h
    · rename_i hact
      have hpl : c.isPlaying_ = true := by
        cases hp : c.isPlaying_ with
        | true => rfl
        | false => simp [hp] at hact
      split
      · split
        · simp only [applyAnimationAtTime]
          split <;> simp [hpl]
        · simp [stop, Flt.zero]
      · simp only [applyAnimationAtTime]
        split <;> simp [hpl]

/-- C29: in every state reached from construction by `play` (by index or name), `stop`,
`pause`, `resume` and `update`, if `isPlaying` is false then `isPaused` is false,
`shouldLoop` is false and `elapsedTime` is 0; and `isPaused` implies `isPlaying`, so the
flags encode exactly Stopped, Playing and Paused. -/
theorem playback_flags_consistent (animator : Option Animator) (ops : List Op) :
    (((new animator).run ops).isPlaying = false →
      ((new animator).run ops).isPaused = false ∧
      ((new animator).run ops).isLooping = false ∧
      ((new animator).run ops).getElapsedTime = Flt.val 0) ∧
    (((new animator).run ops).isPaused = true → ((new animator).run ops).isPlaying = true) := by
  constructor
  · exact AnimationController.run_invariant
      (fun s => s.isPlaying_ = false →
        s.isPaused_ = false ∧ s.shouldLoop_ = false ∧ s.elapsedTime_ = Flt.val 0)
      (fun _ => True) (fun s op _ hs => s.step_stopped_clean op hs) ops (new animator)
      (fun _ _ => trivial) (by simp [new, Flt.zero])
  · exact AnimationController.run_invariant
      (fun s => s.isPaused_ = true → s.isPlaying_ = true) (fun _ => True)
      (fun s op _ hs => s.step_paused_playing op hs) ops (new animator)
      (fun _ _ => trivial) (by simp [new])

/-- Witness of C29: "Idle" played once to completion on the test backend. -/
theorem playback_flags_consistent_witness :
    ((new (some idleRun)).run [Op.play 0 false, Op.update (Flt.val 1)]).isPlaying = false ∧
    ((new (some idleRun)).run [Op.play 0 false, Op.update (Flt.val 1)]).isPaused = false ∧
    ((new (some idleRun)).run [Op.play 0 false, Op.update (Flt.val 1)]).isLooping = false ∧
    ((new (some idleRun)).run [Op.play 0 false, Op.update (Flt.val 1)]).getElapsedTime
      = Flt.val 0 :=
  have hstop : ((new (some idleRun)).run
      [Op.play 0 false, Op.update (Flt.val 1)]).isPlaying = false := by
    simp [run, step, new, play, update, idleRun, Animator.getAnimationCount,
      Animator.getAnimationDuration, Flt.add, Flt.ge, Flt.zero, stop, isPlaying]
  ⟨hstop,
    (playback_flags_consistent (some idleRun) [Op.play 0 false, Op.update (Flt.val 1)]).1
      hstop⟩

/-! ## Orbit gestures and direct control -/

/-- C23: with orbit disabled, `applyOrbitRotation` and `applyOrbitZoom` return the controller
unchanged for all arguments; with orbit enabled and the current position on the orbit target
(distance 0), `applyOrbitZoom` returns it unchanged for every `delta`, so the current and
target state (position, look-at, orbit distance, flag) are as before. -/
theorem orbit_gestures_skipped (c : CameraController ℝ) :
    (c.isOrbitEnabled = false →
      (∀ (atan2f : ℝ → ℝ → ℝ) (acosf sinf cosf : ℝ → ℝ) (deltaX deltaY : ℝ),
        c.applyOrbitRotation Real.sqrt atan2f acosf sinf cosf deltaX deltaY = c) ∧
      (∀ delta, c.applyOrbitZoom Real.sqrt delta = c)) ∧
    (c.isOrbitEnabled = true → c.currentState_.position = c.orbitConfig_.target →
      c.orbitDistanceNow Real.sqrt = 0 ∧
      ∀ delta, c.applyOrbitZoom Real.sqrt delta = c ∧
        (c.applyOrbitZoom Real.sqrt delta).currentState_ = c.currentState_ ∧
        (c.applyOrbitZoom Real.sqrt delta).targetState_ = c.targetState_) := by
  constructor
  · intro h
    simp only [CameraController.isOrbitEnabled] at h
    constructor
    · intro atan2f acosf sinf cosf deltaX deltaY
      simp [CameraController.applyOrbitRotation, h]
    · intro delta
      simp [CameraController.applyOrbitZoom, h]
  · intro _ hpos
    have hzero : (c.currentState_.position.sub c.orbitConfig_.target).length Real.sqrt = 0 := by
      rw [hpos]
      exact Vector3.length_sub_self _
    refine ⟨hzero, fun delta => ?_⟩
    have key : c.applyOrbitZoom Real.sqrt delta = c := by
      unfold CameraController.applyOrbitZoom
      simp [hzero]
    rw [key]
    exact ⟨rfl, rfl, rfl⟩

/-- Witness of C23: gestures on a fresh controller, whose orbit is disabled. -/
theorem orbit_gestures_skipped_witness :
    (CameraController.new : CameraController ℝ).isOrbitEnabled = false ∧
    (CameraController.new : CameraController ℝ).applyOrbitZoom Real.sqrt 3
      = CameraController.new ∧
    (CameraController.new : CameraController ℝ).applyOrbitRotation Real.sqrt (fun _ _ => 0)
      Real.arccos Real.sin Real.cos 1 1 = CameraController.new :=
  ⟨rfl, ((orbit_gestures_skipped CameraController.new).1 rfl).2 3,
    ((orbit_gestures_skipped CameraController.new).1 rfl).1 (fun _ _ => 0) Real.arccos Real.sin
      Real.cos 1 1⟩

/-- C26: `setCamera(position, lookAt)` from any state sets the current and the target
position to `position` and both look-ats to `lookAt`, sets the current orbit distance to
the Euclidean distance `|position - lookAt|`, and sets `isMoving()` to false, so that a
following `update(dt)` changes nothing. -/
theorem setCamera_spec (c : CameraController ℝ) (position lookAt : Vector3 ℝ) :
    (c.setCamera Real.sqrt position lookAt).currentState_.position = position ∧
    (c.setCamera Real.sqrt position lookAt).targetState_.position = position ∧
    (c.setCamera Real.sqrt position lookAt).currentState_.lookAt = lookAt ∧
    (c.setCamera Real.sqrt position lookAt).targetState_.lookAt = lookAt ∧
    (c.setCamera Real.sqrt position lookAt).currentState_.orbitDistance =
      Real.sqrt ((position.x - lookAt.x) ^ 2 + (position.y - lookAt.y) ^ 2 +
        (position.z - lookAt.z) ^ 2) ∧
    (c.setCamera Real.sqrt position lookAt).isMoving = false ∧
    (∀ dt, (c.setCamera Real.sqrt position lookAt).update Real.sqrt dt =
      c.setCamera Real.sqrt position lookAt) := by
  refine ⟨rfl, rfl, rfl, rfl, ?_, rfl, ?_⟩
  · simp only [CameraController.setCamera, Vector3.length, Vector3.sub]
    congr 1
    ring
  · intro dt
    simp [CameraController.update, CameraController.setCamera]

/-! ## The settled pose invariant -/

/-- An invariant kept by every camera call holds after every run. -/
theorem CameraController.camera_run_invariant {K : Type} [LinearOrderedField K]
    (sqrtf : K → K) (atan2f : K → K → K) (acosf sinf cosf : K → K)
    (P : CameraController K → Prop)
    (hstep : ∀ c op, P c → P (c.step sqrtf atan2f acosf sinf cosf op)) :
    ∀ (ops : List (CameraOp K)) (c : CameraController K), P c →
      P (c.run sqrtf atan2f acosf sinf cosf ops) := by
  intro ops
  induction ops with
  | nil => intro c h; exact h
  | cons op rest ih =>
    intro c h
    exact ih _ (hstep c op h)

/-- Every camera call keeps: when not moving, current and target agree in position and
look-at. -/
theorem CameraController.step_settled {K : Type} [LinearOrderedField K]
    (sqrtf : K → K) (atan2f : K → K → K) (acosf sinf cosf : K → K)
    (c : CameraController K) (op : CameraOp K)
    (h : c.currentState_.isMoving = false →
      c.currentState_.position = c.targetState_.position ∧
      c.currentState_.lookAt = c.targetState_.lookAt) :
    (c.step sqrtf atan2f acosf sinf cosf op).currentState_.isMoving = false →
      (c.step sqrtf atan2f acosf sinf cosf op).currentState_.position =
        (c.step sqrtf atan2f acosf sinf cosf op).targetState_.position ∧
      (c.step sqrtf atan2f acosf sinf cosf op).currentState_.lookAt =
        (c.step sqrtf atan2f acosf sinf cosf op).targetState_.lookAt := by
  cases op with
  | setConfig config => exact h
  | setOrbitConfig config => exact h
  | registerPreset name preset => exact h
  | moveToPreset name smooth =>
    simp only [CameraController.step, CameraController.moveToPreset]
    split
    · exact h
    · split
      · intro hm
        simp at hm
      · intro _
        exact ⟨rfl, rfl⟩
  | setCamera position lookAt =>
    intro _
    exact ⟨rfl, rfl⟩
  | setOrbitEnabled enabled =>
    simp only [CameraController.step, CameraController.setOrbitEnabled]
    split
    · exact h
    · exact h
  | applyOrbitRotation deltaX deltaY =>
    simp only [CameraController.step, CameraController.applyOrbitRotation]
    split
    · exact h
    · intro _
      exact ⟨rfl, rfl⟩
  | applyOrbitZoom delta =>
    simp only [CameraController.step, CameraController.applyOrbitZoom]
    split
    · exact h
    · split
      · intro hm
        exact ⟨rfl, (h hm).2⟩
      · exact h
  | initializeOrbitFromCamera => exact h
  | update deltaTime =>
    simp only [CameraController.step, CameraController.update]
    split
    · exact h
    · rename_i hmov
      split
      · intro _
        exact ⟨rfl, rfl⟩
      · intro hm
        simp only at hm
        rw [hm] at hmov
        simp at hmov

/-- C30: in every state reached from construction by any sequence of public
`CameraController` calls, whenever `isMoving()` is false the current position equals the
target position and the current look-at equals the target look-at. -/
theorem settled_pose_invariant {K : Type} [LinearOrderedField K]
    (sqrtf : K → K) (atan2f : K → K → K) (acosf sinf cosf : K → K) (ops : List (CameraOp K)) :
    ((CameraController.new : CameraController K).run sqrtf atan2f acosf sinf cosf
        ops).isMoving = false →
      ((CameraController.new : CameraController K).run sqrtf atan2f acosf sinf cosf
          ops).currentState_.position =
        ((CameraController.new : CameraController K).run sqrtf atan2f acosf sinf cosf
          ops).targetState_.position ∧
      ((CameraController.new : CameraController K).run sqrtf atan2f acosf sinf cosf
          ops).currentState_.lookAt =
        ((CameraController.new : CameraController K).run sqrtf atan2f acosf sinf cosf
          ops).targetState_.lookAt :=
  CameraController.camera_run_invariant sqrtf atan2f acosf sinf cosf
    (fun s => s.currentState_.isMoving = false →
      s.currentState_.position = s.targetState_.position ∧
      s.currentState_.lookAt = s.targetState_.lookAt)
    (fun s op hs => CameraController.step_settled sqrtf atan2f acosf sinf cosf s op hs) ops
    CameraController.new (fun _ => ⟨rfl, rfl⟩)

/-- Witness of C30: an immediate jump to "Top" on a fresh controller. -/
theorem settled_pose_invariant_witness :
    ((CameraController.new : CameraController ℝ).run Real.sqrt (fun x z => Complex.arg ⟨z, x⟩)
        Real.arccos Real.sin Real.cos
        [CameraOp.registerPreset "Top" topPreset, CameraOp.moveToPreset "Top" false]).isMoving
      = false ∧
    ((CameraController.new : CameraController ℝ).run Real.sqrt (fun x z => Complex.arg ⟨z, x⟩)
        Real.arccos Real.sin Real.cos
        [CameraOp.registerPreset "Top" topPreset,
         CameraOp.moveToPreset "Top" false]).currentState_.position =
      ((CameraController.new : CameraController ℝ).run Real.sqrt
        (fun x z => Complex.arg ⟨z, x⟩) Real.arccos Real.sin Real.cos
        [CameraOp.registerPreset "Top" topPreset,
         CameraOp.moveToPreset "Top" false]).targetState_.position :=
  have hm : ((CameraController.new : CameraController ℝ).run Real.sqrt
      (fun x z => Complex.arg ⟨z, x⟩) Real.arccos Real.sin Real.cos
      [CameraOp.registerPreset "Top" topPreset, CameraOp.moveToPreset "Top" false]).isMoving
      = false := by
    simp [CameraController.run, CameraController.step, CameraController.registerPreset,
      CameraController.moveToPreset, CameraController.isMoving]
  ⟨hm, (settled_pose_invariant Real.sqrt (fun x z => Complex.arg ⟨z, x⟩) Real.arccos Real.sin
    Real.cos [CameraOp.registerPreset "Top" topPreset, CameraOp.moveToPreset "Top" false]
    hm).1⟩

/-! ## Zoom direction -/

/-- The distance from the orbit target after a zoom that is not skipped is the clamped
distance, when that is not negative. -/
theorem CameraController.applyOrbitZoom_distance (c : CameraController ℝ) (delta : ℝ)
    (hen : c.orbitEnabled_ = true) (hd : 0 < c.orbitDistanceNow Real.sqrt)
    (hnn : 0 ≤ stdClamp (c.orbitDistanceNow Real.sqrt + delta) c.orbitConfig_.minDistance
      c.orbitConfig_.maxDistance) :
    (c.applyOrbitZoom Real.sqrt delta).orbitDistanceNow Real.sqrt =
      stdClamp (c.orbitDistanceNow Real.sqrt + delta) c.orbitConfig_.minDistance
        c.orbitConfig_.maxDistance := by
  unfold CameraController.orbitDistanceNow at hd hnn ⊢
  rw [c.applyOrbitZoom_active Real.sqrt delta hen hd]
  simp only [Vector3.add_sub_cancel, Vector3.mul_mul]
  rw [Vector3.length_mul, abs_of_nonneg (mul_nonneg (by positivity) hnn)]
  field_simp

/-- For a camera strictly inside non-negative distance bounds, a positive `delta` moves the
camera away from the orbit target and a negative `delta` moves it closer. -/
theorem CameraController.applyOrbitZoom_direction (c : CameraController ℝ) (delta : ℝ)
    (hen : c.orbitEnabled_ = true) (hmin : 0 ≤ c.orbitConfig_.minDistance)
    (hlo : c.orbitConfig_.minDistance < c.orbitDistanceNow Real.sqrt)
    (hhi : c.orbitDistanceNow Real.sqrt < c.orbitConfig_.maxDistance) :
    (0 < delta →
      c.orbitDistanceNow Real.sqrt < (c.applyOrbitZoom Real.sqrt delta).orbitDistanceNow
        Real.sqrt) ∧
    (delta < 0 →
      (c.applyOrbitZoom Real.sqrt delta).orbitDistanceNow Real.sqrt
        < c.orbitDistanceNow Real.sqrt) := by
  have hd : 0 < c.orbitDistanceNow Real.sqrt := lt_of_le_of_lt hmin hlo
  obtain ⟨h1, h2⟩ := stdClamp_mem (c.orbitDistanceNow Real.sqrt + delta)
    c.orbitConfig_.minDistance c.orbitConfig_.maxDistance (by linarith)
  rw [c.applyOrbitZoom_distance delta hen hd (le_trans hmin h1)]
  constructor
  · intro hpos
    unfold stdClamp
    split
    · linarith
    · split <;> linarith
  · intro hneg
    unfold stdClamp
    split
    · linarith
    · split <;> linarith

/-- C21 (the code at the failing input): the sample orbiting camera is 4 units from the
orbit target, strictly inside the bounds `[2, 50]`; `applyOrbitZoom(1)` puts it at distance
5, farther away, and `applyOrbitZoom(-1)` at distance 3, closer: the opposite of the
header's "positive = zoom in, negative = zoom out". -/
theorem zoom_positive_delta_moves_away :
    (orbitingAtFour : CameraController ℝ).isOrbitEnabled = true ∧
    (orbitingAtFour : CameraController ℝ).orbitConfig_.minDistance <
      (orbitingAtFour : CameraController ℝ).orbitDistanceNow Real.sqrt ∧
    (orbitingAtFour : CameraController ℝ).orbitDistanceNow Real.sqrt <
      (orbitingAtFour : CameraController ℝ).orbitConfig_.maxDistance ∧
    (orbitingAtFour : CameraController ℝ).orbitDistanceNow Real.sqrt = 4 ∧
    ((orbitingAtFour : CameraController ℝ).applyOrbitZoom Real.sqrt 1).orbitDistanceNow
      Real.sqrt = 5 ∧
    ((orbitingAtFour : CameraController ℝ).applyOrbitZoom Real.sqrt (-1)).orbitDistanceNow
      Real.sqrt = 3 := by
  have hd : (orbitingAtFour : CameraController ℝ).orbitDistanceNow Real.sqrt = 4 :=
    orbitingAtFour_distance
  have hmin : (orbitingAtFour : CameraController ℝ).orbitConfig_.minDistance = 2 := rfl
  have hmax : (orbitingAtFour : CameraController ℝ).orbitConfig_.maxDistance = 50 := rfl
  have hc1 : stdClamp ((4 : ℝ) + 1) 2 50 = 5 := by
    simp [stdClamp]
    norm_num
  have hc2 : stdClamp ((4 : ℝ) + -1) 2 50 = 3 := by
    simp [stdClamp]
    norm_num
  refine ⟨rfl, ?_, ?_, hd, ?_, ?_⟩
  · rw [hd, hmin]
    norm_num
  · rw [hd, hmax]
    norm_num
  · rw [CameraController.applyOrbitZoom_distance _ _ rfl (by rw [hd]; norm_num)
      (by rw [hd, hmin, hmax, hc1]; norm_num), hd, hmin, hmax, hc1]
  · rw [CameraController.applyOrbitZoom_distance _ _ rfl (by rw [hd]; norm_num)
      (by rw [hd, hmin, hmax, hc2]; norm_num), hd, hmin, hmax, hc2]

/-! ## Orbit gestures during a transition -/

/-- The sample mid-transition state is reached from construction by registering "Top",
`setCamera((0,0,4), (0,0,1))`, `setOrbitEnabled(true)` and `moveToPreset("Top", true)`. -/
theorem orbitingMidMove_reachable :
    (CameraController.new : CameraController ℝ).run Real.sqrt (fun x z => Complex.arg ⟨z, x⟩)
      Real.arccos Real.sin Real.cos
      [CameraOp.registerPreset "Top" topPreset, CameraOp.setCamera ⟨0, 0, 4⟩ ⟨0, 0, 1⟩,
       CameraOp.setOrbitEnabled true, CameraOp.moveToPreset "Top" true] = orbitingMidMove := by
  simp [CameraController.run, CameraController.step, CameraController.registerPreset,
    CameraController.setCamera, CameraController.setOrbitEnabled,
    CameraController.initializeOrbitFromCamera, CameraController.moveToPreset,
    CameraController.new, orbitingMidMove, withTop, topPreset, CameraState.init,
    OrbitConfig.init, Vector3.zero, Vector3.sub, Vector3.length]

/-- What the orbit gestures write: an enabled rotation makes current and target agree in
position and look-at, a zoom that is not skipped makes them agree in position; neither
touches `isMoving`, and the zoom touches no look-at. -/
theorem CameraController.orbit_gestures_effect {K : Type} [LinearOrderedField K]
    (c : CameraController K) (sqrtf : K → K) (atan2f : K → K → K) (acosf sinf cosf : K → K) :
    (∀ deltaX deltaY,
      (c.applyOrbitRotation sqrtf atan2f acosf sinf cosf deltaX deltaY).currentState_.isMoving
        = c.currentState_.isMoving ∧
      (c.orbitEnabled_ = true →
        (c.applyOrbitRotation sqrtf atan2f acosf sinf cosf deltaX
            deltaY).currentState_.position =
          (c.applyOrbitRotation sqrtf atan2f acosf sinf cosf deltaX
            deltaY).targetState_.position ∧
        (c.applyOrbitRotation sqrtf atan2f acosf sinf cosf deltaX
            deltaY).currentState_.lookAt =
          (c.applyOrbitRotation sqrtf atan2f acosf sinf cosf deltaX
            deltaY).targetState_.lookAt)) ∧
    (∀ delta,
      (c.applyOrbitZoom sqrtf delta).currentState_.isMoving = c.currentState_.isMoving ∧
      (c.applyOrbitZoom sqrtf delta).currentState_.lookAt = c.currentState_.lookAt ∧
      (c.applyOrbitZoom sqrtf delta).targetState_.lookAt = c.targetState_.lookAt ∧
      (c.orbitEnabled_ = true →
        0 < (c.currentState_.position.sub c.orbitConfig_.target).length sqrtf →
        (c.applyOrbitZoom sqrtf delta).currentState_.position =
          (c.applyOrbitZoom sqrtf delta).targetState_.position)) := by
  constructor
  · intro deltaX deltaY
    unfold CameraController.applyOrbitRotation
    split
    · rename_i hdis
      refine ⟨rfl, fun hen => ?_⟩
      rw [hen] at hdis
      simp at hdis
    · exact ⟨rfl, fun _ => ⟨rfl, rfl⟩⟩
  · intro delta
    by_cases hen : c.orbitEnabled_ = true
    · by_cases hd : 0 < (c.currentState_.position.sub c.orbitConfig_.target).length sqrtf
      · rw [c.applyOrbitZoom_active sqrtf delta hen hd]
        exact ⟨rfl, rfl, rfl, fun _ _ => rfl⟩
      · have key : c.applyOrbitZoom sqrtf delta = c := by
          unfold CameraController.applyOrbitZoom
          simp only [hen, Bool.not_true, Bool.false_eq_true, if_false, gt_iff_lt, if_neg hd]
        rw [key]
        exact ⟨rfl, rfl, rfl, fun _ h => absurd h hd⟩
    · have key : c.applyOrbitZoom sqrtf delta = c := by
        unfold CameraController.applyOrbitZoom
        simp only [Bool.not_eq_true] at hen
        simp only [hen, Bool.not_false, if_true]
      rw [key]
      exact ⟨rfl, rfl, rfl, fun h => absurd h hen⟩

/-- C24 (the code at the failing input): in the middle of the smooth move to "Top", with
orbit enabled and the camera 4 units from the orbit target, `applyOrbitZoom(1)` is not
skipped and makes the positions agree, but `isMoving()` is still true and the current
look-at `(0,0,1)` differs from the target look-at `(0,0,0)`; after `applyOrbitRotation`
positions and look-ats agree but `isMoving()` is still true. -/
theorem orbit_gesture_mid_transition_not_settled :
    (orbitingMidMove : CameraController ℝ).isOrbitEnabled = true ∧
    (orbitingMidMove : CameraController ℝ).isMoving = true ∧
    (orbitingMidMove : CameraController ℝ).orbitDistanceNow Real.sqrt = 4 ∧
    ((orbitingMidMove : CameraController ℝ).applyOrbitZoom Real.sqrt 1).isMoving = true ∧
    ((orbitingMidMove : CameraController ℝ).applyOrbitZoom Real.sqrt 1).currentState_.position
      = ((orbitingMidMove : CameraController ℝ).applyOrbitZoom Real.sqrt
          1).targetState_.position ∧
    ((orbitingMidMove : CameraController ℝ).applyOrbitZoom Real.sqrt 1).currentState_.lookAt
      = ⟨0, 0, 1⟩ ∧
    ((orbitingMidMove : CameraController ℝ).applyOrbitZoom Real.sqrt 1).targetState_.lookAt
      = ⟨0, 0, 0⟩ ∧
    ((orbitingMidMove : CameraController ℝ).applyOrbitZoom Real.sqrt 1).currentState_.lookAt
      ≠ ((orbitingMidMove : CameraController ℝ).applyOrbitZoom Real.sqrt
          1).targetState_.lookAt ∧
    ((orbitingMidMove : CameraController ℝ).applyOrbitRotation Real.sqrt
      (fun x z => Complex.arg ⟨z, x⟩) Real.arccos Real.sin Real.cos (1 / 2) (1 / 4)).isMoving
      = true := by
  have hd : (orbitingMidMove : CameraController ℝ).orbitDistanceNow Real.sqrt = 4 := by
    simp [CameraController.orbitDistanceNow, orbitingMidMove, withTop,
      CameraController.registerPreset, CameraController.new, OrbitConfig.init, Vector3.zero,
      Vector3.sub, Vector3.length]
  have hpos : 0 < ((orbitingMidMove : CameraController ℝ).currentState_.position.sub
      (orbitingMidMove : CameraController ℝ).orbitConfig_.target).length Real.sqrt := by
    have := hd
    unfold CameraController.orbitDistanceNow at this
    rw [this]
    norm_num
  have hz := ((orbitingMidMove : CameraController ℝ).orbit_gestures_effect Real.sqrt
    (fun x z => Complex.arg ⟨z, x⟩) Real.arccos Real.sin Real.cos).2 1
  have hr := ((orbitingMidMove : CameraController ℝ).orbit_gestures_effect Real.sqrt
    (fun x z => Complex.arg ⟨z, x⟩) Real.arccos Real.sin Real.cos).1 (1 / 2) (1 / 4)
  refine ⟨rfl, rfl, hd, ?_, hz.2.2.2 rfl hpos, ?_, ?_, ?_, ?_⟩
  · simp only [CameraController.isMoving]
    rw [hz.1]
    rfl
  · rw [hz.2.1]
    rfl
  · rw [hz.2.2.1]
    rfl
  · rw [hz.2.1, hz.2.2.1]
    simp [orbitingMidMove, CameraState.init]
  · simp only [CameraController.isMoving]
    rw [hr.1]
    rfl

/-! ## Current and target orbit distance -/

/-- Every camera call keeps the up vectors of the current and the target state at
`(0, 1, 0)`. -/
theorem CameraController.step_upVector {K : Type} [LinearOrderedField K]
    (sqrtf : K → K) (atan2f : K → K → K) (acosf sinf cosf : K → K)
    (c : CameraController K) (op : CameraOp K)
    (h : c.currentState_.upVector = ⟨0, 1, 0⟩ ∧ c.targetState_.upVector = ⟨0, 1, 0⟩) :
    (c.step sqrtf atan2f acosf sinf cosf op).currentState_.upVector = ⟨0, 1, 0⟩ ∧
    (c.step sqrtf atan2f acosf sinf cosf op).targetState_.upVector = ⟨0, 1, 0⟩ := by
  cases op with
  | setConfig config => exact h
  | setOrbitConfig config => exact h
  | registerPreset name preset => exact h
  | moveToPreset name smooth =>
    simp only [CameraController.step, CameraController.moveToPreset]
    split
    · exact h
    · split <;> exact h
  | setCamera position lookAt => exact h
  | setOrbitEnabled enabled =>
    simp only [CameraController.step, CameraController.setOrbitEnabled]
    split <;> exact h
  | applyOrbitRotation deltaX deltaY =>
    simp only [CameraController.step, CameraController.applyOrbitRotation]
    split <;> exact h
  | applyOrbitZoom delta =>
    simp only [CameraController.step, CameraController.applyOrbitZoom]
    split
    · exact h
    · split <;> exact h
  | initializeOrbitFromCamera => exact h
  | update deltaTime =>
    simp only [CameraController.step, CameraController.update]
    split
    · exact h
    · split <;> exact h

/-- C25 (the code at the failing input): after `setCamera((1,0,0), (0,0,0))` on a fresh
controller no transition is active and current and target agree in position, look-at and up
vector, but the current orbit distance is 1 while the target orbit distance is still the
constructor's 10: `setCamera` writes only the current one, unlike
`initializeOrbitFromCamera`, which writes both. -/
theorem setCamera_target_orbit_distance_stale :
    ((CameraController.new : CameraController ℝ).setCamera Real.sqrt ⟨1, 0, 0⟩
        ⟨0, 0, 0⟩).isMoving = false ∧
    ((CameraController.new : CameraController ℝ).setCamera Real.sqrt ⟨1, 0, 0⟩
        ⟨0, 0, 0⟩).currentState_.position =
      ((CameraController.new : CameraController ℝ).setCamera Real.sqrt ⟨1, 0, 0⟩
        ⟨0, 0, 0⟩).targetState_.position ∧
    ((CameraController.new : CameraController ℝ).setCamera Real.sqrt ⟨1, 0, 0⟩
        ⟨0, 0, 0⟩).currentState_.lookAt =
      ((CameraController.new : CameraController ℝ).setCamera Real.sqrt ⟨1, 0, 0⟩
        ⟨0, 0, 0⟩).targetState_.lookAt ∧
    ((CameraController.new : CameraController ℝ).setCamera Real.sqrt ⟨1, 0, 0⟩
        ⟨0, 0, 0⟩).currentState_.upVector =
      ((CameraController.new : CameraController ℝ).setCamera Real.sqrt ⟨1, 0, 0⟩
        ⟨0, 0, 0⟩).targetState_.upVector ∧
    ((CameraController.new : CameraController ℝ).setCamera Real.sqrt ⟨1, 0, 0⟩
        ⟨0, 0, 0⟩).currentState_.orbitDistance = 1 ∧
    ((CameraController.new : CameraController ℝ).setCamera Real.sqrt ⟨1, 0, 0⟩
        ⟨0, 0, 0⟩).targetState_.orbitDistance = 10 ∧
    ((CameraController.new : CameraController ℝ).setCamera Real.sqrt ⟨1, 0, 0⟩
        ⟨0, 0, 0⟩).currentState_.orbitDistance ≠
      ((CameraController.new : CameraController ℝ).setCamera Real.sqrt ⟨1, 0, 0⟩
        ⟨0, 0, 0⟩).targetState_.orbitDistance ∧
    ((CameraController.new : CameraController ℝ).initializeOrbitFromCamera
        Real.sqrt).currentState_.orbitDistance =
      ((CameraController.new : CameraController ℝ).initializeOrbitFromCamera
        Real.sqrt).targetState_.orbitDistance := by
  have hcur : ((CameraController.new : CameraController ℝ).setCamera Real.sqrt ⟨1, 0, 0⟩
      ⟨0, 0, 0⟩).currentState_.orbitDistance = 1 := by
    simp [CameraController.setCamera, Vector3.sub, Vector3.length]
  have htgt : ((CameraController.new : CameraController ℝ).setCamera Real.sqrt ⟨1, 0, 0⟩
      ⟨0, 0, 0⟩).targetState_.orbitDistance = 10 := rfl
  refine ⟨rfl, rfl, rfl, rfl, hcur, htgt, ?_, rfl⟩
  rw [hcur, htgt]
  norm_num

/-! ## Orbit rotation -/

/-- The state written by an enabled rotation. -/
theorem CameraController.applyOrbitRotation_active {K : Type} [LinearOrderedField K]
    (c : CameraController K) (sqrtf : K → K) (atan2f : K → K → K) (acosf sinf cosf : K → K)
    (deltaX deltaY : K) (hen : c.orbitEnabled_ = true) :
    c.applyOrbitRotation sqrtf atan2f acosf sinf cosf deltaX deltaY =
      { c with
        currentState_ :=
          { c.currentState_ with
            position := c.orbitConfig_.target.add
              ⟨c.orbitDistanceNow sqrtf *
                  sinf (stdClamp (c.elevation sqrtf acosf + deltaY) (1 / 10) (304 / 100)) *
                  sinf (atan2f (c.currentState_.position.sub c.orbitConfig_.target).x
                    (c.currentState_.position.sub c.orbitConfig_.target).z + deltaX),
                c.orbitDistanceNow sqrtf *
                  cosf (stdClamp (c.elevation sqrtf acosf + deltaY) (1 / 10) (304 / 100)),
                c.orbitDistanceNow sqrtf *
                  sinf (stdClamp (c.elevation sqrtf acosf + deltaY) (1 / 10) (304 / 100)) *
                  cosf (atan2f (c.currentState_.position.sub c.orbitConfig_.target).x
                    (c.currentState_.position.sub c.orbitConfig_.target).z + deltaX)⟩
            lookAt := c.orbitConfig_.target }
        targetState_ :=
          { c.targetState_ with
            position := c.orbitConfig_.target.add
              ⟨c.orbitDistanceNow sqrtf *
                  sinf (stdClamp (c.elevation sqrtf acosf + deltaY) (1 / 10) (304 / 100)) *
                  sinf (atan2f (c.currentState_.position.sub c.orbitConfig_.target).x
                    (c.currentState_.position.sub c.orbitConfig_.target).z + deltaX),
                c.orbitDistanceNow sqrtf *
                  cosf (stdClamp (c.elevation sqrtf acosf + deltaY) (1 / 10) (304 / 100)),
                c.orbitDistanceNow sqrtf *
                  sinf (stdClamp (c.elevation sqrtf acosf + deltaY) (1 / 10) (304 / 100)) *
                  cosf (atan2f (c.currentState_.position.sub c.orbitConfig_.target).x
                    (c.currentState_.position.sub c.orbitConfig_.target).z + deltaX)⟩
            lookAt := c.orbitConfig_.target } } := by
  unfold CameraController.applyOrbitRotation CameraController.orbitDistanceNow
    CameraController.elevation
  simp only [hen, Bool.not_true, Bool.false_eq_true, if_false]

/-- A point given in spherical coordinates of radius `d > 0` lies at distance `d`. -/
theorem spherical_length (d phi theta : ℝ) (hd : 0 < d) :
    (⟨d * Real.sin phi * Real.sin theta, d * Real.cos phi,
      d * Real.sin phi * Real.cos theta⟩ : Vector3 ℝ).length Real.sqrt = d := by
  simp only [Vector3.length]
  have h1 := Real.sin_sq_add_cos_sq theta
  have h2 := Real.sin_sq_add_cos_sq phi
  have h : d * Real.sin phi * Real.sin theta * (d * Real.sin phi * Real.sin theta) +
      d * Real.cos phi * (d * Real.cos phi) +
      d * Real.sin phi * Real.cos theta * (d * Real.sin phi * Real.cos theta) = d ^ 2 := by
    linear_combination (d ^ 2 * Real.sin phi ^ 2) * h1 + d ^ 2 * h2
  rw [h, Real.sqrt_sq hd.le]

/-- An enabled rotation at positive distance keeps orbit enabled, the orbit configuration
and the distance, and leaves the elevation at the clamped angle. -/
theorem CameraController.applyOrbitRotation_geometry (c : CameraController ℝ)
    (atan2f : ℝ → ℝ → ℝ) (deltaX deltaY : ℝ) (hen : c.orbitEnabled_ = true)
    (hd : 0 < c.orbitDistanceNow Real.sqrt) :
    (c.applyOrbitRotation Real.sqrt atan2f Real.arccos Real.sin Real.cos deltaX
      deltaY).orbitEnabled_ = true ∧
    (c.applyOrbitRotation Real.sqrt atan2f Real.arccos Real.sin Real.cos deltaX
      deltaY).orbitConfig_ = c.orbitConfig_ ∧
    (c.applyOrbitRotation Real.sqrt atan2f Real.arccos Real.sin Real.cos deltaX
      deltaY).orbitDistanceNow Real.sqrt = c.orbitDistanceNow Real.sqrt ∧
    (c.applyOrbitRotation Real.sqrt atan2f Real.arccos Real.sin Real.cos deltaX
      deltaY).elevation Real.sqrt Real.arccos =
        stdClamp (c.elevation Real.sqrt Real.arccos + deltaY) (1 / 10) (304 / 100) := by
  rw [c.applyOrbitRotation_active Real.sqrt atan2f Real.arccos Real.sin Real.cos deltaX deltaY
    hen]
  obtain ⟨hlo, hhi⟩ := stdClamp_mem (c.elevation Real.sqrt Real.arccos + deltaY) (1 / 10)
    (304 / 100) (by norm_num : (1 / 10 : ℝ) ≤ 304 / 100)
  have hpi : (304 / 100 : ℝ) ≤ Real.pi := by
    have := Real.pi_gt_d2
    norm_num at this ⊢
    linarith
  refine ⟨hen, rfl, ?_, ?_⟩
  · simp only [CameraController.orbitDistanceNow, Vector3.add_sub_cancel]
    exact spherical_length _ _ _ hd
  · simp only [CameraController.elevation, Vector3.add_sub_cancel] at hlo hhi ⊢
    rw [spherical_length _ _ _ hd, mul_div_cancel_left₀ _ hd.ne']
    exact Real.arccos_cos (by linarith) (by linarith)

/-- After a rotation the elevation stays in range under any further rotations. -/
theorem CameraController.rotations_elevation (atan2f : ℝ → ℝ → ℝ) :
    ∀ (gestures : List (ℝ × ℝ)) (c : CameraController ℝ), c.orbitEnabled_ = true →
      0 < c.orbitDistanceNow Real.sqrt →
      (1 / 10 ≤ c.elevation Real.sqrt Real.arccos ∧
        c.elevation Real.sqrt Real.arccos ≤ 304 / 100) →
      1 / 10 ≤ (c.rotations Real.sqrt atan2f Real.arccos Real.sin Real.cos
          gestures).elevation Real.sqrt Real.arccos ∧
        (c.rotations Real.sqrt atan2f Real.arccos Real.sin Real.cos
          gestures).elevation Real.sqrt Real.arccos ≤ 304 / 100 := by
  intro gestures
  induction gestures with
  | nil => intro c _ _ h; exact h
  | cons g rest ih =>
    intro c hen hd _
    obtain ⟨h1, _, h3, h4⟩ := c.applyOrbitRotation_geometry atan2f g.1 g.2 hen hd
    simp only [CameraController.rotations]
    refine ih _ h1 (by rw [h3]; exact hd) ?_
    rw [h4]
    exact stdClamp_mem _ _ _ (by norm_num)

/-- C22: with orbit enabled and the current position at distance `d > 0` from the orbit
target, after `applyOrbitRotation(dAz, dEl)` for any real `dAz`, `dEl`, and after any
non-empty finite sequence of such calls, the elevation angle `acos(dy / distance)` of the
current position relative to the orbit target lies in `[0.1, 3.04]`. -/
theorem orbit_elevation_bounded (c : CameraController ℝ) (atan2f : ℝ → ℝ → ℝ)
    (hen : c.isOrbitEnabled = true) (hd : 0 < c.orbitDistanceNow Real.sqrt) :
    (∀ dAz dEl,
      1 / 10 ≤ (c.applyOrbitRotation Real.sqrt atan2f Real.arccos Real.sin Real.cos dAz
          dEl).elevation Real.sqrt Real.arccos ∧
      (c.applyOrbitRotation Real.sqrt atan2f Real.arccos Real.sin Real.cos dAz
          dEl).elevation Real.sqrt Real.arccos ≤ 304 / 100) ∧
    (∀ gestures : List (ℝ × ℝ), gestures ≠ [] →
      1 / 10 ≤ (c.rotations Real.sqrt atan2f Real.arccos Real.sin Real.cos
          gestures).elevation Real.sqrt Real.arccos ∧
      (c.rotations Real.sqrt atan2f Real.arccos Real.sin Real.cos
          gestures).elevation Real.sqrt Real.arccos ≤ 304 / 100) := by
  simp only [CameraController.isOrbitEnabled] at hen
  have hone : ∀ dAz dEl,
      1 / 10 ≤ (c.applyOrbitRotation Real.sqrt atan2f Real.arccos Real.sin Real.cos dAz
          dEl).elevation Real.sqrt Real.arccos ∧
      (c.applyOrbitRotation Real.sqrt atan2f Real.arccos Real.sin Real.cos dAz
          dEl).elevation Real.sqrt Real.arccos ≤ 304 / 100 := by
    intro dAz dEl
    rw [(c.applyOrbitRotation_geometry atan2f dAz dEl hen hd).2.2.2]
    exact stdClamp_mem _ _ _ (by norm_num)
  refine ⟨hone, ?_⟩
  intro gestures hne
  cases gestures with
  | nil => exact absurd rfl hne
  | cons g rest =>
    obtain ⟨h1, _, h3, _⟩ := c.applyOrbitRotation_geometry atan2f g.1 g.2 hen hd
    simp only [CameraController.rotations]
    exact CameraController.rotations_elevation atan2f rest _ h1 (by rw [h3]; exact hd)
      (hone g.1 g.2)

/-- Witness of C22: a rotation with a huge elevation delta on the sample orbiting camera. -/
theorem orbit_elevation_bounded_witness :
    (orbitingAtFour : CameraController ℝ).isOrbitEnabled = true ∧
    0 < (orbitingAtFour : CameraController ℝ).orbitDistanceNow Real.sqrt ∧
    ((orbitingAtFour : CameraController ℝ).applyOrbitRotation Real.sqrt
        (fun x z => Complex.arg ⟨z, x⟩) Real.arccos Real.sin Real.cos 1
        1000000).elevation Real.sqrt Real.arccos ≤ 304 / 100 :=
  have hd : 0 < (orbitingAtFour : CameraController ℝ).orbitDistanceNow Real.sqrt := by
    unfold CameraController.orbitDistanceNow
    rw [orbitingAtFour_distance]
    norm_num
  ⟨rfl, hd,
    ((orbit_elevation_bounded orbitingAtFour (fun x z => Complex.arg ⟨z, x⟩) rfl hd).1 1
      1000000).2⟩

/-! ## Material PBR ranges -/

/-- `clamp01` lands in `[0, 1]`. -/
theorem MaterialManager.clamp01_mem {K : Type} [LinearOrderedField K] (value : K) :
    0 ≤ (MaterialManager.clamp01 value : K) ∧ (MaterialManager.clamp01 value : K) ≤ 1 := by
  unfold MaterialManager.clamp01 stdMax stdMin
  by_cases h1 : value < 1
  · simp only [if_pos h1]
    by_cases h2 : 0 < value
    · simp only [if_pos h2]
      exact ⟨h2.le, h1.le⟩
    · simp only [if_neg h2]
      exact ⟨le_refl 0, zero_le_one⟩
  · simp only [if_neg h1, if_pos (zero_lt_one : (0 : K) < 1)]
    exact ⟨zero_le_one, le_refl 1⟩

theorem PBRProperties.init_inRange {K : Type} [LinearOrderedField K] :
    (PBRProperties.init : PBRProperties K).InRange := by
  simp only [PBRProperties.InRange, PBRProperties.init]
  norm_num

/-- Every catalogue preset has its PBR scalars in `[0, 1]`. -/
theorem MaterialManager.getPresetConfig_inRange {K : Type} [LinearOrderedField K]
    (preset : MaterialPreset) :
    (MaterialManager.getPresetConfig preset : MaterialConfig K).pbr.InRange := by
  cases preset <;>
    simp only [MaterialManager.getPresetConfig, PBRProperties.InRange, PBRProperties.init] <;>
    norm_num

/-- Storing a configuration whose PBR scalars are in range keeps every part in range. -/
theorem MaterialManager.store_allInRange {K : Type} [LinearOrderedField K]
    (m : MaterialManager K) (partName : String) (config : MaterialConfig K)
    (hm : m.AllInRange) (hc : config.pbr.InRange) : (m.store partName config).AllInRange := by
  intro n cfg hn
  simp only [MaterialManager.store] at hn
  by_cases hEq : n = partName
  · rw [if_pos hEq] at hn
    cases hn
    exact hc
  · rw [if_neg hEq] at hn
    exact hm n cfg hn

/-- The entry of a part of an in-range store is in range, also when default-constructed. -/
theorem MaterialManager.entry_inRange {K : Type} [LinearOrderedField K]
    (m : MaterialManager K) (partName : String) (hm : m.AllInRange) :
    (m.entry partName).pbr.InRange := by
  unfold MaterialManager.entry
  cases h : m.materials_ partName with
  | none => exact PBRProperties.init_inRange
  | some config => exact hm partName config h

/-- Every call keeps all parts in range, provided `setMaterial` and `setPBRProperties` are
given values in range. -/
theorem MaterialManager.step_allInRange {K : Type} [LinearOrderedField K]
    (m : MaterialManager K) (op : MaterialOp K) (hop : op.SuppliesInRange)
    (hm : m.AllInRange) : (m.step op).AllInRange := by
  have he := fun partName => m.entry_inRange partName hm
  cases op with
  | setMaterial partName config => exact m.store_allInRange partName config hm hop
  | setPBRProperties partName pbr => exact m.store_allInRange partName _ hm hop
  | setMetallic partName metallic =>
    refine m.store_allInRange partName _ hm ?_
    obtain ⟨_, h2, h3, h4, h5, h6⟩ := he partName
    exact ⟨MaterialManager.clamp01_mem metallic, h2, h3, h4, h5, h6⟩
  | setRoughness partName roughness =>
    refine m.store_allInRange partName _ hm ?_
    obtain ⟨h1, _, h3, h4, h5, h6⟩ := he partName
    exact ⟨h1, MaterialManager.clamp01_mem roughness, h3, h4, h5, h6⟩
  | setClearCoat partName clearCoat roughness =>
    refine m.store_allInRange partName _ hm ?_
    obtain ⟨h1, h2, h3, _, _, h6⟩ := he partName
    exact ⟨h1, h2, h3, MaterialManager.clamp01_mem clearCoat,
      MaterialManager.clamp01_mem roughness, h6⟩
  | setBaseColor partName r g b a => exact m.store_allInRange partName _ hm (he partName)
  | setTexture partName slot texturePath =>
    cases slot <;> exact m.store_allInRange partName _ hm (he partName)
  | applyPreset partName preset =>
    exact m.store_allInRange partName _ hm (MaterialManager.getPresetConfig_inRange preset)
  | clear =>
    intro n cfg hn
    simp [MaterialManager.step, MaterialManager.clear] at hn

/-- From the empty store, every run whose `setMaterial` and `setPBRProperties` calls are
given values in range keeps the PBR scalars of every stored part in `[0, 1]`. -/
theorem MaterialManager.run_allInRange {K : Type} [LinearOrderedField K] :
    ∀ (ops : List (MaterialOp K)) (m : MaterialManager K), m.AllInRange →
      (∀ op ∈ ops, op.SuppliesInRange) → (m.run ops).AllInRange := by
  intro ops
  induction ops with
  | nil => intro m hm _; exact hm
  | cons op rest ih =>
    intro m hm hops
    exact ih (m.step op) (m.step_allInRange op (hops op (List.mem_cons_self _ _)) hm)
      (fun o ho => hops o (List.mem_cons_of_mem _ ho))

/-- C27 (the code at the failing input): `setPBRProperties("Body", pbr)` with
`pbr.metallic = 2` on an empty manager stores `metallic = 2` for "Body", outside `[0, 1]`,
and so does `setMaterial` with such a configuration, while `setMetallic("Body", 2)` stores
the clamped value 1. -/
theorem setPBRProperties_stores_unclamped :
    (((MaterialManager.new : MaterialManager ℚ).run
        [MaterialOp.setPBRProperties "Body" overdrivenPBR]).getMaterial "Body").map
      (fun config => config.pbr.metallic) = some 2 ∧
    ¬ ((MaterialManager.new : MaterialManager ℚ).run
        [MaterialOp.setPBRProperties "Body" overdrivenPBR]).AllInRange ∧
    (((MaterialManager.new : MaterialManager ℚ).run
        [MaterialOp.setMaterial "Body"
          { (MaterialConfig.init : MaterialConfig ℚ) with pbr := overdrivenPBR }]).getMaterial
        "Body").map (fun config => config.pbr.metallic) = some 2 ∧
    (((MaterialManager.new : MaterialManager ℚ).run
        [MaterialOp.setMetallic "Body" 2]).getMaterial "Body").map
      (fun config => config.pbr.metallic) = some 1 := by
  refine ⟨?_, ?_, ?_, ?_⟩
  · simp [MaterialManager.run, MaterialManager.step, MaterialManager.setPBRProperties,
      MaterialManager.store, MaterialManager.getMaterial, overdrivenPBR]
  · intro h
    have h2 := h "Body"
      { (MaterialManager.new : MaterialManager ℚ).entry "Body" with pbr := overdrivenPBR }
      (by
        simp [MaterialManager.run, MaterialManager.step, MaterialManager.setPBRProperties,
          MaterialManager.store])
    have h3 := h2.1.2
    simp [overdrivenPBR] at h3
  · simp [MaterialManager.run, MaterialManager.step, MaterialManager.setMaterial,
      MaterialManager.store, MaterialManager.getMaterial, overdrivenPBR]
  · simp [MaterialManager.run, MaterialManager.step, MaterialManager.setMetallic,
      MaterialManager.store, MaterialManager.getMaterial, MaterialManager.clamp01, stdMax,
      stdMin]

/-! ## The tick that reaches the target -/

/-- With factor 1 the interpolation lands exactly on its end point. -/
theorem CameraController.lerpVector_one {K : Type} [LinearOrderedField K] (a b : Vector3 K) :
    CameraController.lerpVector a b 1 = b := by
  cases a
  cases b
  simp [CameraController.lerpVector, Vector3.add, Vector3.sub, Vector3.mul]

/-- C31: if `isMoving` is true and the current pose is not within 0.01 of the target in both
position and look-at, then `isMoving` is still true after `update(dt)` for every `dt`; when
`5 * dt >= 1` the current position and look-at become exactly the target's in that call and
the flag is still set, and it is cleared by the next `update` call, whatever its `dt`. -/
theorem transition_finishes_on_later_tick (c : CameraController ℝ) (dt : ℝ)
    (hm : c.isMoving = true)
    (hfar : ¬ ((c.targetState_.position.sub c.currentState_.position).length Real.sqrt
          < 1 / 100 ∧
        (c.targetState_.lookAt.sub c.currentState_.lookAt).length Real.sqrt < 1 / 100)) :
    (c.update Real.sqrt dt).isMoving = true ∧
    (c.transitionSpeed_ = 5 → 1 ≤ 5 * dt →
      (c.update Real.sqrt dt).currentState_.position = c.targetState_.position ∧
      (c.update Real.sqrt dt).currentState_.lookAt = c.targetState_.lookAt ∧
      (c.update Real.sqrt dt).targetState_ = c.targetState_ ∧
      (c.update Real.sqrt dt).isMoving = true ∧
      ∀ dt2, ((c.update Real.sqrt dt).update Real.sqrt dt2).isMoving = false ∧
        ((c.update Real.sqrt dt).update Real.sqrt dt2).currentState_.position
          = c.targetState_.position ∧
        ((c.update Real.sqrt dt).update Real.sqrt dt2).currentState_.lookAt
          = c.targetState_.lookAt) := by
  simp only [CameraController.isMoving] at hm ⊢
  have hu : c.update Real.sqrt dt =
      { c with
        currentState_ :=
          { c.currentState_ with
            position := CameraController.lerpVector c.currentState_.position
              c.targetState_.position (stdMin (dt * c.transitionSpeed_) 1)
            lookAt := CameraController.lerpVector c.currentState_.lookAt
              c.targetState_.lookAt (stdMin (dt * c.transitionSpeed_) 1) } } := by
    unfold CameraController.update
    simp only [hm, Bool.not_true, Bool.false_eq_true, if_false, if_neg hfar]
  refine ⟨by rw [hu]; exact hm, ?_⟩
  intro hs hbig
  have ht : stdMin (dt * c.transitionSpeed_) 1 = 1 := by
    rw [hs]
    unfold stdMin
    split
    · rfl
    · rename_i hnot
      linarith [not_lt.mp hnot]
  have hpos : (c.update Real.sqrt dt).currentState_.position = c.targetState_.position := by
    rw [hu, ht]
    exact CameraController.lerpVector_one _ _
  have hlook : (c.update Real.sqrt dt).currentState_.lookAt = c.targetState_.lookAt := by
    rw [hu, ht]
    exact CameraController.lerpVector_one _ _
  have htgt : (c.update Real.sqrt dt).targetState_ = c.targetState_ := by
    rw [hu]
  have hmov : (c.update Real.sqrt dt).currentState_.isMoving = true := by
    rw [hu]
    exact hm
  refine ⟨hpos, hlook, htgt, hmov, fun dt2 => ?_⟩
  have hp0 : ((c.update Real.sqrt dt).targetState_.position.sub
      (c.update Real.sqrt dt).currentState_.position).length Real.sqrt < 1 / 100 := by
    rw [htgt, hpos, Vector3.length_sub_self]
    norm_num
  have hl0 : ((c.update Real.sqrt dt).targetState_.lookAt.sub
      (c.update Real.sqrt dt).currentState_.lookAt).length Real.sqrt < 1 / 100 := by
    rw [htgt, hlook, Vector3.length_sub_self]
    norm_num
  obtain ⟨n1, n2, n3⟩ := CameraController.update_near (c.update Real.sqrt dt) dt2 hmov hp0 hl0
  exact ⟨n1, by rw [n2, htgt], by rw [n3, htgt]⟩

/-- Witness of C31: a one-second tick of the sample move to "Top" lands on the target with
the flag still set. -/
theorem transition_finishes_on_later_tick_witness :
    (movingToTop : CameraController ℝ).isMoving = true ∧
    (movingToTop : CameraController ℝ).transitionSpeed_ = 5 ∧ (1 : ℝ) ≤ 5 * 1 ∧
    ((movingToTop : CameraController ℝ).update Real.sqrt 1).isMoving = true ∧
    ((movingToTop : CameraController ℝ).update Real.sqrt 1).currentState_.position =
      (movingToTop : CameraController ℝ).targetState_.position ∧
    (((movingToTop : CameraController ℝ).update Real.sqrt 1).update Real.sqrt 1).isMoving
      = false :=
  ⟨rfl, rfl, by norm_num,
    (transition_finishes_on_later_tick movingToTop 1 rfl movingToTop_far).1,
    ((transition_finishes_on_later_tick movingToTop 1 rfl movingToTop_far).2 rfl
      (by norm_num)).1,
    (((transition_finishes_on_later_tick movingToTop 1 rfl movingToTop_far).2 rfl
      (by norm_num)).2.2.2.2 1).1⟩

/-! ## Rotation on the sphere -/

/-- C32: with orbit enabled and the current position at distance `d > 0` from the orbit
target, after `applyOrbitRotation(dAz, dEl)` the current position is again at distance
exactly `d` from the orbit target, the current and the target look-at both equal the orbit
target, the target position equals the current position, and the stored orbit distances and
the orbit configuration are unchanged. -/
theorem orbit_rotation_on_sphere (c : CameraController ℝ) (atan2f : ℝ → ℝ → ℝ) (dAz dEl : ℝ)
    (hen : c.isOrbitEnabled = true) (hd : 0 < c.orbitDistanceNow Real.sqrt) :
    ((c.applyOrbitRotation Real.sqrt atan2f Real.arccos Real.sin Real.cos dAz
        dEl).currentState_.position.sub c.orbitConfig_.target).length Real.sqrt =
      (c.currentState_.position.sub c.orbitConfig_.target).length Real.sqrt ∧
    (c.applyOrbitRotation Real.sqrt atan2f Real.arccos Real.sin Real.cos dAz
        dEl).currentState_.lookAt = c.orbitConfig_.target ∧
    (c.applyOrbitRotation Real.sqrt atan2f Real.arccos Real.sin Real.cos dAz
        dEl).targetState_.lookAt = c.orbitConfig_.target ∧
    (c.applyOrbitRotation Real.sqrt atan2f Real.arccos Real.sin Real.cos dAz
        dEl).targetState_.position =
      (c.applyOrbitRotation Real.sqrt atan2f Real.arccos Real.sin Real.cos dAz
        dEl).currentState_.position ∧
    (c.applyOrbitRotation Real.sqrt atan2f Real.arccos Real.sin Real.cos dAz
        dEl).currentState_.orbitDistance = c.currentState_.orbitDistance ∧
    (c.applyOrbitRotation Real.sqrt atan2f Real.arccos Real.sin Real.cos dAz
        dEl).targetState_.orbitDistance = c.targetState_.orbitDistance ∧
    (c.applyOrbitRotation Real.sqrt atan2f Real.arccos Real.sin Real.cos dAz
        dEl).orbitConfig_ = c.orbitConfig_ := by
  simp only [CameraController.isOrbitEnabled] at hen
  obtain ⟨_, hcfg, hdist, _⟩ := c.applyOrbitRotation_geometry atan2f dAz dEl hen hd
  have hdist2 : ((c.applyOrbitRotation Real.sqrt atan2f Real.arccos Real.sin Real.cos dAz
      dEl).currentState_.position.sub c.orbitConfig_.target).length Real.sqrt =
      (c.currentState_.position.sub c.orbitConfig_.target).length Real.sqrt := by
    have h := hdist
    unfold CameraController.orbitDistanceNow at h
    rw [hcfg] at h
    exact h
  refine ⟨hdist2, ?_, ?_, ?_, ?_, ?_, hcfg⟩ <;>
    rw [c.applyOrbitRotation_active Real.sqrt atan2f Real.arccos Real.sin Real.cos dAz dEl hen]

/-- Witness of C32: a rotation of the sample orbiting camera keeps it 4 units from the
orbit target. -/
theorem orbit_rotation_on_sphere_witness :
    (orbitingAtFour : CameraController ℝ).isOrbitEnabled = true ∧
    0 < (orbitingAtFour : CameraController ℝ).orbitDistanceNow Real.sqrt ∧
    (((orbitingAtFour : CameraController ℝ).applyOrbitRotation Real.sqrt
        (fun x z => Complex.arg ⟨z, x⟩) Real.arccos Real.sin Real.cos (1 / 2)
        (1 / 4)).currentState_.position.sub
      (orbitingAtFour : CameraController ℝ).orbitConfig_.target).length Real.sqrt =
      ((orbitingAtFour : CameraController ℝ).currentState_.position.sub
        (orbitingAtFour : CameraController ℝ).orbitConfig_.target).length Real.sqrt :=
  have hd : 0 < (orbitingAtFour : CameraController ℝ).orbitDistanceNow Real.sqrt := by
    unfold CameraController.orbitDistanceNow
    rw [orbitingAtFour_distance]
    norm_num
  ⟨rfl, hd,
    (orbit_rotation_on_sphere orbitingAtFour (fun x z => Complex.arg ⟨z, x⟩) (1 / 2) (1 / 4)
      rfl hd).1⟩

end core3d
